import Mathlib

/-!
# libgdsync: lowering of peer operations to stream memory operations

A shallow embedding of `src/gdsync_debug_hostregister_bug.cpp`:
the capability resolvers, the builders `gds_fill_*`, the translator
`gds_post_ops`, the planner `calc_n_mem_ops`, the orchestrator
`gds_stream_post_descriptors` and the submitter `gds_stream_batch_ops`;
and of the descriptor extraction `gds_mlx5_get_send_descs` and
`gds_mlx5_get_wait_descs` of `src/mlx5.cpp`.

Conventions of the embedding.

* `assert(e)` is active (the sources never define `NDEBUG`): when `e` is false
  the process aborts.  A run therefore ends either *aborted* or *returned* with
  an `int` return code; both keep the cursor and the buffer reached so far.
* The `params` array is a map from slot index to record; the slots of the
  caller's variable-length array are the indices below its size, a write at an
  index at or past that size is a write past the end of the array.
* `CUstreamBatchMemOpParams` is a C union; the record below keeps the members
  side by side, and only the member selected by `operation` is meaningful.
* Unsigned C integers are naturals, reduced modulo `2^32` or `2^64` where the C
  code truncates or can wrap.
* Logging (`gds_dbg`, `gds_err`, `gds_warn`, `gds_dump_params`) has no effect
  on the results and is left out.
-/

namespace GDSync

/-! ## Constants of the headers -/

/-- The errno value `EINVAL` of `<errno.h>` on Linux. -/
def EINVAL : Int := 22

/-- The bound `GDS_GPU_MAX_INLINE_SIZE` (line 95). -/
def GDS_GPU_MAX_INLINE_SIZE : Nat := 256

/-- The flag `GDS_POST_OPS_DISCARD_WAIT_FLUSH = 1<<0` (line 675). -/
def GDS_POST_OPS_DISCARD_WAIT_FLUSH : Nat := 1

/-- Modelled from the spec: `gdsync.h` is not among the sources; this is the
"pre-barrier requested" flag of `gds_poke_flags`, one bit (`1<<4`). -/
def GDS_POKE_POST_PRE_BARRIER : Nat := 16

/-- Modelled from the spec: `gdsync.h` is not among the sources; this is the
"post-barrier requested" flag of `gds_immcopy_flags`, one bit (`1<<4`). -/
def GDS_IMMCOPY_POST_TAIL_FLUSH : Nat := 16

/-- Modelled from the spec: `gdsync.h` is not among the sources; this is the
"remote flush requested" flag of `gds_poll_flags`, one bit (`1<<3`). -/
def GDS_POLL_POST_FLUSH : Nat := 8

/-- Modelled from the spec: `gdsync.h` is not among the sources; the host
memory type of `gds_memory_type`. -/
def GDS_MEMORY_HOST : Nat := 2

/-- Modelled from the spec: `gdsync.h` is not among the sources; the poll
condition `GEQ` of `gds_poll_cond_flag`. -/
def GDS_POLL_COND_GEQ : Nat := 0

/-- Modelled from the spec: `gdsync.h` is not among the sources; the poll
condition `EQ` of `gds_poll_cond_flag`. -/
def GDS_POLL_COND_EQ : Nat := 1

/-- Modelled from the spec: `gdsync.h` is not among the sources; the poll
condition `AND` of `gds_poll_cond_flag`. -/
def GDS_POLL_COND_AND : Nat := 2

/-- Modelled from the spec: `gdsync.h` is not among the sources; the poll
condition `NOR` of `gds_poll_cond_flag`. -/
def GDS_POLL_COND_NOR : Nat := 3

/-- Modelled from the spec: `gdsync.h` is not among the sources; the
flush-remote request of `gds_membar_flags`, one bit (`1<<4`). -/
def GDS_MEMBAR_FLUSH_REMOTE : Nat := 16

/-- Modelled from the spec: `gdsync.h` is not among the sources; the light
scope of `gds_membar_flags`, one bit (`1<<5`). -/
def GDS_MEMBAR_DEFAULT : Nat := 32

/-- Modelled from the spec: `gdsync.h` is not among the sources; the heavy
scope of `gds_membar_flags`, one bit (`1<<6`). -/
def GDS_MEMBAR_SYS : Nat := 64

/-- Fence direction bit `IBV_EXP_PEER_FENCE_OP_READ` of the verbs header. -/
def IBV_EXP_PEER_FENCE_OP_READ : Nat := 1

/-- Fence direction bit `IBV_EXP_PEER_FENCE_OP_WRITE` of the verbs header. -/
def IBV_EXP_PEER_FENCE_OP_WRITE : Nat := 2

/-- Fence origin bit `IBV_EXP_PEER_FENCE_FROM_CPU` of the verbs header. -/
def IBV_EXP_PEER_FENCE_FROM_CPU : Nat := 4

/-- Fence origin bit `IBV_EXP_PEER_FENCE_FROM_HCA` of the verbs header. -/
def IBV_EXP_PEER_FENCE_FROM_HCA : Nat := 8

/-- Fence domain bit `IBV_EXP_PEER_FENCE_MEM_SYS` of the verbs header. -/
def IBV_EXP_PEER_FENCE_MEM_SYS : Nat := 16

/-- Fence domain bit `IBV_EXP_PEER_FENCE_MEM_PEER` of the verbs header. -/
def IBV_EXP_PEER_FENCE_MEM_PEER : Nat := 32

/-- The flag `CU_STREAM_WRITE_VALUE_NO_MEMORY_BARRIER` of `cuda.h`. -/
def CU_STREAM_WRITE_VALUE_NO_MEMORY_BARRIER : Nat := 1

/-- The condition `CU_STREAM_WAIT_VALUE_GEQ` of `cuda.h`. -/
def CU_STREAM_WAIT_VALUE_GEQ : Nat := 0

/-- The condition `CU_STREAM_WAIT_VALUE_EQ` of `cuda.h`. -/
def CU_STREAM_WAIT_VALUE_EQ : Nat := 1

/-- The condition `CU_STREAM_WAIT_VALUE_AND` of `cuda.h`. -/
def CU_STREAM_WAIT_VALUE_AND : Nat := 2

/-- The flag `CU_STREAM_WAIT_VALUE_FLUSH = 1<<30` of `cuda.h`. -/
def CU_STREAM_WAIT_VALUE_FLUSH : Nat := 2 ^ 30

/-- The flag `CU_STREAM_INLINE_COPY_NO_MEMORY_BARRIER` of the inline-copy
extension of `cuda.h` (one bit). -/
def CU_STREAM_INLINE_COPY_NO_MEMORY_BARRIER : Nat := 1

/-- The scope `CU_STREAM_MEMORY_BARRIER_DEFAULT` of the memory-barrier
extension of `cuda.h`. -/
def CU_STREAM_MEMORY_BARRIER_DEFAULT : Nat := 0

/-- The scope `CU_STREAM_MEMORY_BARRIER_SYS` of the memory-barrier extension of
`cuda.h`. -/
def CU_STREAM_MEMORY_BARRIER_SYS : Nat := 1

/-- The flag `CU_STREAM_BATCH_MEM_OP_CONSISTENCY_WEAK` of `cuda.h`. -/
def CU_STREAM_BATCH_MEM_OP_CONSISTENCY_WEAK : Nat := 1

/-- The result `CUDA_SUCCESS` of `cuda.h`. -/
def CUDA_SUCCESS : Nat := 0

/-! ## Capability configuration -/

/-- The compile-time feature macros (lines 65-91). -/
structure Build where
  GDS_HAS_WRITE64 : Bool
  GDS_HAS_INLINE_COPY : Bool
  GDS_HAS_WEAK_API : Bool
  GDS_HAS_MEMBAR : Bool
  deriving DecidableEq, Repr

/-- The process environment as `getenv` sees it: for each variable the bytes of
its value, or `none` when it is unset. -/
structure Env where
  GDS_DISABLE_WRITE64 : Option (List Nat)
  GDS_DISABLE_INLINECOPY : Option (List Nat)
  GDS_SIMULATE_WRITE64 : Option (List Nat)
  GDS_DISABLE_MEMBAR : Option (List Nat)
  GDS_DISABLE_WEAK_CONSISTENCY : Option (List Nat)
  GDS_ENABLE_DUMP_MEMOPS : Option (List Nat)
  deriving DecidableEq, Repr

/-- The C predicate `isspace` in the "C" locale, on a byte. -/
def isspace (c : Nat) : Bool := c == 32 || (9 ≤ c && c ≤ 13)

/-- The decimal digits at the head of a byte string, accumulated onto `acc`. -/
def atoi_digits : List Nat → Nat → Nat
  | [], acc => acc
  | c :: cs, acc => if 48 ≤ c ∧ c ≤ 57 then atoi_digits cs (acc * 10 + (c - 48)) else acc

/-- The C function `atoi`: leading white space, an optional sign, then decimal
digits; `0` when there is no digit.  (Values outside `int` are undefined in C;
the model keeps the mathematical value.) -/
def atoi (s : List Nat) : Int :=
  match s.dropWhile isspace with
  | 45 :: cs => - (atoi_digits cs 0 : Int)
  | 43 :: cs => (atoi_digits cs 0 : Int)
  | cs => (atoi_digits cs 0 : Int)

/-- The idiom `env ? !!atoi(env) : dflt` shared by the resolvers. -/
def env_flag (v : Option (List Nat)) (dflt : Bool) : Bool :=
  match v with
  | some s => atoi s != 0
  | none => dflt

/-- Value of `gds_enable_write64()` (lines 110-124): always `false`. -/
def gds_enable_write64 (_b : Build) (_e : Env) : Bool := false

/-- Value of `gds_enable_inlcpy()` (lines 126-138) in a process started with
environment `e`. -/
def gds_enable_inlcpy (b : Build) (e : Env) : Bool :=
  let gds_disable_inlcpy := env_flag e.GDS_DISABLE_INLINECOPY false
  b.GDS_HAS_INLINE_COPY && !gds_disable_inlcpy

/-- Value of `gds_simulate_write64()` (lines 140-158) in a process started with
environment `e`. -/
def gds_simulate_write64 (b : Build) (e : Env) : Bool :=
  let v := env_flag e.GDS_SIMULATE_WRITE64 false
  let gds_simulate_write64 := if v && gds_enable_inlcpy b e then false else v
  b.GDS_HAS_INLINE_COPY && gds_simulate_write64

/-- Value of `gds_enable_membar()` (lines 160-172) in a process started with
environment `e`. -/
def gds_enable_membar (b : Build) (e : Env) : Bool :=
  let gds_disable_membar := env_flag e.GDS_DISABLE_MEMBAR false
  b.GDS_HAS_MEMBAR && !gds_disable_membar

/-- Value of `gds_enable_weak_consistency()` (lines 174-186) in a process
started with environment `e`. -/
def gds_enable_weak_consistency (b : Build) (e : Env) : Bool :=
  let gds_disable_weak_consistency := env_flag e.GDS_DISABLE_WEAK_CONSISTENCY true
  b.GDS_HAS_WEAK_API && !gds_disable_weak_consistency

/-- Value of `gds_enable_dump_memops()` (lines 190-202) in a process started
with environment `e`. -/
def gds_enable_dump_memops (_b : Build) (e : Env) : Bool :=
  env_flag e.GDS_ENABLE_DUMP_MEMOPS false

/-- The function `gpu_does_support_nor` (line 105). -/
def gpu_does_support_nor : Bool := false

/-! ## Data model -/

/-- One entry of the linked list `struct peer_op_wr`: the tag `type` with the
member of the union `wr` that the tag selects.  `UNDEFINED` stands for a tag
outside the enumeration. -/
inductive peer_op_wr where
  | FENCE (fence_flags : Nat)
  | STORE_DWORD (data target_id offset : Nat)
  | STORE_QWORD (data target_id offset : Nat)
  | COPY_BLOCK (src len target_id offset : Nat)
  | POLL_AND_DWORD (data target_id offset : Nat)
  | POLL_GEQ_DWORD (data target_id offset : Nat)
  | POLL_NOR_DWORD (data target_id offset : Nat)
  | UNDEFINED (type : Nat)
  deriving DecidableEq, Repr

/-- The tag `operation` of a stream memory operation; `OTHER` stands for any
value that is none of the five used here (as in an uninitialised slot). -/
inductive CUstreamBatchMemOpType where
  | WAIT_VALUE_32
  | WRITE_VALUE_32
  | FLUSH_REMOTE_WRITES
  | INLINE_COPY
  | MEMORY_BARRIER
  | OTHER (v : Nat)
  deriving DecidableEq, Repr

/-- The pointer `srcData` of an inline copy: a caller pointer, or the address
`&data` of the local variable of `gds_post_ops` that holds the payload. -/
inductive SrcData where
  | ptr (p : Nat)
  | addr_of_local (data : Nat)
  deriving DecidableEq, Repr

/-- Member `waitValue` of `CUstreamBatchMemOpParams`. -/
structure WaitValueParams where
  address : Nat
  value : Nat
  flags : Nat
  deriving DecidableEq, Repr

/-- Member `writeValue` of `CUstreamBatchMemOpParams`. -/
structure WriteValueParams where
  address : Nat
  value : Nat
  flags : Nat
  deriving DecidableEq, Repr

/-- Member `inlineCopy` of `CUstreamBatchMemOpParams`. -/
structure InlineCopyParams where
  address : Nat
  srcData : SrcData
  byteCount : Nat
  flags : Nat
  deriving DecidableEq, Repr

/-- Member `flushRemoteWrites` of `CUstreamBatchMemOpParams`. -/
structure FlushRemoteWritesParams where
  flags : Nat
  deriving DecidableEq, Repr

/-- Member `memoryBarrier` of `CUstreamBatchMemOpParams`. -/
structure MemoryBarrierParams where
  flags : Nat
  deriving DecidableEq, Repr

/-- One slot of the `params` array. -/
structure CUstreamBatchMemOpParams where
  operation : CUstreamBatchMemOpType
  waitValue : WaitValueParams
  writeValue : WriteValueParams
  flushRemoteWrites : FlushRemoteWritesParams
  inlineCopy : InlineCopyParams
  memoryBarrier : MemoryBarrierParams
  deriving DecidableEq, Repr

/-- The `params` array seen from its base: slot index to record. -/
abbrev Params := Nat → CUstreamBatchMemOpParams

/-- The assignment `params[i] = v`. -/
def setSlot (params : Params) (i : Nat) (v : CUstreamBatchMemOpParams) : Params :=
  fun j => if j = i then v else params j

/-- What the translator needs from the rest of the process: the build, the
environment, and the range table (`range_from_id(id)->dptr`). -/
structure Ctx where
  build : Build
  env : Env
  dptr : Nat → Nat

/-! ## Builders -/

/-- The function `gds_fill_membar` (lines 263-295): return code and slot. -/
def gds_fill_membar (b : Build) (param : CUstreamBatchMemOpParams) (flags : Nat) :
    Int × CUstreamBatchMemOpParams :=
  if b.GDS_HAS_MEMBAR then
    if flags &&& GDS_MEMBAR_FLUSH_REMOTE ≠ 0 then
      (0, { param with operation := .FLUSH_REMOTE_WRITES, flushRemoteWrites := { flags := 0 } })
    else if flags &&& GDS_MEMBAR_DEFAULT ≠ 0 then
      (0, { param with operation := .MEMORY_BARRIER,
                       memoryBarrier := { flags := CU_STREAM_MEMORY_BARRIER_DEFAULT } })
    else if flags &&& GDS_MEMBAR_SYS ≠ 0 then
      (0, { param with operation := .MEMORY_BARRIER,
                       memoryBarrier := { flags := CU_STREAM_MEMORY_BARRIER_SYS } })
    else (EINVAL, param)
  else (EINVAL, param)

/-- The function `gds_fill_inlcpy` on a device address (lines 299-331); `none`
is a failed assertion. -/
def gds_fill_inlcpy (b : Build) (param : CUstreamBatchMemOpParams) (addr : Nat)
    (data : SrcData) (n_bytes : Nat) (flags : Nat) : Option (Int × CUstreamBatchMemOpParams) :=
  if b.GDS_HAS_INLINE_COPY then
    if addr = 0 then none
    else if ¬ (n_bytes > 0) then none
    else
      let need_barrier : Bool := flags &&& GDS_IMMCOPY_POST_TAIL_FLUSH ≠ 0
      some (0, { param with
        operation := .INLINE_COPY,
        inlineCopy := {
          byteCount := n_bytes,
          srcData := data,
          address := addr,
          flags := if need_barrier then 0 else CU_STREAM_INLINE_COPY_NO_MEMORY_BARRIER } })
  else some (EINVAL, param)

/-- The function `gds_enable_barrier_for_inlcpy` (lines 350-356); `none` is a
failed assertion. -/
def gds_enable_barrier_for_inlcpy (b : Build) (param : CUstreamBatchMemOpParams) :
    Option CUstreamBatchMemOpParams :=
  if b.GDS_HAS_INLINE_COPY then
    if param.operation ≠ .INLINE_COPY then none
    else some { param with inlineCopy := { param.inlineCopy with
      flags := param.inlineCopy.flags &&& (0xFFFFFFFF ^^^ CU_STREAM_INLINE_COPY_NO_MEMORY_BARRIER) } }
  else some param

/-- The function `gds_fill_poke` on a device address (lines 360-384); `none` is
a failed assertion. -/
def gds_fill_poke (param : CUstreamBatchMemOpParams) (addr : Nat) (value : Nat) (flags : Nat) :
    Option (Int × CUstreamBatchMemOpParams) :=
  if addr = 0 then none
  else if ¬ (addr &&& 3 = 0) then none
  else
    let need_barrier : Bool := flags &&& GDS_POKE_POST_PRE_BARRIER ≠ 0
    some (0, { param with
      operation := .WRITE_VALUE_32,
      writeValue := {
        address := addr,
        value := value,
        flags := if need_barrier then 0 else CU_STREAM_WRITE_VALUE_NO_MEMORY_BARRIER } })

/-- The function `gds_fill_poll` on a device address (lines 406-448); `none` is
a failed assertion.  `cond_flag` and `flags` are the C `int`s read as bit
patterns. -/
def gds_fill_poll (param : CUstreamBatchMemOpParams) (ptr : Nat) (magic : Nat) (cond_flag : Nat)
    (flags : Nat) : Option (Int × CUstreamBatchMemOpParams) :=
  if ptr = 0 then none
  else if ¬ (ptr &&& 3 = 0) then none
  else
    let need_flush : Bool := flags &&& GDS_POLL_POST_FLUSH ≠ 0
    let fin (cond : Nat) : Option (Int × CUstreamBatchMemOpParams) :=
      some (0, { param with
        operation := .WAIT_VALUE_32,
        waitValue := {
          address := ptr,
          value := magic,
          flags := if need_flush then cond ||| CU_STREAM_WAIT_VALUE_FLUSH else cond } })
    if cond_flag = GDS_POLL_COND_GEQ then fin CU_STREAM_WAIT_VALUE_GEQ
    else if cond_flag = GDS_POLL_COND_EQ then fin CU_STREAM_WAIT_VALUE_EQ
    else if cond_flag = GDS_POLL_COND_AND then fin CU_STREAM_WAIT_VALUE_AND
    else
      some (EINVAL, { param with
        operation := .WAIT_VALUE_32,
        waitValue := { param.waitValue with address := ptr, value := magic } })

/-- The function `gds_qword_lo` (line 667). -/
def gds_qword_lo (v : Nat) : Nat := v % 2 ^ 32

/-- The function `gds_qword_hi` (line 670). -/
def gds_qword_hi (v : Nat) : Nat := ((v % 2 ^ 64) >>> 32) % 2 ^ 32

/-! ## The translator `gds_post_ops` -/

/-- State of one traversal of `gds_post_ops`: the cursor `idx` and the array
`params` shared with the caller, the local `prev_was_fence`, the local
`retcode`, and whether an assertion has failed. -/
structure St where
  idx : Nat
  params : Params
  prev_was_fence : Bool
  retcode : Int
  aborted : Bool

/-- The local `use_inlcpy_for_dword` as computed on entry (lines 683-699). -/
def use_inlcpy_for_dword (b : Build) (e : Env) : Bool :=
  let u := false
  let u := if gds_enable_inlcpy b e then (if !gds_enable_membar b e then true else u) else u
  let u := if gds_simulate_write64 b e then (if !gds_enable_membar b e then true else u) else u
  u

/-- The statement pair `retcode = fill(params+idx, ...); ++idx;` for a builder
without assertions. -/
def St.emit (s : St) (r : Int × CUstreamBatchMemOpParams) : St :=
  { s with params := setSlot s.params s.idx r.2, retcode := r.1, idx := s.idx + 1 }

/-- The statement pair `retcode = fill(params+idx, ...); ++idx;` for a builder
with assertions: a failed assertion aborts before anything is written. -/
def St.emit? (s : St) (r : Option (Int × CUstreamBatchMemOpParams)) : St :=
  match r with
  | none => { s with aborted := true }
  | some r => s.emit r

/-- One iteration of the loop of `gds_post_ops` (lines 702-905): the `switch`
on `op->type`, up to its `break` (or `goto out`). -/
def gds_post_op (c : Ctx) (post_flags : Nat) (use_inlcpy : Bool) (op : peer_op_wr) (s : St) : St :=
  let b := c.build
  let e := c.env
  match op with
  | .FENCE fence_flags =>
    let fence_op := fence_flags &&& (IBV_EXP_PEER_FENCE_OP_READ ||| IBV_EXP_PEER_FENCE_OP_WRITE)
    let fence_from := fence_flags &&& (IBV_EXP_PEER_FENCE_FROM_CPU ||| IBV_EXP_PEER_FENCE_FROM_HCA)
    let fence_mem := fence_flags &&& (IBV_EXP_PEER_FENCE_MEM_SYS ||| IBV_EXP_PEER_FENCE_MEM_PEER)
    if fence_op = IBV_EXP_PEER_FENCE_OP_READ then s
    else if !gds_enable_membar b e then
      if use_inlcpy then
        if ¬ (s.idx ≥ 1) then { s with aborted := true }
        else
          match gds_enable_barrier_for_inlcpy b (s.params (s.idx - 1)) with
          | none => { s with aborted := true }
          | some p => { s with params := setSlot s.params (s.idx - 1) p }
      else { s with prev_was_fence := true }
    else if fence_from ≠ IBV_EXP_PEER_FENCE_FROM_HCA then { s with retcode := EINVAL }
    else if fence_mem = IBV_EXP_PEER_FENCE_MEM_PEER then
      s.emit (gds_fill_membar b (s.params s.idx) GDS_MEMBAR_DEFAULT)
    else if fence_mem = IBV_EXP_PEER_FENCE_MEM_SYS then
      s.emit (gds_fill_membar b (s.params s.idx) GDS_MEMBAR_SYS)
    else { s with retcode := EINVAL }
  | .STORE_DWORD data target_id offset =>
    let dev_ptr := (c.dptr target_id + offset) % 2 ^ 64
    let data := data % 2 ^ 32
    let flags := 0
    if use_inlcpy then
      if gds_enable_membar b e then { s with retcode := EINVAL }
      else s.emit? (gds_fill_inlcpy b (s.params s.idx) dev_ptr (.addr_of_local data) 4 flags)
    else
      if gds_enable_inlcpy b e && !gds_enable_membar b e then { s with retcode := EINVAL }
      else
        let flags := if s.prev_was_fence then flags ||| GDS_POKE_POST_PRE_BARRIER else flags
        let s := if s.prev_was_fence then { s with prev_was_fence := false } else s
        s.emit? (gds_fill_poke (s.params s.idx) dev_ptr data flags)
  | .STORE_QWORD data target_id offset =>
    let dev_ptr := (c.dptr target_id + offset) % 2 ^ 64
    let data := data % 2 ^ 64
    let flags := 0
    if gds_enable_write64 b e then { s with retcode := EINVAL }
    else if gds_simulate_write64 b e then
      if !gds_enable_membar b e then { s with retcode := EINVAL }
      else s.emit? (gds_fill_inlcpy b (s.params s.idx) dev_ptr (.addr_of_local data) 8 flags)
    else
      let datalo := gds_qword_lo data
      let datahi := gds_qword_hi data
      let flags := if s.prev_was_fence then flags ||| GDS_POKE_POST_PRE_BARRIER else flags
      let s := if s.prev_was_fence then { s with prev_was_fence := false } else s
      let s := s.emit? (gds_fill_poke (s.params s.idx) dev_ptr datalo flags)
      if s.aborted then s
      else
        let flags := flags &&& (0xFFFFFFFF ^^^ GDS_POKE_POST_PRE_BARRIER)
        let dev_ptr := (dev_ptr + 4) % 2 ^ 64
        s.emit? (gds_fill_poke (s.params s.idx) dev_ptr datahi flags)
  | .COPY_BLOCK src len target_id offset =>
    let dev_ptr := (c.dptr target_id + offset) % 2 ^ 64
    let flags := 0
    if !gds_enable_inlcpy b e then { s with retcode := EINVAL }
    else if ¬ (len ≤ GDS_GPU_MAX_INLINE_SIZE) then { s with aborted := true }
    else s.emit? (gds_fill_inlcpy b (s.params s.idx) dev_ptr (.ptr src) len flags)
  | .POLL_AND_DWORD data target_id offset =>
    let dev_ptr := (c.dptr target_id + offset) % 2 ^ 64
    let data := data % 2 ^ 32
    let flags := 0
    let flags := if post_flags &&& GDS_POST_OPS_DISCARD_WAIT_FLUSH = 0
      then flags ||| GDS_POLL_POST_FLUSH else flags
    s.emit? (gds_fill_poll (s.params s.idx) dev_ptr data GDS_POLL_COND_AND flags)
  | .POLL_GEQ_DWORD data target_id offset =>
    let dev_ptr := (c.dptr target_id + offset) % 2 ^ 64
    let data := data % 2 ^ 32
    let flags := 0
    let flags := if post_flags &&& GDS_POST_OPS_DISCARD_WAIT_FLUSH = 0
      then flags ||| GDS_POLL_POST_FLUSH else flags
    s.emit? (gds_fill_poll (s.params s.idx) dev_ptr data GDS_POLL_COND_GEQ flags)
  | .POLL_NOR_DWORD _ _ _ =>
    if ¬ gpu_does_support_nor then { s with aborted := true }
    else { s with retcode := -EINVAL }
  | .UNDEFINED _ => { s with retcode := EINVAL }

/-- The loop `for (; op && n < n_ops; op = op->next, ++n)` of `gds_post_ops`
followed by `assert(n_ops == n)`; the first argument is `n_ops - n`.  An
iteration that leaves `retcode` non-zero jumps to `out`, past the assertion. -/
def gds_post_ops_loop (c : Ctx) (post_flags : Nat) (use_inlcpy : Bool) :
    Nat → List peer_op_wr → St → St
  | 0, _, s => s
  | _ + 1, [], s => { s with aborted := true }
  | n + 1, op :: ops, s =>
    let s1 := gds_post_op c post_flags use_inlcpy op s
    if s1.aborted || s1.retcode != 0 then s1
    else gds_post_ops_loop c post_flags use_inlcpy n ops s1

/-- What a call leaves behind: whether the process aborted in an assertion,
the return code, and the cursor and array as the call left them. -/
structure Res where
  aborted : Bool
  retcode : Int
  idx : Nat
  params : Params

/-- The function `gds_post_ops` (lines 678-916).  The linked list `op` is the
list of its entries. -/
def gds_post_ops (c : Ctx) (n_ops : Nat) (op : List peer_op_wr) (params : Params) (idx : Nat)
    (post_flags : Nat) : Res :=
  let s0 : St :=
    { idx := idx, params := params, prev_was_fence := false, retcode := 0, aborted := false }
  let s := gds_post_ops_loop c post_flags (use_inlcpy_for_dword c.build c.env) n_ops op s0
  { aborted := s.aborted, retcode := s.retcode, idx := s.idx, params := s.params }

/-- A run that returned `0`. -/
def Res.ok (r : Res) : Bool := !r.aborted && r.retcode == 0

/-! ## Descriptors, planner, orchestrator and submitter -/

/-- The member `value32` of a descriptor. -/
structure gds_value32_t where
  ptr : Nat
  value : Nat
  flags : Nat
  cond_flags : Nat
  deriving DecidableEq, Repr

/-- One `gds_descriptor_t`: the tag with the member it selects.  For `SEND` and
`WAIT` the fields are `commit.entries`/`commit.storage` and
`peek.entries`/`peek.storage` of the request pointed to.  `INVALID` stands for
a tag outside the enumeration. -/
inductive gds_descriptor_t where
  | SEND (entries : Nat) (storage : List peer_op_wr)
  | WAIT (entries : Nat) (storage : List peer_op_wr)
  | WAIT_VALUE32 (value32 : gds_value32_t)
  | WRITE_VALUE32 (value32 : gds_value32_t)
  | INVALID (tag : Nat)
  deriving DecidableEq, Repr

/-- A read of a `uint32_t` field (`entries` is declared `uint32_t` in the verbs
header). -/
def u32 (n : Nat) : Nat := n % 2 ^ 32

/-- The collaborators outside this file: the address lookup `gds_map_mem`
(taking the flags from which it derives the memory type, returning a return
code and the device address), the driver call `cuStreamBatchMemOp` (count,
array, flags to result) and `gds_curesult_to_errno`. -/
structure Ext where
  gds_map_mem : Nat → Nat → Nat → Int × Nat
  cuStreamBatchMemOp : Nat → Params → Nat → Nat
  gds_curesult_to_errno : Nat → Int

/-- The overload of `gds_fill_poke` on a host pointer (lines 386-402). -/
def gds_fill_poke_ptr (x : Ext) (param : CUstreamBatchMemOpParams) (ptr : Nat) (value : Nat)
    (flags : Nat) : Option (Int × CUstreamBatchMemOpParams) :=
  let m := x.gds_map_mem ptr 4 flags
  if m.1 ≠ 0 then some (m.1, param)
  else gds_fill_poke param m.2 value flags

/-- The overload of `gds_fill_poll` on a host pointer (lines 450-466). -/
def gds_fill_poll_ptr (x : Ext) (param : CUstreamBatchMemOpParams) (ptr : Nat) (magic : Nat)
    (cond_flag : Nat) (flags : Nat) : Option (Int × CUstreamBatchMemOpParams) :=
  let m := x.gds_map_mem ptr 4 flags
  if m.1 ≠ 0 then some (m.1, param)
  else gds_fill_poll param m.2 magic cond_flag flags

/-- One call of `cuStreamBatchMemOp`: count, array and flags. -/
structure BatchCall where
  count : Nat
  paramArray : Params
  flags : Nat

/-- The function `gds_stream_batch_ops` (lines 470-571): its return code and
the one driver call it makes. -/
def gds_stream_batch_ops (c : Ctx) (x : Ext) (nops : Nat) (params : Params) (_flags : Nat) :
    Int × BatchCall :=
  let cuflags := 0
  let cuflags := if c.build.GDS_HAS_WEAK_API
    then cuflags ||| (if gds_enable_weak_consistency c.build c.env
      then CU_STREAM_BATCH_MEM_OP_CONSISTENCY_WEAK else 0)
    else cuflags
  let result := x.cuStreamBatchMemOp nops params cuflags
  let retcode := if CUDA_SUCCESS ≠ result then x.gds_curesult_to_errno result else 0
  (retcode, { count := nops, paramArray := params, flags := cuflags })

/-- The function `no_network_descs_after_entry` (lines 1665-1687); an invalid
tag stores `EINVAL` in the `bool`, which reads back `true`. -/
def no_network_descs_after_entry (descs : List gds_descriptor_t) (idx : Nat) : Bool :=
  let rec go : List gds_descriptor_t → Bool
    | [] => true
    | .SEND _ _ :: _ => false
    | .WAIT _ _ :: _ => false
    | .WAIT_VALUE32 _ :: ds => go ds
    | .WRITE_VALUE32 _ :: ds => go ds
    | .INVALID _ :: _ => true
  go (descs.drop (idx + 1))

/-- The function `get_wait_info` (lines 1689-1710), from index `i` with the
accumulated `(ret, n_waits, last_wait)`. -/
def get_wait_info_from : Nat → List gds_descriptor_t → Int × Nat × Nat → Int × Nat × Nat
  | _, [], acc => acc
  | i, .WAIT _ _ :: ds, (ret, n_waits, _) => get_wait_info_from (i + 1) ds (ret, n_waits + 1, i)
  | i, .SEND _ _ :: ds, acc => get_wait_info_from (i + 1) ds acc
  | i, .WAIT_VALUE32 _ :: ds, acc => get_wait_info_from (i + 1) ds acc
  | i, .WRITE_VALUE32 _ :: ds, acc => get_wait_info_from (i + 1) ds acc
  | i, .INVALID _ :: ds, (_, n_waits, last_wait) =>
    get_wait_info_from (i + 1) ds (EINVAL, n_waits, last_wait)

/-- The function `get_wait_info` called with `n_waits = 0`, `last_wait = 0`:
return code, `n_waits`, `last_wait`. -/
def get_wait_info (descs : List gds_descriptor_t) : Int × Nat × Nat :=
  get_wait_info_from 0 descs (0, 0, 0)

/-- The function `calc_n_mem_ops` (lines 1712-1734): `size_t` accumulator,
`uint32_t` addends. -/
def calc_n_mem_ops : List gds_descriptor_t → Nat → Nat
  | [], n_mem_ops => n_mem_ops
  | .SEND entries _ :: ds, n_mem_ops =>
    calc_n_mem_ops ds ((n_mem_ops + (u32 entries + 2) % 2 ^ 32) % 2 ^ 64)
  | .WAIT entries _ :: ds, n_mem_ops =>
    calc_n_mem_ops ds ((n_mem_ops + (u32 entries + 2) % 2 ^ 32) % 2 ^ 64)
  | .WAIT_VALUE32 _ :: ds, n_mem_ops => calc_n_mem_ops ds ((n_mem_ops + 2) % 2 ^ 64)
  | .WRITE_VALUE32 _ :: ds, n_mem_ops => calc_n_mem_ops ds ((n_mem_ops + 2) % 2 ^ 64)
  | .INVALID _ :: ds, n_mem_ops => calc_n_mem_ops ds n_mem_ops

/-- State of the loop of `gds_stream_post_descriptors`: the cursor, the array,
the locals `ret` and `retcode`, and whether an assertion has failed. -/
structure DSt where
  idx : Nat
  params : Params
  ret : Int
  retcode : Int
  aborted : Bool

/-- One iteration of the loop of `gds_stream_post_descriptors` (lines
1762-1816) for the descriptor at index `i`. -/
def post_descriptor (c : Ctx) (x : Ext) (move_flush : Bool) (last_wait n_mem_ops : Nat)
    (i : Nat) (desc : gds_descriptor_t) (s : DSt) : DSt :=
  match desc with
  | .SEND entries storage =>
    let r := gds_post_ops c (u32 entries) storage s.params s.idx 0
    let s := { s with idx := r.idx, params := r.params, retcode := r.retcode }
    if r.aborted then { s with aborted := true }
    else if s.retcode ≠ 0 then { s with ret := s.retcode }
    else if s.idx ≥ n_mem_ops then { s with aborted := true }
    else s
  | .WAIT entries storage =>
    let flags := 0
    let flags := if move_flush && i != last_wait then GDS_POST_OPS_DISCARD_WAIT_FLUSH else flags
    let r := gds_post_ops c (u32 entries) storage s.params s.idx flags
    let s := { s with idx := r.idx, params := r.params, retcode := r.retcode }
    if r.aborted then { s with aborted := true }
    else if s.retcode ≠ 0 then { s with ret := s.retcode }
    else if ¬ (s.idx ≤ n_mem_ops) then { s with aborted := true }
    else s
  | .WAIT_VALUE32 v =>
    match gds_fill_poll_ptr x (s.params s.idx) v.ptr (u32 v.value) v.cond_flags v.flags with
    | none => { s with aborted := true }
    | some (rc, p) =>
      let s : DSt := { s with params := setSlot s.params s.idx p, retcode := rc }
      if s.retcode ≠ 0 then { s with ret := s.retcode }
      else { s with idx := s.idx + 1 }
  | .WRITE_VALUE32 v =>
    match gds_fill_poke_ptr x (s.params s.idx) v.ptr (u32 v.value) v.flags with
    | none => { s with aborted := true }
    | some (rc, p) =>
      let s : DSt := { s with params := setSlot s.params s.idx p, retcode := rc }
      if s.retcode ≠ 0 then { s with ret := s.retcode }
      else { s with idx := s.idx + 1 }
  | .INVALID _ => { s with aborted := true }

/-- The loop `for (i = 0; i < n_descs; ++i)` of `gds_stream_post_descriptors`,
from index `i`; an iteration that fails jumps to `out`. -/
def post_descriptors_loop (c : Ctx) (x : Ext) (move_flush : Bool) (last_wait n_mem_ops : Nat) :
    Nat → List gds_descriptor_t → DSt → DSt
  | _, [], s => s
  | i, desc :: ds, s =>
    let s1 := post_descriptor c x move_flush last_wait n_mem_ops i desc s
    if s1.aborted || s1.retcode != 0 then s1
    else post_descriptors_loop c x move_flush last_wait n_mem_ops (i + 1) ds s1

/-- The local `move_flush` of `gds_stream_post_descriptors` (lines 1745-1756). -/
def move_flush_of (descs : List gds_descriptor_t) : Bool :=
  let w := get_wait_info descs
  let n_waits := w.2.1
  let last_wait := w.2.2
  n_waits != 0 && no_network_descs_after_entry descs last_wait

/-- What a posting function leaves behind: whether the process aborted, the
value returned, the cursor and array at that point, and the driver calls made. -/
structure PostRes where
  aborted : Bool
  ret : Int
  idx : Nat
  params : Params
  batches : List BatchCall

/-- The function `gds_stream_post_descriptors` (lines 1736-1826); `params0` is
the content of the fresh array `params[n_mem_ops]`. -/
def gds_stream_post_descriptors (c : Ctx) (x : Ext) (descs : List gds_descriptor_t)
    (params0 : Params) : PostRes :=
  let n_mem_ops := calc_n_mem_ops descs 0
  let last_wait := (get_wait_info descs).2.2
  let move_flush := move_flush_of descs
  let s0 : DSt := { idx := 0, params := params0, ret := 0, retcode := 0, aborted := false }
  let s := post_descriptors_loop c x move_flush last_wait n_mem_ops 0 descs s0
  if s.aborted then
    { aborted := true, ret := s.ret, idx := s.idx, params := s.params, batches := [] }
  else if s.retcode ≠ 0 then
    { aborted := false, ret := s.ret, idx := s.idx, params := s.params, batches := [] }
  else
    let r := gds_stream_batch_ops c x s.idx s.params 0
    let s := { s with retcode := r.1 }
    { aborted := false, ret := s.ret, idx := s.idx, params := s.params, batches := [r.2] }

/-! ## Reading the output against the spec -/

/-- A live state: no assertion failed and `retcode` is zero. -/
def St.live (s : St) : Bool := !s.aborted && s.retcode == 0

/-- A live state of the descriptor loop. -/
def DSt.live (s : DSt) : Bool := !s.aborted && s.retcode == 0

/-- The slots `[lo, hi)` of an array, in order. -/
def slots (params : Params) (lo hi : Nat) : List CUstreamBatchMemOpParams :=
  (List.range' lo (hi - lo)).map params

/-- The spec's `PrimitiveOp` without its barrier request: the member selected
by `operation`, keeping address and payload (and, for a wait, condition and
flush request). -/
inductive PrimitiveOp where
  | WriteValue32 (address value : Nat)
  | WaitValue32 (address value flags : Nat)
  | InlineCopy (address : Nat) (srcData : SrcData) (byteCount : Nat)
  | FlushRemote
  | Other (v : Nat)
  deriving DecidableEq, Repr

/-- The primitive op held by a slot, `none` for a `MemoryBarrier`. -/
def primitiveOf (p : CUstreamBatchMemOpParams) : Option PrimitiveOp :=
  match p.operation with
  | .MEMORY_BARRIER => none
  | .WRITE_VALUE_32 => some (.WriteValue32 p.writeValue.address p.writeValue.value)
  | .WAIT_VALUE_32 => some (.WaitValue32 p.waitValue.address p.waitValue.value p.waitValue.flags)
  | .INLINE_COPY =>
    some (.InlineCopy p.inlineCopy.address p.inlineCopy.srcData p.inlineCopy.byteCount)
  | .FLUSH_REMOTE_WRITES => some .FlushRemote
  | .OTHER v => some (.Other v)

/-- The spec's `emitNarrowAsCopy` (section 4.3):
`(inlineCopy && !memoryBarrier) || (simulateWideWrite && !memoryBarrier)`. -/
def spec_emitNarrowAsCopy (c : Ctx) : Bool :=
  (gds_enable_inlcpy c.build c.env && !gds_enable_membar c.build c.env) ||
  (gds_simulate_write64 c.build c.env && !gds_enable_membar c.build c.env)

/-- The flags of the `WaitValue32` the spec asks for: the condition, with the
remote-flush request unless the call suppresses it. -/
def spec_wait_flags (post_flags cond : Nat) : Nat :=
  if post_flags &&& GDS_POST_OPS_DISCARD_WAIT_FLUSH = 0 then cond ||| CU_STREAM_WAIT_VALUE_FLUSH
  else cond

/-- The lowering of one peer op in the words of the spec (section 4.3), without
barrier requests: nothing for a fence, one op for StoreNarrow, CopyBlock,
PollNarrow and simulated StoreWide, two for a StoreWide that is not simulated
(low word at the address, high word four bytes further). -/
def spec_lowering (c : Ctx) (post_flags : Nat) : peer_op_wr → List PrimitiveOp
  | .FENCE _ => []
  | .STORE_DWORD data target_id offset =>
    let a := (c.dptr target_id + offset) % 2 ^ 64
    if spec_emitNarrowAsCopy c then [.InlineCopy a (.addr_of_local (data % 2 ^ 32)) 4]
    else [.WriteValue32 a (data % 2 ^ 32)]
  | .STORE_QWORD data target_id offset =>
    let a := (c.dptr target_id + offset) % 2 ^ 64
    if gds_simulate_write64 c.build c.env then [.InlineCopy a (.addr_of_local (data % 2 ^ 64)) 8]
    else [.WriteValue32 a (data % 2 ^ 64 % 2 ^ 32),
          .WriteValue32 ((a + 4) % 2 ^ 64) (data % 2 ^ 64 / 2 ^ 32)]
  | .COPY_BLOCK src len target_id offset =>
    [.InlineCopy ((c.dptr target_id + offset) % 2 ^ 64) (.ptr src) len]
  | .POLL_AND_DWORD data target_id offset =>
    [.WaitValue32 ((c.dptr target_id + offset) % 2 ^ 64) (data % 2 ^ 32)
      (spec_wait_flags post_flags CU_STREAM_WAIT_VALUE_AND)]
  | .POLL_GEQ_DWORD data target_id offset =>
    [.WaitValue32 ((c.dptr target_id + offset) % 2 ^ 64) (data % 2 ^ 32)
      (spec_wait_flags post_flags CU_STREAM_WAIT_VALUE_GEQ)]
  | .POLL_NOR_DWORD _ _ _ => []
  | .UNDEFINED _ => []

/-- Two records that differ at most in `inlineCopy.flags`. -/
def SameButCopyFlags (p q : CUstreamBatchMemOpParams) : Prop :=
  p.operation = q.operation ∧ p.waitValue = q.waitValue ∧ p.writeValue = q.writeValue ∧
  p.flushRemoteWrites = q.flushRemoteWrites ∧ p.memoryBarrier = q.memoryBarrier ∧
  p.inlineCopy.address = q.inlineCopy.address ∧ p.inlineCopy.srcData = q.inlineCopy.srcData ∧
  p.inlineCopy.byteCount = q.inlineCopy.byteCount

/-- Frame relation between two states of a traversal: the cursor has not moved
back, and the slots below the earlier cursor differ at most in
`inlineCopy.flags`. -/
def Frame (s t : St) : Prop :=
  s.idx ≤ t.idx ∧ ∀ j, j < s.idx → SameButCopyFlags (t.params j) (s.params j)

/-- The locals of `gds_stream_post_descriptors` on entry to its loop. -/
def DSt.init (params0 : Params) : DSt :=
  { idx := 0, params := params0, ret := 0, retcode := 0, aborted := false }

/-- State of the loop of `gds_stream_post_descriptors` after its first `k`
iterations, or where it stopped if that was earlier. -/
def descs_state (c : Ctx) (x : Ext) (descs : List gds_descriptor_t) (params0 : Params)
    (k : Nat) : DSt :=
  post_descriptors_loop c x (move_flush_of descs) (get_wait_info descs).2.2
    (calc_n_mem_ops descs 0) 0 (descs.take k) (DSt.init params0)

/-- Whether a peer op is a StoreWide (`IBV_PEER_OP_STORE_QWORD`). -/
def peer_op_wr.isStoreQword : peer_op_wr → Bool
  | .STORE_QWORD _ _ _ => true
  | _ => false

/-- A value-level descriptor: `WAIT_VALUE32` or `WRITE_VALUE32`. -/
def gds_descriptor_t.isValue32 : gds_descriptor_t → Bool
  | .WAIT_VALUE32 _ => true
  | .WRITE_VALUE32 _ => true
  | _ => false

/-- Frame relation between two states of the descriptor loop. -/
def DFrame (s t : DSt) : Prop :=
  s.idx ≤ t.idx ∧ ∀ j, j < s.idx → SameButCopyFlags (t.params j) (s.params j)

/-! ## The resolvers with their static caches -/

/-- The function-local `static int` caches of the six resolvers (lines
112-192); each starts at `-1`. -/
structure Statics where
  gds_disable_write64 : Int
  gds_disable_inlcpy : Int
  gds_simulate_write64 : Int
  gds_disable_membar : Int
  gds_disable_weak_consistency : Int
  gds_enable_dump_memops : Int
  deriving DecidableEq, Repr

/-- The caches at process start. -/
def Statics.fresh : Statics :=
  { gds_disable_write64 := -1, gds_disable_inlcpy := -1, gds_simulate_write64 := -1,
    gds_disable_membar := -1, gds_disable_weak_consistency := -1,
    gds_enable_dump_memops := -1 }

/-- The idiom `env ? !!atoi(env) : dflt` as the `int` stored in the cache. -/
def env_int (v : Option (List Nat)) (dflt : Int) : Int :=
  match v with
  | some s => if atoi s != 0 then 1 else 0
  | none => dflt

/-- C truth of an `int`. -/
def c_bool (x : Int) : Bool := x != 0

/-- One call of `gds_enable_write64()` (lines 110-124) with environment `e` and
caches `st`: value returned and caches afterwards. -/
def gds_enable_write64_call (_b : Build) (e : Env) (st : Statics) : Bool × Statics :=
  let st := if st.gds_disable_write64 = -1
    then { st with gds_disable_write64 := env_int e.GDS_DISABLE_WRITE64 0 } else st
  (false, st)

/-- One call of `gds_enable_inlcpy()` (lines 126-138). -/
def gds_enable_inlcpy_call (b : Build) (e : Env) (st : Statics) : Bool × Statics :=
  let st := if st.gds_disable_inlcpy = -1
    then { st with gds_disable_inlcpy := env_int e.GDS_DISABLE_INLINECOPY 0 } else st
  (b.GDS_HAS_INLINE_COPY && !c_bool st.gds_disable_inlcpy, st)

/-- One call of `gds_simulate_write64()` (lines 140-158); the nested call of
`gds_enable_inlcpy()` is made only when the variable asks for the simulation. -/
def gds_simulate_write64_call (b : Build) (e : Env) (st : Statics) : Bool × Statics :=
  let st :=
    if st.gds_simulate_write64 = -1 then
      let st := { st with gds_simulate_write64 := env_int e.GDS_SIMULATE_WRITE64 0 }
      if c_bool st.gds_simulate_write64 then
        let r := gds_enable_inlcpy_call b e st
        if r.1 then { r.2 with gds_simulate_write64 := 0 } else r.2
      else st
    else st
  (b.GDS_HAS_INLINE_COPY && c_bool st.gds_simulate_write64, st)

/-- One call of `gds_enable_membar()` (lines 160-172). -/
def gds_enable_membar_call (b : Build) (e : Env) (st : Statics) : Bool × Statics :=
  let st := if st.gds_disable_membar = -1
    then { st with gds_disable_membar := env_int e.GDS_DISABLE_MEMBAR 0 } else st
  (b.GDS_HAS_MEMBAR && !c_bool st.gds_disable_membar, st)

/-- One call of `gds_enable_weak_consistency()` (lines 174-186). -/
def gds_enable_weak_consistency_call (b : Build) (e : Env) (st : Statics) : Bool × Statics :=
  let st := if st.gds_disable_weak_consistency = -1
    then { st with gds_disable_weak_consistency := env_int e.GDS_DISABLE_WEAK_CONSISTENCY 1 }
    else st
  (b.GDS_HAS_WEAK_API && !c_bool st.gds_disable_weak_consistency, st)

/-- One call of `gds_enable_dump_memops()` (lines 190-202). -/
def gds_enable_dump_memops_call (_b : Build) (e : Env) (st : Statics) : Bool × Statics :=
  let st := if st.gds_enable_dump_memops = -1
    then { st with gds_enable_dump_memops := env_int e.GDS_ENABLE_DUMP_MEMOPS 0 } else st
  (c_bool st.gds_enable_dump_memops, st)

/-- A malformed (non-numeric) value: after the white space and the optional
sign that `atoi` skips, the string does not start with a decimal digit. -/
def non_numeric (s : List Nat) : Bool :=
  let is_digit_head : List Nat → Bool
    | c :: _ => 48 ≤ c && c ≤ 57
    | [] => false
  match s.dropWhile isspace with
  | 45 :: cs => !is_digit_head cs
  | 43 :: cs => !is_digit_head cs
  | cs => !is_digit_head cs

/-! ## The multi-request posting functions -/

/-- The fields `entries` and `storage` of `struct ibv_exp_peer_commit` and of
`struct ibv_exp_peer_peek`. -/
structure peer_ops_t where
  entries : Nat
  storage : List peer_op_wr
  deriving DecidableEq, Repr

/-- A `gds_send_request_t`, as far as the translation reads it. -/
structure gds_send_request_t where
  commit : peer_ops_t
  deriving DecidableEq, Repr

/-- A `gds_wait_request_t`, as far as the translation reads it. -/
structure gds_wait_request_t where
  peek : peer_ops_t
  deriving DecidableEq, Repr

/-- The value of an `int` holding the 32-bit pattern `n`. -/
def int_of_u32 (n : Nat) : Int :=
  if n % 2 ^ 32 < 2 ^ 31 then (n % 2 ^ 32 : Nat) else ((n % 2 ^ 32 : Nat) : Int) - 2 ^ 32

/-- The loop `poke_count += info[i].commit.entries + 2` of `gds_post_pokes`
(lines 928-930), as the 32-bit pattern of the `int` accumulator. -/
def poke_count_bits : List gds_send_request_t → Nat → Nat
  | [], acc => acc
  | r :: rs, acc => poke_count_bits rs ((acc + (u32 r.commit.entries + 2) % 2 ^ 32) % 2 ^ 32)

/-- The loop `n_mem_ops += request[i].peek.entries` of
`gds_stream_post_wait_cq_multi` (lines 1255-1257), as the 32-bit pattern of the
`int` accumulator. -/
def wait_n_mem_ops_bits : List gds_wait_request_t → Nat → Nat
  | [], acc => acc
  | r :: rs, acc => wait_n_mem_ops_bits rs ((acc + u32 r.peek.entries) % 2 ^ 32)

/-- The translation loop shared, statement for statement, by `gds_post_pokes`
(lines 934-940) and `gds_stream_post_wait_cq_multi` (lines 1263-1269): one
`gds_post_ops` per request with `post_flags = 0`, jumping to `out` on the first
non-zero return code. -/
def post_requests_loop (c : Ctx) : List peer_ops_t → Res → Res
  | [], r => r
  | q :: qs, r =>
    let r1 := gds_post_ops c (u32 q.entries) q.storage r.params r.idx 0
    if r1.aborted || r1.retcode != 0 then r1
    else post_requests_loop c qs r1

/-- The tail shared by `gds_post_pokes` (lines 943-960) and
`gds_stream_post_wait_cq_multi` (lines 1273-1289): the optional tracking write
to `dw` (a host pointer, `0` for `NULL`), then the submit. -/
def post_tracking_and_submit (c : Ctx) (x : Ext) (dw val : Nat) (r : Res) : PostRes :=
  if dw ≠ 0 then
    match gds_fill_poke_ptr x (r.params r.idx) dw (u32 val) GDS_MEMORY_HOST with
    | none => { aborted := true, ret := r.retcode, idx := r.idx, params := r.params, batches := [] }
    | some (rc, p) =>
      let params := setSlot r.params r.idx p
      if rc ≠ 0 then
        { aborted := false, ret := rc, idx := r.idx, params := params, batches := [] }
      else
        let b := gds_stream_batch_ops c x (r.idx + 1) params 0
        { aborted := false, ret := b.1, idx := r.idx + 1, params := params, batches := [b.2] }
  else
    let b := gds_stream_batch_ops c x r.idx r.params 0
    { aborted := false, ret := b.1, idx := r.idx, params := r.params, batches := [b.2] }

/-- The function `gds_post_pokes` (lines 920-961); `info` holds the `count`
requests, `params0` is the content of the fresh array `params[poke_count+1]`. -/
def gds_post_pokes (c : Ctx) (x : Ext) (info : List gds_send_request_t) (dw val : Nat)
    (params0 : Params) : PostRes :=
  let poke_count := int_of_u32 (poke_count_bits info 0)
  let r := post_requests_loop c (info.map (fun q => q.commit))
    { aborted := false, retcode := 0, idx := 0, params := params0 }
  if r.aborted then
    { aborted := true, ret := r.retcode, idx := r.idx, params := r.params, batches := [] }
  else if r.retcode ≠ 0 then
    { aborted := false, ret := r.retcode, idx := r.idx, params := r.params, batches := [] }
  else if ¬ ((r.idx : Int) < poke_count) then
    { aborted := true, ret := r.retcode, idx := r.idx, params := r.params, batches := [] }
  else post_tracking_and_submit c x dw val r

/-- The function `gds_stream_post_wait_cq_multi` (lines 1247-1290); `request`
holds the `count` requests, `params0` is the content of the fresh array
`params[n_mem_ops+1]`. -/
def gds_stream_post_wait_cq_multi (c : Ctx) (x : Ext) (request : List gds_wait_request_t)
    (dw val : Nat) (params0 : Params) : PostRes :=
  let n_mem_ops := int_of_u32 (wait_n_mem_ops_bits request 0)
  let r := post_requests_loop c (request.map (fun q => q.peek))
    { aborted := false, retcode := 0, idx := 0, params := params0 }
  if r.aborted then
    { aborted := true, ret := r.retcode, idx := r.idx, params := r.params, batches := [] }
  else if r.retcode ≠ 0 then
    { aborted := false, ret := r.retcode, idx := r.idx, params := r.params, batches := [] }
  else if ¬ ((r.idx : Int) ≤ n_mem_ops) then
    { aborted := true, ret := r.retcode, idx := r.idx, params := r.params, batches := [] }
  else post_tracking_and_submit c x dw val r

/-- The sum the planner is meant to compute, over the naturals: `entries + 2`
for each Send and each Wait, `2` for each value-level descriptor. -/
def spec_n_mem_ops : List gds_descriptor_t → Nat
  | [] => 0
  | .SEND entries _ :: ds => entries + 2 + spec_n_mem_ops ds
  | .WAIT entries _ :: ds => entries + 2 + spec_n_mem_ops ds
  | .WAIT_VALUE32 _ :: ds => 2 + spec_n_mem_ops ds
  | .WRITE_VALUE32 _ :: ds => 2 + spec_n_mem_ops ds
  | .INVALID _ :: ds => spec_n_mem_ops ds

/-- Whether `entries + 2` of a Send or Wait fits the 32-bit unsigned
arithmetic in which the planner computes it. -/
def gds_descriptor_t.fits32 : gds_descriptor_t → Bool
  | .SEND entries _ => decide (entries + 2 < 2 ^ 32)
  | .WAIT entries _ => decide (entries + 2 < 2 ^ 32)
  | _ => true

/-- The record `p` after `gds_enable_barrier_for_inlcpy`: the no-memory-barrier
bit of `inlineCopy.flags` cleared, everything else as in `p`. -/
def with_barrier (p : CUstreamBatchMemOpParams) : CUstreamBatchMemOpParams :=
  { p with inlineCopy := { p.inlineCopy with
      flags := p.inlineCopy.flags &&& (0xFFFFFFFF ^^^ CU_STREAM_INLINE_COPY_NO_MEMORY_BARRIER) } }

/-- The locals of `gds_post_pokes` and `gds_stream_post_wait_cq_multi` on entry
to their translation loop. -/
def Res.init (params0 : Params) : Res :=
  { aborted := false, retcode := 0, idx := 0, params := params0 }

/-- A fence that `gds_post_ops` does not treat as a read fence: its direction
bits differ from `IBV_EXP_PEER_FENCE_OP_READ`. -/
def peer_op_wr.isWriteFence : peer_op_wr → Bool
  | .FENCE fence_flags =>
    decide (fence_flags &&& (IBV_EXP_PEER_FENCE_OP_READ ||| IBV_EXP_PEER_FENCE_OP_WRITE)
      ≠ IBV_EXP_PEER_FENCE_OP_READ)
  | _ => false

/-- A StoreNarrow or a StoreWide. -/
def peer_op_wr.isStore : peer_op_wr → Bool
  | .STORE_DWORD _ _ _ => true
  | .STORE_QWORD _ _ _ => true
  | _ => false

/-- The spec's `pendingFence` after a sequence of peer ops: set by a
write-direction fence, cleared by the next store, left as it is by every other
op.  It is `true` exactly when a write-direction fence has been met and no
store has been translated since. -/
def spec_pendingFence (ops : List peer_op_wr) : Bool :=
  ops.foldl (fun pending op => if op.isWriteFence then true
    else if op.isStore then false else pending) false

/-- A StoreNarrow, a CopyBlock or a PollNarrow (of any condition). -/
def peer_op_wr.isNarrowCopyPoll : peer_op_wr → Bool
  | .STORE_DWORD _ _ _ => true
  | .COPY_BLOCK _ _ _ _ => true
  | .POLL_AND_DWORD _ _ _ => true
  | .POLL_GEQ_DWORD _ _ _ => true
  | .POLL_NOR_DWORD _ _ _ => true
  | _ => false

/-- The cursor advance the spec's lowering predicts for a sequence: one per
StoreNarrow, CopyBlock and PollNarrow, one per simulated StoreWide or two per
StoreWide that is not simulated, and one per write-direction fence when the
memory barrier is enabled. -/
def spec_cursor_advance (c : Ctx) (ops : List peer_op_wr) : Nat :=
  ops.countP peer_op_wr.isNarrowCopyPoll
  + (if gds_simulate_write64 c.build c.env then ops.countP peer_op_wr.isStoreQword
     else 2 * ops.countP peer_op_wr.isStoreQword)
  + (if gds_enable_membar c.build c.env then ops.countP peer_op_wr.isWriteFence else 0)

/-- The record `p` with the remote-flush bit `CU_STREAM_WAIT_VALUE_FLUSH` of
`waitValue.flags` set, everything else as in `p`.  Two records with the same
image differ at most in that bit. -/
def with_flush (p : CUstreamBatchMemOpParams) : CUstreamBatchMemOpParams :=
  { p with waitValue := { p.waitValue with
      flags := p.waitValue.flags ||| CU_STREAM_WAIT_VALUE_FLUSH } }

/-- Two arrays that agree everywhere except, possibly, in the remote-flush bit
of `WAIT_VALUE_32` slots at indices in `[lo, hi)`. -/
def SameButWaitFlush (lo hi : Nat) (p1 p2 : Params) : Prop :=
  ∀ j, p1 j = p2 j ∨
    (lo ≤ j ∧ j < hi ∧ (p1 j).operation = .WAIT_VALUE_32 ∧
      (p2 j).operation = .WAIT_VALUE_32 ∧ with_flush (p1 j) = with_flush (p2 j))

/-- Two states of `gds_post_ops` entered at cursor `lo` that agree in
everything except, possibly, the remote-flush bit of polls emitted so far. -/
def FlushRel (lo : Nat) (s1 s2 : St) : Prop :=
  s1.idx = s2.idx ∧ s1.prev_was_fence = s2.prev_was_fence ∧ s1.retcode = s2.retcode ∧
  s1.aborted = s2.aborted ∧ lo ≤ s1.idx ∧ SameButWaitFlush lo s1.idx s1.params s2.params

/-- Two builder results that agree, or are both a `WAIT_VALUE_32` with the same
return code differing at most in the remote-flush bit. -/
def OptRel (r1 r2 : Option (Int × CUstreamBatchMemOpParams)) : Prop :=
  r1 = r2 ∨ ∃ rc q1 q2, r1 = some (rc, q1) ∧ r2 = some (rc, q2) ∧
    q1.operation = .WAIT_VALUE_32 ∧ q2.operation = .WAIT_VALUE_32 ∧
    with_flush q1 = with_flush q2

/-- The capability bits `IBV_EXP_PEER_OP_*_CAP` of the verbs header, which is
not among the sources: they are parameters of the model. -/
structure PeerOpCaps where
  STORE_DWORD_CAP : Nat
  STORE_QWORD_CAP : Nat
  FENCE_CAP : Nat
  POLL_AND_DWORD_CAP : Nat
  POLL_NOR_DWORD_CAP : Nat
  POLL_GEQ_DWORD_CAP : Nat
  COPY_BLOCK_CAP : Nat
  deriving DecidableEq, Repr

/-- What the header guarantees of the capability bits as far as the mask is
concerned: none is zero, and the bits of `POLL_NOR_DWORD_CAP` and of
`COPY_BLOCK_CAP` are in none of the others. -/
def PeerOpCaps.distinct (k : PeerOpCaps) : Prop :=
  k.STORE_DWORD_CAP ≠ 0 ∧ k.STORE_QWORD_CAP ≠ 0 ∧ k.FENCE_CAP ≠ 0 ∧
  k.POLL_AND_DWORD_CAP ≠ 0 ∧ k.POLL_NOR_DWORD_CAP ≠ 0 ∧ k.POLL_GEQ_DWORD_CAP ≠ 0 ∧
  k.COPY_BLOCK_CAP ≠ 0 ∧
  k.STORE_DWORD_CAP &&& k.POLL_NOR_DWORD_CAP = 0 ∧
  k.STORE_QWORD_CAP &&& k.POLL_NOR_DWORD_CAP = 0 ∧
  k.FENCE_CAP &&& k.POLL_NOR_DWORD_CAP = 0 ∧
  k.POLL_AND_DWORD_CAP &&& k.POLL_NOR_DWORD_CAP = 0 ∧
  k.POLL_GEQ_DWORD_CAP &&& k.POLL_NOR_DWORD_CAP = 0 ∧
  k.COPY_BLOCK_CAP &&& k.POLL_NOR_DWORD_CAP = 0 ∧
  k.STORE_DWORD_CAP &&& k.COPY_BLOCK_CAP = 0 ∧
  k.STORE_QWORD_CAP &&& k.COPY_BLOCK_CAP = 0 ∧
  k.FENCE_CAP &&& k.COPY_BLOCK_CAP = 0 ∧
  k.POLL_AND_DWORD_CAP &&& k.COPY_BLOCK_CAP = 0 ∧
  k.POLL_GEQ_DWORD_CAP &&& k.COPY_BLOCK_CAP = 0

/-- The field `attr->caps` as `gds_init_peer_attr` sets it (lines 1377-1392). -/
def gds_init_peer_attr (k : PeerOpCaps) (b : Build) (e : Env) : Nat :=
  let caps := k.STORE_DWORD_CAP ||| k.STORE_QWORD_CAP ||| k.FENCE_CAP ||| k.POLL_AND_DWORD_CAP
  let caps := if gpu_does_support_nor then caps ||| k.POLL_NOR_DWORD_CAP
    else caps ||| k.POLL_GEQ_DWORD_CAP
  let caps := if gds_enable_inlcpy b e then caps ||| k.COPY_BLOCK_CAP
    else if gds_enable_write64 b e || gds_simulate_write64 b e then caps ||| k.STORE_QWORD_CAP
    else caps
  caps

/-- Whether a capability mask contains a capability bit. -/
def has_cap (caps cap : Nat) : Bool := caps &&& cap != 0

/-! ## The mlx5 descriptor extraction (`src/mlx5.cpp`) -/

/-- Modelled from the spec: `gdsync.h` is not among the sources; the wait
condition `GEQ` of `gds_wait_cond_flag`. -/
def GDS_WAIT_COND_GEQ : Nat := 0

/-- Modelled from the spec: `gdsync.h` is not among the sources; the wait
condition `AND` of `gds_wait_cond_flag`. -/
def GDS_WAIT_COND_AND : Nat := 2

/-- Modelled from the spec: `gdsync.h` is not among the sources; the wait
condition `NOR` of `gds_wait_cond_flag`. -/
def GDS_WAIT_COND_NOR : Nat := 3

/-- The struct `gds_mlx5_send_info_t` as far as `gds_mlx5_get_send_descs`
writes it. -/
structure gds_mlx5_send_info_t where
  membar : Nat
  membar_full : Nat
  dbrec_ptr : Nat
  dbrec_value : Nat
  db_ptr : Nat
  db_value : Nat
  deriving DecidableEq, Repr

/-- The struct after `memset(mlx5_i, 0, sizeof(*mlx5_i))`. -/
def gds_mlx5_send_info_t.zero : gds_mlx5_send_info_t :=
  { membar := 0, membar_full := 0, dbrec_ptr := 0, dbrec_value := 0, db_ptr := 0, db_value := 0 }

/-- The body of the loop of `gds_mlx5_get_send_descs` (`mlx5.cpp`, lines 63-148)
for the op at position `n`: the value of `retcode` after the `switch` and the
struct.  `mem64 a` is the `uint64_t` stored at host address `a`. -/
def gds_mlx5_send_op (c : Ctx) (mem64 : Nat → Nat) (n : Nat) (op : peer_op_wr)
    (i : gds_mlx5_send_info_t) : Int × gds_mlx5_send_info_t :=
  match op with
  | .FENCE fence_flags =>
    let fence_op := fence_flags &&& (IBV_EXP_PEER_FENCE_OP_READ ||| IBV_EXP_PEER_FENCE_OP_WRITE)
    let fence_from := fence_flags &&& (IBV_EXP_PEER_FENCE_FROM_CPU ||| IBV_EXP_PEER_FENCE_FROM_HCA)
    let fence_mem := fence_flags &&& (IBV_EXP_PEER_FENCE_MEM_SYS ||| IBV_EXP_PEER_FENCE_MEM_PEER)
    if fence_op = IBV_EXP_PEER_FENCE_OP_READ then (0, i)
    else if fence_from ≠ IBV_EXP_PEER_FENCE_FROM_HCA then (EINVAL, i)
    else if fence_mem = IBV_EXP_PEER_FENCE_MEM_PEER then (0, { i with membar := 1 })
    else if fence_mem = IBV_EXP_PEER_FENCE_MEM_SYS then (0, { i with membar_full := 1 })
    else (EINVAL, i)
  | .STORE_DWORD data target_id offset =>
    let dev_ptr := (c.dptr target_id + offset) % 2 ^ 64
    let data := data % 2 ^ 32
    if n ≠ 0 then (EINVAL, i)
    else (0, { i with dbrec_ptr := dev_ptr, dbrec_value := data })
  | .STORE_QWORD data target_id offset =>
    let dev_ptr := (c.dptr target_id + offset) % 2 ^ 64
    let data := data % 2 ^ 64
    if n ≠ 2 then (EINVAL, i)
    else (0, { i with db_ptr := dev_ptr, db_value := data })
  | .COPY_BLOCK src len target_id offset =>
    let dev_ptr := (c.dptr target_id + offset) % 2 ^ 64
    if len < 8 ∨ len > 64 then (EINVAL, i)
    else (0, { i with db_ptr := dev_ptr, db_value := mem64 src })
  | .POLL_AND_DWORD _ _ _ => (EINVAL, i)
  | .POLL_GEQ_DWORD _ _ _ => (EINVAL, i)
  | .POLL_NOR_DWORD _ _ _ => (EINVAL, i)
  | .UNDEFINED _ => (EINVAL, i)

/-- The loop `for (; op && n < n_ops; op = op->next, ++n)` of
`gds_mlx5_get_send_descs`; the first argument is `n_ops - n`.  It ends at the
first op that leaves `retcode` non-zero. -/
def gds_mlx5_get_send_descs_loop (c : Ctx) (mem64 : Nat → Nat) :
    Nat → Nat → List peer_op_wr → gds_mlx5_send_info_t → Int × gds_mlx5_send_info_t
  | 0, _, _, i => (0, i)
  | _ + 1, _, [], i => (0, i)
  | k + 1, n, op :: ops, i =>
    let r := gds_mlx5_send_op c mem64 n op i
    if r.1 ≠ 0 then r
    else gds_mlx5_get_send_descs_loop c mem64 k (n + 1) ops r.2

/-- The function `gds_mlx5_get_send_descs` (`mlx5.cpp`, lines 54-156): return
code and the struct it fills. -/
def gds_mlx5_get_send_descs (c : Ctx) (mem64 : Nat → Nat) (request : gds_send_request_t) :
    Int × gds_mlx5_send_info_t :=
  gds_mlx5_get_send_descs_loop c mem64 (u32 request.commit.entries) 0 request.commit.storage
    gds_mlx5_send_info_t.zero

/-- The struct `gds_mlx5_wait_info_t` as far as `gds_mlx5_get_wait_descs`
writes it. -/
structure gds_mlx5_wait_info_t where
  cond : Nat
  cqe_ptr : Nat
  cqe_value : Nat
  flag_ptr : Nat
  flag_value : Nat
  deriving DecidableEq, Repr

/-- The struct after `memset(mlx5_i, 0, sizeof(*mlx5_i))`. -/
def gds_mlx5_wait_info_t.zero : gds_mlx5_wait_info_t :=
  { cond := 0, cqe_ptr := 0, cqe_value := 0, flag_ptr := 0, flag_value := 0 }

/-- The body of the loop of `gds_mlx5_get_wait_descs` (`mlx5.cpp`, lines
190-277) for the op at position `n`. -/
def gds_mlx5_wait_op (c : Ctx) (n : Nat) (op : peer_op_wr) (i : gds_mlx5_wait_info_t) :
    Int × gds_mlx5_wait_info_t :=
  match op with
  | .FENCE fence_flags =>
    let fence_op := fence_flags &&& (IBV_EXP_PEER_FENCE_OP_READ ||| IBV_EXP_PEER_FENCE_OP_WRITE)
    let fence_from := fence_flags &&& (IBV_EXP_PEER_FENCE_FROM_CPU ||| IBV_EXP_PEER_FENCE_FROM_HCA)
    if fence_op = IBV_EXP_PEER_FENCE_OP_READ then (0, i)
    else if fence_from ≠ IBV_EXP_PEER_FENCE_FROM_HCA then (EINVAL, i)
    else (EINVAL, i)
  | .STORE_DWORD data target_id offset =>
    let dev_ptr := (c.dptr target_id + offset) % 2 ^ 64
    let data := data % 2 ^ 32
    if n ≠ 1 then (EINVAL, i)
    else (0, { i with flag_ptr := dev_ptr, flag_value := data })
  | .STORE_QWORD _ _ _ => (EINVAL, i)
  | .COPY_BLOCK _ _ _ _ => (EINVAL, i)
  | .POLL_AND_DWORD data target_id offset =>
    let dev_ptr := (c.dptr target_id + offset) % 2 ^ 64
    let data := data % 2 ^ 32
    (0, { i with cqe_ptr := dev_ptr, cqe_value := data, cond := GDS_WAIT_COND_AND })
  | .POLL_GEQ_DWORD data target_id offset =>
    let dev_ptr := (c.dptr target_id + offset) % 2 ^ 64
    let data := data % 2 ^ 32
    (0, { i with cqe_ptr := dev_ptr, cqe_value := data, cond := GDS_WAIT_COND_GEQ })
  | .POLL_NOR_DWORD data target_id offset =>
    let dev_ptr := (c.dptr target_id + offset) % 2 ^ 64
    let data := data % 2 ^ 32
    (0, { i with cqe_ptr := dev_ptr, cqe_value := data, cond := GDS_WAIT_COND_NOR })
  | .UNDEFINED _ => (EINVAL, i)

/-- The loop of `gds_mlx5_get_wait_descs`; the first argument is `n_ops - n`. -/
def gds_mlx5_get_wait_descs_loop (c : Ctx) :
    Nat → Nat → List peer_op_wr → gds_mlx5_wait_info_t → Int × gds_mlx5_wait_info_t
  | 0, _, _, i => (0, i)
  | _ + 1, _, [], i => (0, i)
  | k + 1, n, op :: ops, i =>
    let r := gds_mlx5_wait_op c n op i
    if r.1 ≠ 0 then r
    else gds_mlx5_get_wait_descs_loop c k (n + 1) ops r.2

/-- The function `gds_mlx5_get_wait_descs` (`mlx5.cpp`, lines 181-284): return
code and the struct it fills. -/
def gds_mlx5_get_wait_descs (c : Ctx) (request : gds_wait_request_t) :
    Int × gds_mlx5_wait_info_t :=
  gds_mlx5_get_wait_descs_loop c (u32 request.peek.entries) 0 request.peek.storage
    gds_mlx5_wait_info_t.zero

/-! ## The mlx5 extraction in the words of its contract -/

/-- A poll op of any condition. -/
def peer_op_wr.isPoll : peer_op_wr → Bool
  | .POLL_AND_DWORD _ _ _ => true
  | .POLL_GEQ_DWORD _ _ _ => true
  | .POLL_NOR_DWORD _ _ _ => true
  | _ => false

/-- A StoreWide or a CopyBlock. -/
def peer_op_wr.isWideOrCopy : peer_op_wr → Bool
  | .STORE_QWORD _ _ _ => true
  | .COPY_BLOCK _ _ _ _ => true
  | _ => false

/-- The last op of a list that satisfies `p`, if there is one. -/
def last_such (p : peer_op_wr → Bool) : List peer_op_wr → Option peer_op_wr
  | [] => none
  | op :: ops =>
    match last_such p ops with
    | some o => some o
    | none => if p op then some op else none

/-- What a send request must satisfy, op by op, for `gds_mlx5_get_send_descs`
to return `0`: a StoreNarrow is at position 0, a StoreWide at position 2, a
CopyBlock has `8 <= len <= 64`, there is no poll op, and a write-direction
fence is from the HCA with domain exactly peer-memory or system-memory. -/
def spec_send_accepts (k : Nat) : peer_op_wr → Bool
  | .FENCE f =>
    decide (f &&& (IBV_EXP_PEER_FENCE_OP_READ ||| IBV_EXP_PEER_FENCE_OP_WRITE)
        = IBV_EXP_PEER_FENCE_OP_READ) ||
    (decide (f &&& (IBV_EXP_PEER_FENCE_FROM_CPU ||| IBV_EXP_PEER_FENCE_FROM_HCA)
        = IBV_EXP_PEER_FENCE_FROM_HCA) &&
      (decide (f &&& (IBV_EXP_PEER_FENCE_MEM_SYS ||| IBV_EXP_PEER_FENCE_MEM_PEER)
          = IBV_EXP_PEER_FENCE_MEM_PEER) ||
        decide (f &&& (IBV_EXP_PEER_FENCE_MEM_SYS ||| IBV_EXP_PEER_FENCE_MEM_PEER)
          = IBV_EXP_PEER_FENCE_MEM_SYS)))
  | .STORE_DWORD _ _ _ => decide (k = 0)
  | .STORE_QWORD _ _ _ => decide (k = 2)
  | .COPY_BLOCK _ len _ _ => decide (8 ≤ len ∧ len ≤ 64)
  | .POLL_AND_DWORD _ _ _ => false
  | .POLL_GEQ_DWORD _ _ _ => false
  | .POLL_NOR_DWORD _ _ _ => false
  | .UNDEFINED _ => true

/-- The doorbell record `(dbrec_ptr, dbrec_value)` a send request designates:
address and data of the StoreNarrow at position 0, zero when there is none. -/
def spec_send_dbrec (c : Ctx) (ops : List peer_op_wr) : Nat × Nat :=
  match ops with
  | .STORE_DWORD data target_id offset :: _ =>
    ((c.dptr target_id + offset) % 2 ^ 64, data % 2 ^ 32)
  | _ => (0, 0)

/-- The doorbell `(db_ptr, db_value)` a send request designates: address and
data of the last StoreWide or CopyBlock (for a CopyBlock, the first 8 bytes of
its source), zero when there is none. -/
def spec_send_db (c : Ctx) (mem64 : Nat → Nat) (ops : List peer_op_wr) : Nat × Nat :=
  match last_such peer_op_wr.isWideOrCopy ops with
  | some (.STORE_QWORD data target_id offset) =>
    ((c.dptr target_id + offset) % 2 ^ 64, data % 2 ^ 64)
  | some (.COPY_BLOCK src _ target_id offset) =>
    ((c.dptr target_id + offset) % 2 ^ 64, mem64 src)
  | _ => (0, 0)

/-- The ops for which the claim says `gds_mlx5_get_wait_descs` returns `EINVAL`:
a write-direction fence, a StoreWide, a CopyBlock, or a StoreNarrow at a
position other than 1. -/
def spec_wait_rejects (k : Nat) : peer_op_wr → Bool
  | .FENCE f =>
    decide (f &&& (IBV_EXP_PEER_FENCE_OP_READ ||| IBV_EXP_PEER_FENCE_OP_WRITE)
      ≠ IBV_EXP_PEER_FENCE_OP_READ)
  | .STORE_DWORD _ _ _ => decide (k ≠ 1)
  | .STORE_QWORD _ _ _ => true
  | .COPY_BLOCK _ _ _ _ => true
  | _ => false

/-- An op of a type the switch does not know. -/
def peer_op_wr.isUndefined : peer_op_wr → Bool
  | .UNDEFINED _ => true
  | _ => false

/-- Whether some op of the list, the first of which is at position `n`, is
rejected by `rej` at its position. -/
def any_at (rej : Nat → peer_op_wr → Bool) : Nat → List peer_op_wr → Bool
  | _, [] => false
  | n, op :: ops => rej n op || any_at rej (n + 1) ops

/-- The flag `(flag_ptr, flag_value)` a wait request designates: address and
data of the StoreNarrow at position 1, zero when there is none. -/
def spec_wait_flag (c : Ctx) (ops : List peer_op_wr) : Nat × Nat :=
  match ops with
  | _ :: .STORE_DWORD data target_id offset :: _ =>
    ((c.dptr target_id + offset) % 2 ^ 64, data % 2 ^ 32)
  | _ => (0, 0)

/-- The completion entry `(cqe_ptr, cqe_value, cond)` a wait request
designates: address, data and condition of its last poll op, zero when there is
none. -/
def spec_wait_cqe (c : Ctx) (ops : List peer_op_wr) : Nat × Nat × Nat :=
  match last_such peer_op_wr.isPoll ops with
  | some (.POLL_AND_DWORD data target_id offset) =>
    ((c.dptr target_id + offset) % 2 ^ 64, data % 2 ^ 32, GDS_WAIT_COND_AND)
  | some (.POLL_GEQ_DWORD data target_id offset) =>
    ((c.dptr target_id + offset) % 2 ^ 64, data % 2 ^ 32, GDS_WAIT_COND_GEQ)
  | some (.POLL_NOR_DWORD data target_id offset) =>
    ((c.dptr target_id + offset) % 2 ^ 64, data % 2 ^ 32, GDS_WAIT_COND_NOR)
  | _ => (0, 0, 0)

/-! ## A plain process, for concrete runs -/

/-- An environment with none of the variables set. -/
def Env.unset : Env :=
  { GDS_DISABLE_WRITE64 := none, GDS_DISABLE_INLINECOPY := none, GDS_SIMULATE_WRITE64 := none,
    GDS_DISABLE_MEMBAR := none, GDS_DISABLE_WEAK_CONSISTENCY := none,
    GDS_ENABLE_DUMP_MEMOPS := none }

/-- A build without any of the optional driver extensions (strategy B). -/
def Build.plain : Build :=
  { GDS_HAS_WRITE64 := false, GDS_HAS_INLINE_COPY := false, GDS_HAS_WEAK_API := false,
    GDS_HAS_MEMBAR := false }

/-- A build with the inline-copy extension only (strategy F). -/
def Build.inlcpy : Build :=
  { GDS_HAS_WRITE64 := false, GDS_HAS_INLINE_COPY := true, GDS_HAS_WEAK_API := false,
    GDS_HAS_MEMBAR := false }

/-- A build with the memory-barrier extension only (strategy A). -/
def Build.membar : Build :=
  { GDS_HAS_WRITE64 := false, GDS_HAS_INLINE_COPY := false, GDS_HAS_WEAK_API := false,
    GDS_HAS_MEMBAR := true }

/-- A process of the plain build, no variable set, whose ranges have their
device address equal to their id. -/
def Ctx.plain : Ctx := { build := Build.plain, env := Env.unset, dptr := fun id => id }

/-- The same with the inline-copy build. -/
def Ctx.inlcpy : Ctx := { build := Build.inlcpy, env := Env.unset, dptr := fun id => id }

/-- The same with the memory-barrier build. -/
def Ctx.membar : Ctx := { build := Build.membar, env := Env.unset, dptr := fun id => id }

/-- A record with every field zero. -/
def CUstreamBatchMemOpParams.zero : CUstreamBatchMemOpParams :=
  { operation := .OTHER 0, waitValue := ⟨0, 0, 0⟩, writeValue := ⟨0, 0, 0⟩,
    flushRemoteWrites := ⟨0⟩, inlineCopy := ⟨0, .ptr 0, 0, 0⟩, memoryBarrier := ⟨0⟩ }

/-- An array of zero records. -/
def Params.zero : Params := fun _ => CUstreamBatchMemOpParams.zero

/-- Collaborators that map every host pointer to itself; the driver call
returns `result`, which `gds_curesult_to_errno` maps to `5` (`EIO`) when it is
not `CUDA_SUCCESS`. -/
def Ext.returning (result : Nat) : Ext :=
  { gds_map_mem := fun ptr _ _ => (0, ptr),
    cuStreamBatchMemOp := fun _ _ _ => result,
    gds_curesult_to_errno := fun r => if r = 0 then 0 else 5 }

/-- A process of a build with the inline-copy and memory-barrier extensions,
started with `GDS_DISABLE_INLINECOPY=1` and `GDS_SIMULATE_WRITE64=1`: wide
writes are simulated and the memory barrier is enabled (strategy D). -/
def Ctx.simulate : Ctx :=
  { build := { GDS_HAS_WRITE64 := false, GDS_HAS_INLINE_COPY := true, GDS_HAS_WEAK_API := false,
               GDS_HAS_MEMBAR := true },
    env := { Env.unset with GDS_DISABLE_INLINECOPY := some [49], GDS_SIMULATE_WRITE64 := some [49] },
    dptr := fun id => id }

/-! # Lemmas -/

/-! ## Lemmas on the configuration -/

theorem has_inline_copy_of_enable_inlcpy {b : Build} {e : Env} (h : gds_enable_inlcpy b e = true) :
    b.GDS_HAS_INLINE_COPY = true := by
  simp [gds_enable_inlcpy] at h; exact h.1

theorem has_inline_copy_of_simulate_write64 {b : Build} {e : Env}
    (h : gds_simulate_write64 b e = true) : b.GDS_HAS_INLINE_COPY = true := by
  simp [gds_simulate_write64] at h; exact h.1

theorem has_membar_of_enable_membar {b : Build} {e : Env} (h : gds_enable_membar b e = true) :
    b.GDS_HAS_MEMBAR = true := by
  simp [gds_enable_membar] at h; exact h.1

theorem use_inlcpy_for_dword_eq (b : Build) (e : Env) :
    use_inlcpy_for_dword b e =
      ((gds_enable_inlcpy b e || gds_simulate_write64 b e) && !gds_enable_membar b e) := by
  unfold use_inlcpy_for_dword
  cases gds_enable_inlcpy b e <;> cases gds_simulate_write64 b e <;>
    cases gds_enable_membar b e <;> rfl

theorem has_inline_copy_of_use_inlcpy {b : Build} {e : Env}
    (h : use_inlcpy_for_dword b e = true) : b.GDS_HAS_INLINE_COPY = true := by
  rw [use_inlcpy_for_dword_eq] at h
  simp at h
  rcases h.1 with h1 | h1
  · exact has_inline_copy_of_enable_inlcpy h1
  · exact has_inline_copy_of_simulate_write64 h1

theorem spec_emitNarrowAsCopy_eq (c : Ctx) :
    spec_emitNarrowAsCopy c = use_inlcpy_for_dword c.build c.env := by
  rw [use_inlcpy_for_dword_eq]; unfold spec_emitNarrowAsCopy
  cases gds_enable_inlcpy c.build c.env <;> cases gds_simulate_write64 c.build c.env <;>
    cases gds_enable_membar c.build c.env <;> rfl

/-! ## Lemmas on slots -/

@[simp] theorem setSlot_same (p : Params) (i : Nat) (v : CUstreamBatchMemOpParams) :
    setSlot p i v i = v := by simp [setSlot]

theorem setSlot_ne (p : Params) {i j : Nat} (v : CUstreamBatchMemOpParams) (h : j ≠ i) :
    setSlot p i v j = p j := by simp [setSlot, h]

theorem sameButCopyFlags_refl (p : CUstreamBatchMemOpParams) : SameButCopyFlags p p := by
  simp [SameButCopyFlags]

theorem sameButCopyFlags_trans {p q r : CUstreamBatchMemOpParams}
    (h1 : SameButCopyFlags p q) (h2 : SameButCopyFlags q r) : SameButCopyFlags p r := by
  unfold SameButCopyFlags at *
  obtain ⟨a1, a2, a3, a4, a5, a6, a7, a8⟩ := h1
  obtain ⟨b1, b2, b3, b4, b5, b6, b7, b8⟩ := h2
  exact ⟨a1.trans b1, a2.trans b2, a3.trans b3, a4.trans b4, a5.trans b5, a6.trans b6,
    a7.trans b7, a8.trans b8⟩

theorem primitiveOf_congr {p q : CUstreamBatchMemOpParams} (h : SameButCopyFlags p q) :
    primitiveOf p = primitiveOf q := by
  obtain ⟨a1, a2, a3, _, _, a6, a7, a8⟩ := h
  unfold primitiveOf
  rw [a1, a2, a3, a6, a7, a8]



theorem frame_refl (s : St) : Frame s s := ⟨le_refl _, fun _ _ => sameButCopyFlags_refl _⟩

theorem frame_trans {s t r : St} (h1 : Frame s t) (h2 : Frame t r) : Frame s r :=
  ⟨le_trans h1.1 h2.1, fun j hj =>
    sameButCopyFlags_trans (h2.2 j (lt_of_lt_of_le hj h1.1)) (h1.2 j hj)⟩

theorem frame_of_eq {s t : St} (hi : t.idx = s.idx) (hp : t.params = s.params) : Frame s t :=
  ⟨by rw [hi], fun j _ => by rw [hp]; exact sameButCopyFlags_refl _⟩

theorem frame_emit (s : St) (r : Int × CUstreamBatchMemOpParams) : Frame s (s.emit r) := by
  refine ⟨by simp [St.emit], fun j hj => ?_⟩
  simp only [St.emit]
  rw [setSlot_ne _ _ (Nat.ne_of_lt hj)]
  exact sameButCopyFlags_refl _

theorem frame_emit_opt (s : St) (r : Option (Int × CUstreamBatchMemOpParams)) :
    Frame s (s.emit? r) := by
  cases r with
  | none => exact frame_of_eq rfl rfl
  | some r => exact frame_emit s r

theorem enable_barrier_same {b : Build} {p q : CUstreamBatchMemOpParams}
    (h : gds_enable_barrier_for_inlcpy b p = some q) : SameButCopyFlags q p := by
  unfold gds_enable_barrier_for_inlcpy at h
  split_ifs at h <;> simp at h <;> subst h <;> simp [SameButCopyFlags]

theorem frame_patch (s : St) {b : Build} {q : CUstreamBatchMemOpParams}
    (h : gds_enable_barrier_for_inlcpy b (s.params (s.idx - 1)) = some q) :
    Frame s { s with params := setSlot s.params (s.idx - 1) q } := by
  refine ⟨le_refl _, fun j _ => ?_⟩
  by_cases hj : j = s.idx - 1
  · subst hj; simp only [setSlot_same]; exact enable_barrier_same h
  · simp only [setSlot_ne _ _ hj]; exact sameButCopyFlags_refl _

/-- The frame of one iteration: the cursor does not move back and the slots
below it keep everything but, possibly, `inlineCopy.flags`. -/
theorem gds_post_op_frame (c : Ctx) (pf : Nat) (u : Bool) (op : peer_op_wr) (s : St) :
    Frame s (gds_post_op c pf u op s) := by
  unfold gds_post_op
  cases op with
  | FENCE f =>
    simp only
    split_ifs
    all_goals first
      | exact frame_refl _
      | exact frame_of_eq rfl rfl
      | exact frame_emit _ _
      | (split
         · exact frame_of_eq rfl rfl
         · rename_i q hq; exact frame_patch s hq)
  | STORE_DWORD d t o =>
    simp only
    split_ifs
    all_goals first
      | exact frame_of_eq rfl rfl
      | exact frame_emit_opt _ _
      | exact frame_trans (frame_of_eq (t := { s with prev_was_fence := false }) rfl rfl) (frame_emit_opt _ _)
  | STORE_QWORD d t o =>
    simp only
    split_ifs
    all_goals first
      | exact frame_of_eq rfl rfl
      | exact frame_emit_opt _ _
      | exact frame_trans (frame_of_eq (t := { s with prev_was_fence := false }) rfl rfl) (frame_emit_opt _ _)
      | exact frame_trans (frame_emit_opt _ _) (frame_emit_opt _ _)
      | exact frame_trans (frame_of_eq (t := { s with prev_was_fence := false }) rfl rfl) (frame_trans (frame_emit_opt _ _) (frame_emit_opt _ _))
  | COPY_BLOCK src len t o =>
    simp only
    split_ifs
    all_goals first
      | exact frame_of_eq rfl rfl
      | exact frame_emit_opt _ _
  | POLL_AND_DWORD d t o => exact frame_emit_opt _ _
  | POLL_GEQ_DWORD d t o => exact frame_emit_opt _ _
  | POLL_NOR_DWORD d t o =>
    simp only
    split_ifs
    all_goals exact frame_of_eq rfl rfl
  | UNDEFINED t => exact frame_of_eq rfl rfl

theorem slots_nil (p : Params) (i : Nat) : slots p i i = [] := by simp [slots]

theorem slots_one (p : Params) (i : Nat) : slots p i (i + 1) = [p i] := by
  simp [slots, List.range']

theorem slots_two (p : Params) (i : Nat) : slots p i (i + 1 + 1) = [p i, p (i + 1)] := by
  have h : i + 1 + 1 - i = 2 := by omega
  simp [slots, h, List.range']

theorem slots_append (p : Params) {a b c : Nat} (hab : a ≤ b) (hbc : b ≤ c) :
    slots p a c = slots p a b ++ slots p b c := by
  unfold slots
  rw [← List.map_append]
  congr 1
  have h1 : c - a = (c - b) + (b - a) := by omega
  have h2 : a + (b - a) = b := by omega
  rw [h1, ← List.range'_append_1, h2]

theorem slots_congr {p q : Params} {a b : Nat} (h : ∀ j, a ≤ j → j < b → p j = q j) :
    slots p a b = slots q a b := by
  unfold slots
  apply List.map_congr_left
  intro j hj
  rw [List.mem_range'_1] at hj
  exact h j hj.1 (by omega)

theorem st_live_iff (s : St) : s.live = true ↔ s.aborted = false ∧ s.retcode = 0 := by
  simp [St.live]

theorem emit_opt_live {s : St} {r : Option (Int × CUstreamBatchMemOpParams)}
    (h : (s.emit? r).live = true) :
    ∃ q, r = some (0, q) ∧ s.aborted = false ∧
      s.emit? r = { s with params := setSlot s.params s.idx q, retcode := 0, idx := s.idx + 1 } := by
  cases r with
  | none => simp [St.emit?, St.live] at h
  | some r =>
    obtain ⟨rc, q⟩ := r
    simp [St.emit?, St.emit, St.live] at h
    refine ⟨q, ?_, h.1, ?_⟩
    · rw [h.2]
    · simp [St.emit?, St.emit, h.2]

theorem emit_live {s : St} {r : Int × CUstreamBatchMemOpParams}
    (h : (s.emit r).live = true) :
    r.1 = 0 ∧ s.aborted = false ∧
      s.emit r = { s with params := setSlot s.params s.idx r.2, retcode := 0, idx := s.idx + 1 } := by
  simp [St.emit, St.live] at h
  refine ⟨h.2, h.1, ?_⟩
  simp [St.emit, h.2]

theorem fill_membar_zero {b : Build} {p : CUstreamBatchMemOpParams} {f : Nat}
    (hf : f = GDS_MEMBAR_DEFAULT ∨ f = GDS_MEMBAR_SYS) (h : (gds_fill_membar b p f).1 = 0) :
    (gds_fill_membar b p f).2 = { p with operation := .MEMORY_BARRIER, memoryBarrier :=
      { flags := if f = GDS_MEMBAR_DEFAULT then CU_STREAM_MEMORY_BARRIER_DEFAULT
                 else CU_STREAM_MEMORY_BARRIER_SYS } } := by
  unfold gds_fill_membar at *
  have e1 : (32 &&& 16 : Nat) = 0 := by decide
  have e2 : (64 &&& 16 : Nat) = 0 := by decide
  have e3 : (64 &&& 32 : Nat) = 0 := by decide
  rcases hf with hf | hf <;> subst hf <;> cases hb : b.GDS_HAS_MEMBAR <;>
    simp [hb, GDS_MEMBAR_DEFAULT, GDS_MEMBAR_SYS, GDS_MEMBAR_FLUSH_REMOTE, EINVAL, e1, e2, e3] at h ⊢

theorem fill_inlcpy_some {b : Build} {p q : CUstreamBatchMemOpParams} {a n f : Nat} {d : SrcData}
    (h : gds_fill_inlcpy b p a d n f = some (0, q)) :
    b.GDS_HAS_INLINE_COPY = true ∧ a ≠ 0 ∧ 0 < n ∧
    q = { p with
      operation := .INLINE_COPY,
      inlineCopy := {
        byteCount := n,
        srcData := d,
        address := a,
        flags := if f &&& GDS_IMMCOPY_POST_TAIL_FLUSH ≠ 0 then 0
          else CU_STREAM_INLINE_COPY_NO_MEMORY_BARRIER } } := by
  unfold gds_fill_inlcpy at h
  split_ifs at h with h1 h2 h3
  · simp at h
    refine ⟨h1, h2, by omega, ?_⟩
    rw [← h]; simp
  · simp [EINVAL] at h

theorem fill_poke_some {p q : CUstreamBatchMemOpParams} {a v f : Nat} {rc : Int}
    (h : gds_fill_poke p a v f = some (rc, q)) :
    rc = 0 ∧ a ≠ 0 ∧ a &&& 3 = 0 ∧
    q = { p with
      operation := .WRITE_VALUE_32,
      writeValue := {
        address := a,
        value := v,
        flags := if f &&& GDS_POKE_POST_PRE_BARRIER ≠ 0 then 0
          else CU_STREAM_WRITE_VALUE_NO_MEMORY_BARRIER } } := by
  unfold gds_fill_poke at h
  split_ifs at h with h1 h2
  simp at h
  refine ⟨h.1.symm, h1, by simpa using h2, ?_⟩
  rw [← h.2]; simp

theorem fill_poll_some {p q : CUstreamBatchMemOpParams} {a v cnd f : Nat}
    (hc : cnd = GDS_POLL_COND_GEQ ∨ cnd = GDS_POLL_COND_AND)
    (h : gds_fill_poll p a v cnd f = some (0, q)) :
    a ≠ 0 ∧ a &&& 3 = 0 ∧
    q = { p with
      operation := .WAIT_VALUE_32,
      waitValue := {
        address := a,
        value := v,
        flags := if f &&& GDS_POLL_POST_FLUSH ≠ 0 then
            (if cnd = GDS_POLL_COND_GEQ then CU_STREAM_WAIT_VALUE_GEQ
              else CU_STREAM_WAIT_VALUE_AND) ||| CU_STREAM_WAIT_VALUE_FLUSH
          else (if cnd = GDS_POLL_COND_GEQ then CU_STREAM_WAIT_VALUE_GEQ
            else CU_STREAM_WAIT_VALUE_AND) } } := by
  unfold gds_fill_poll at h
  by_cases h1 : a = 0
  · simp [h1] at h
  by_cases h2 : a &&& 3 = 0
  swap
  · simp [h1, h2] at h
  refine ⟨h1, h2, ?_⟩
  rcases hc with hc | hc <;> subst hc <;>
    simp [h1, h2, GDS_POLL_COND_GEQ, GDS_POLL_COND_AND, GDS_POLL_COND_EQ] at h ⊢ <;> rw [← h]

theorem qword_hi_eq (v : Nat) : gds_qword_hi v = v % 2 ^ 64 / 2 ^ 32 := by
  unfold gds_qword_hi
  rw [Nat.shiftRight_eq_div_pow]
  apply Nat.mod_eq_of_lt
  have h : v % 2 ^ 64 < 2 ^ 64 := Nat.mod_lt _ (by norm_num)
  rw [Nat.div_lt_iff_lt_mul (by norm_num)]
  calc v % 2 ^ 64 < 2 ^ 64 := h
    _ = 2 ^ 32 * 2 ^ 32 := by norm_num

theorem emitted_fence (c : Ctx) (pf : Nat) (u : Bool) (f : Nat) (s : St)
    (h : (gds_post_op c pf u (.FENCE f) s).live = true) :
    (slots (gds_post_op c pf u (.FENCE f) s).params s.idx
      (gds_post_op c pf u (.FENCE f) s).idx).filterMap primitiveOf = [] := by
  unfold gds_post_op at h ⊢
  simp only at h ⊢
  split_ifs at h ⊢
  all_goals first
    | (simp [slots_nil]; done)
    | (simp [St.live, EINVAL] at h; done)
    | (split at h <;> rename_i hm
       · simp [St.live] at h
       · simp [hm, slots_nil])
    | (obtain ⟨h0, -, he⟩ := emit_live h
       rw [he]
       simp only [slots_one, setSlot_same]
       rw [fill_membar_zero (by simp) h0]
       simp [primitiveOf])

theorem emitted_store_dword (c : Ctx) (pf : Nat) (d t o : Nat) (s : St)
    (h : (gds_post_op c pf (use_inlcpy_for_dword c.build c.env) (.STORE_DWORD d t o) s).live
      = true) :
    (slots (gds_post_op c pf (use_inlcpy_for_dword c.build c.env) (.STORE_DWORD d t o) s).params
      s.idx (gds_post_op c pf (use_inlcpy_for_dword c.build c.env) (.STORE_DWORD d t o) s).idx
      ).filterMap primitiveOf = spec_lowering c pf (.STORE_DWORD d t o) := by
  unfold gds_post_op at h ⊢
  simp only [spec_lowering, spec_emitNarrowAsCopy_eq] at h ⊢
  split_ifs at h ⊢
  all_goals first
    | (simp [St.live, EINVAL] at h; done)
    | (obtain ⟨q, hq, -, he⟩ := emit_opt_live h
       rw [he]
       obtain ⟨-, -, -, rfl⟩ := fill_inlcpy_some hq
       simp [slots_one, primitiveOf])
    | (obtain ⟨q, hq, -, he⟩ := emit_opt_live h
       rw [he]
       obtain ⟨-, -, -, rfl⟩ := fill_poke_some hq
       simp [slots_one, primitiveOf])

theorem emit_opt_not_aborted {s : St} {r : Option (Int × CUstreamBatchMemOpParams)}
    (h : (s.emit? r).aborted = false) :
    ∃ rc q, r = some (rc, q) ∧ s.aborted = false ∧
      s.emit? r = { s with params := setSlot s.params s.idx q, retcode := rc, idx := s.idx + 1 } := by
  cases r with
  | none => simp [St.emit?] at h
  | some r =>
    obtain ⟨rc, q⟩ := r
    simp [St.emit?, St.emit] at h
    exact ⟨rc, q, rfl, h, by simp [St.emit?, St.emit]⟩

theorem emitted_store_qword (c : Ctx) (pf : Nat) (u : Bool) (d t o : Nat) (s : St)
    (h : (gds_post_op c pf u (.STORE_QWORD d t o) s).live = true) :
    (slots (gds_post_op c pf u (.STORE_QWORD d t o) s).params
      s.idx (gds_post_op c pf u (.STORE_QWORD d t o) s).idx
      ).filterMap primitiveOf = spec_lowering c pf (.STORE_QWORD d t o) := by
  unfold gds_post_op at h ⊢
  simp only [spec_lowering] at h ⊢
  split_ifs at h ⊢
  all_goals first
    | (simp [St.live, EINVAL] at h; done)
    | (simp_all [St.live]; done)
    | (obtain ⟨q, hq, -, he⟩ := emit_opt_live h
       rw [he]
       obtain ⟨-, -, -, rfl⟩ := fill_inlcpy_some hq
       simp [slots_one, primitiveOf])
    | (rename_i hna
       obtain ⟨rc, q1, hq1, -, he1⟩ := emit_opt_not_aborted (Bool.eq_false_iff.mpr hna)
       rw [he1] at h ⊢
       obtain ⟨q2, hq2, -, he2⟩ := emit_opt_live h
       rw [he2]
       obtain ⟨-, -, -, rfl⟩ := fill_poke_some hq1
       obtain ⟨-, -, -, rfl⟩ := fill_poke_some hq2
       simp [slots_two, primitiveOf, setSlot, gds_qword_lo, qword_hi_eq])

theorem emitted_copy_block (c : Ctx) (pf : Nat) (u : Bool) (src len t o : Nat) (s : St)
    (h : (gds_post_op c pf u (.COPY_BLOCK src len t o) s).live = true) :
    (slots (gds_post_op c pf u (.COPY_BLOCK src len t o) s).params
      s.idx (gds_post_op c pf u (.COPY_BLOCK src len t o) s).idx
      ).filterMap primitiveOf = spec_lowering c pf (.COPY_BLOCK src len t o) := by
  unfold gds_post_op at h ⊢
  simp only [spec_lowering] at h ⊢
  split_ifs at h ⊢
  all_goals first
    | (simp [St.live, EINVAL] at h; done)
    | (obtain ⟨q, hq, -, he⟩ := emit_opt_live h
       rw [he]
       obtain ⟨-, -, -, rfl⟩ := fill_inlcpy_some hq
       simp [slots_one, primitiveOf])

theorem emitted_poll_and (c : Ctx) (pf : Nat) (u : Bool) (d t o : Nat) (s : St)
    (h : (gds_post_op c pf u (.POLL_AND_DWORD d t o) s).live = true) :
    (slots (gds_post_op c pf u (.POLL_AND_DWORD d t o) s).params
      s.idx (gds_post_op c pf u (.POLL_AND_DWORD d t o) s).idx
      ).filterMap primitiveOf = spec_lowering c pf (.POLL_AND_DWORD d t o) := by
  unfold gds_post_op at h ⊢
  simp only [spec_lowering] at h ⊢
  obtain ⟨q, hq, -, he⟩ := emit_opt_live h
  rw [he]
  obtain ⟨-, -, rfl⟩ := fill_poll_some (Or.inr rfl) hq
  have e1 : (8 &&& 8 : Nat) = 8 := by decide
  by_cases hd : pf &&& GDS_POST_OPS_DISCARD_WAIT_FLUSH = 0 <;>
    simp [slots_one, primitiveOf, spec_wait_flags, hd, GDS_POLL_POST_FLUSH, GDS_POLL_COND_AND,
      GDS_POLL_COND_GEQ, e1]

theorem emitted_poll_geq (c : Ctx) (pf : Nat) (u : Bool) (d t o : Nat) (s : St)
    (h : (gds_post_op c pf u (.POLL_GEQ_DWORD d t o) s).live = true) :
    (slots (gds_post_op c pf u (.POLL_GEQ_DWORD d t o) s).params
      s.idx (gds_post_op c pf u (.POLL_GEQ_DWORD d t o) s).idx
      ).filterMap primitiveOf = spec_lowering c pf (.POLL_GEQ_DWORD d t o) := by
  unfold gds_post_op at h ⊢
  simp only [spec_lowering] at h ⊢
  obtain ⟨q, hq, -, he⟩ := emit_opt_live h
  rw [he]
  obtain ⟨-, -, rfl⟩ := fill_poll_some (Or.inl rfl) hq
  have e1 : (8 &&& 8 : Nat) = 8 := by decide
  by_cases hd : pf &&& GDS_POST_OPS_DISCARD_WAIT_FLUSH = 0 <;>
    simp [slots_one, primitiveOf, spec_wait_flags, hd, GDS_POLL_POST_FLUSH, GDS_POLL_COND_AND,
      GDS_POLL_COND_GEQ, e1]

/-- What a live iteration writes: the slots from the old cursor to the new one
hold, barriers apart, the lowering the spec gives for the peer op. -/
theorem gds_post_op_emitted (c : Ctx) (pf : Nat) (op : peer_op_wr) (s : St)
    (h : (gds_post_op c pf (use_inlcpy_for_dword c.build c.env) op s).live = true) :
    (slots (gds_post_op c pf (use_inlcpy_for_dword c.build c.env) op s).params s.idx
      (gds_post_op c pf (use_inlcpy_for_dword c.build c.env) op s).idx).filterMap primitiveOf
      = spec_lowering c pf op := by
  cases op with
  | FENCE f => exact emitted_fence c pf _ f s h
  | STORE_DWORD d t o => exact emitted_store_dword c pf d t o s h
  | STORE_QWORD d t o => exact emitted_store_qword c pf _ d t o s h
  | COPY_BLOCK src len t o => exact emitted_copy_block c pf _ src len t o s h
  | POLL_AND_DWORD d t o => exact emitted_poll_and c pf _ d t o s h
  | POLL_GEQ_DWORD d t o => exact emitted_poll_geq c pf _ d t o s h
  | POLL_NOR_DWORD d t o => simp [gds_post_op, gpu_does_support_nor, St.live] at h
  | UNDEFINED t => simp [gds_post_op, St.live, EINVAL] at h

theorem filterMap_slots_congr {p q : Params} {a b : Nat}
    (h : ∀ j, a ≤ j → j < b → primitiveOf (p j) = primitiveOf (q j)) :
    (slots p a b).filterMap primitiveOf = (slots q a b).filterMap primitiveOf := by
  unfold slots
  rw [List.filterMap_map, List.filterMap_map]
  apply List.filterMap_congr
  intro j hj
  rw [List.mem_range'_1] at hj
  exact h j hj.1 (by omega)

/-- The frame of the whole loop, for every run. -/
theorem gds_post_ops_loop_frame (c : Ctx) (pf : Nat) (u : Bool) :
    ∀ (n : Nat) (ops : List peer_op_wr) (s : St), Frame s (gds_post_ops_loop c pf u n ops s) := by
  intro n
  induction n with
  | zero => intro ops s; simp [gds_post_ops_loop]; exact frame_refl s
  | succ n ih =>
    intro ops s
    cases ops with
    | nil => simp [gds_post_ops_loop]; exact frame_of_eq rfl rfl
    | cons op rest =>
      simp only [gds_post_ops_loop]
      split_ifs
      · exact gds_post_op_frame c pf u op s
      · exact frame_trans (gds_post_op_frame c pf u op s) (ih rest _)

/-- What a live run of the loop writes. -/
theorem gds_post_ops_loop_emitted (c : Ctx) (pf : Nat) :
    ∀ (n : Nat) (ops : List peer_op_wr) (s : St),
      (gds_post_ops_loop c pf (use_inlcpy_for_dword c.build c.env) n ops s).live = true →
      (slots (gds_post_ops_loop c pf (use_inlcpy_for_dword c.build c.env) n ops s).params s.idx
        (gds_post_ops_loop c pf (use_inlcpy_for_dword c.build c.env) n ops s).idx).filterMap
          primitiveOf = (ops.take n).flatMap (spec_lowering c pf) := by
  intro n
  induction n with
  | zero => intro ops s _; simp [gds_post_ops_loop, slots_nil]
  | succ n ih =>
    intro ops s h
    cases ops with
    | nil => simp [gds_post_ops_loop, St.live] at h
    | cons op rest =>
      simp only [gds_post_ops_loop] at h ⊢
      split_ifs at h ⊢ with hc
      · simp [St.live] at h hc
        rcases hc with hc | hc
        · simp [hc] at h
        · exact absurd h.2 hc
      · have hl : (gds_post_op c pf (use_inlcpy_for_dword c.build c.env) op s).live = true := by
          simp [St.live] at hc ⊢
          exact hc
        have f1 := gds_post_op_frame c pf (use_inlcpy_for_dword c.build c.env) op s
        have f2 := gds_post_ops_loop_frame c pf (use_inlcpy_for_dword c.build c.env) n rest
          (gds_post_op c pf (use_inlcpy_for_dword c.build c.env) op s)
        rw [slots_append _ f1.1 f2.1, List.filterMap_append, ih rest _ h, List.take_succ_cons,
          List.flatMap_cons]
        congr 1
        rw [← gds_post_op_emitted c pf op s hl]
        apply filterMap_slots_congr
        intro j _ hj
        exact primitiveOf_congr (f2.2 j hj)

theorem gds_post_ops_loop_length (c : Ctx) (pf : Nat) (u : Bool) :
    ∀ (n : Nat) (ops : List peer_op_wr) (s : St),
      (gds_post_ops_loop c pf u n ops s).live = true → n ≤ ops.length := by
  intro n
  induction n with
  | zero => intro ops s _; exact Nat.zero_le _
  | succ n ih =>
    intro ops s h
    cases ops with
    | nil => simp [gds_post_ops_loop, St.live] at h
    | cons op rest =>
      simp only [gds_post_ops_loop] at h
      split_ifs at h with hc
      · simp [St.live] at h hc
        rcases hc with hc | hc
        · simp [hc] at h
        · exact absurd h.2 hc
      · simpa using ih rest _ h

theorem post_descriptor_ret (c : Ctx) (x : Ext) (mf : Bool) (lw cap i : Nat)
    (d : gds_descriptor_t) (s : DSt)
    (h : (post_descriptor c x mf lw cap i d s).retcode = 0) :
    (post_descriptor c x mf lw cap i d s).ret = s.ret := by
  unfold post_descriptor at h ⊢
  cases d with
  | SEND e st => simp only at h ⊢; split_ifs at h ⊢ <;> simp_all
  | WAIT e st => simp only at h ⊢; split_ifs at h ⊢ <;> simp_all
  | WAIT_VALUE32 v =>
    simp only at h ⊢
    cases hm : gds_fill_poll_ptr x (s.params s.idx) v.ptr (u32 v.value) v.cond_flags v.flags with
    | none => simp
    | some r =>
      obtain ⟨rc, q⟩ := r
      simp only [hm] at h ⊢
      split_ifs at h ⊢ <;> simp_all
  | WRITE_VALUE32 v =>
    simp only at h ⊢
    cases hm : gds_fill_poke_ptr x (s.params s.idx) v.ptr (u32 v.value) v.flags with
    | none => simp
    | some r =>
      obtain ⟨rc, q⟩ := r
      simp only [hm] at h ⊢
      split_ifs at h ⊢ <;> simp_all
  | INVALID t => rfl

theorem post_descriptors_loop_ret (c : Ctx) (x : Ext) (mf : Bool) (lw cap : Nat) :
    ∀ (ds : List gds_descriptor_t) (i : Nat) (s : DSt), s.retcode = 0 →
      (post_descriptors_loop c x mf lw cap i ds s).retcode = 0 →
      (post_descriptors_loop c x mf lw cap i ds s).ret = s.ret := by
  intro ds
  induction ds with
  | nil => intro i s _ _; rfl
  | cons d ds ih =>
    intro i s hs h
    simp only [post_descriptors_loop] at h ⊢
    split_ifs at h ⊢ with hc
    · exact post_descriptor_ret c x mf lw cap i d s h
    · have h1 : (post_descriptor c x mf lw cap i d s).retcode = 0 := by
        simp at hc; exact hc.2
      rw [ih (i + 1) _ h1 h]
      exact post_descriptor_ret c x mf lw cap i d s h1

/-! # The claims -/

theorem emit_idx (s : St) (r : Int × CUstreamBatchMemOpParams) : (s.emit r).idx = s.idx + 1 := rfl

theorem emit_opt_idx_le (s : St) (r : Option (Int × CUstreamBatchMemOpParams)) :
    (s.emit? r).idx ≤ s.idx + 1 := by
  cases r with
  | none => exact Nat.le_succ _
  | some r => exact le_of_eq rfl

/-- One iteration advances the cursor by at most one, two for a StoreWide. -/
theorem gds_post_op_idx_le (c : Ctx) (pf : Nat) (u : Bool) (op : peer_op_wr) (s : St) :
    (gds_post_op c pf u op s).idx ≤ s.idx + (if op.isStoreQword = true then 2 else 1) := by
  unfold gds_post_op
  cases op with
  | FENCE f =>
    simp only [peer_op_wr.isStoreQword, Bool.false_eq_true, if_false]
    split_ifs
    all_goals first
      | exact Nat.le_succ _
      | exact le_of_eq (emit_idx _ _)
      | (split <;> exact Nat.le_succ _)
  | STORE_DWORD d t o =>
    simp only [peer_op_wr.isStoreQword, Bool.false_eq_true, if_false]
    split_ifs
    all_goals first
      | exact Nat.le_succ _
      | exact emit_opt_idx_le _ _
  | STORE_QWORD d t o =>
    simp only [peer_op_wr.isStoreQword, if_true]
    split_ifs
    all_goals first
      | exact Nat.le_add_right _ _
      | exact le_trans (emit_opt_idx_le _ _) (Nat.le_succ _)
      | exact le_trans (emit_opt_idx_le _ _) (Nat.succ_le_succ (emit_opt_idx_le _ _))
  | COPY_BLOCK src len t o =>
    simp only [peer_op_wr.isStoreQword, Bool.false_eq_true, if_false]
    split_ifs
    all_goals first
      | exact Nat.le_succ _
      | exact emit_opt_idx_le _ _
  | POLL_AND_DWORD d t o =>
    simp only [peer_op_wr.isStoreQword, Bool.false_eq_true, if_false]
    exact emit_opt_idx_le _ _
  | POLL_GEQ_DWORD d t o =>
    simp only [peer_op_wr.isStoreQword, Bool.false_eq_true, if_false]
    exact emit_opt_idx_le _ _
  | POLL_NOR_DWORD d t o =>
    simp only [peer_op_wr.isStoreQword, Bool.false_eq_true, if_false]
    split_ifs <;> exact Nat.le_succ _
  | UNDEFINED t =>
    simp only [peer_op_wr.isStoreQword, Bool.false_eq_true, if_false]
    exact Nat.le_succ _

theorem gds_post_ops_loop_idx_le (c : Ctx) (pf : Nat) (u : Bool) :
    ∀ (n : Nat) (ops : List peer_op_wr) (s : St),
      (gds_post_ops_loop c pf u n ops s).idx ≤
        s.idx + (ops.take n).length + (ops.take n).countP peer_op_wr.isStoreQword := by
  intro n
  induction n with
  | zero => intro ops s; simp [gds_post_ops_loop]
  | succ n ih =>
    intro ops s
    cases ops with
    | nil => simp [gds_post_ops_loop]
    | cons op rest =>
      have h1 := gds_post_op_idx_le c pf u op s
      have h2 := ih rest (gds_post_op c pf u op s)
      simp only [gds_post_ops_loop, List.take_succ_cons, List.length_cons, List.countP_cons]
      split_ifs at h1 ⊢ <;> omega

/-- C1 (as amended): for every capability configuration and every peer-op
sequence, the number of primitive ops `gds_post_ops` emits (final cursor minus
entry cursor) is at most `n` plus the number of StoreWide ops among the first
`n` entries; hence it is at most `2n`, and at most `n+2` whenever these hold at
most two StoreWide ops. -/
theorem gds_post_ops_emits_at_most_n_plus_wide (c : Ctx) (n_ops : Nat) (op : List peer_op_wr)
    (params : Params) (idx : Nat) (post_flags : Nat) :
    (gds_post_ops c n_ops op params idx post_flags).idx - idx ≤
      n_ops + (op.take n_ops).countP peer_op_wr.isStoreQword ∧
    (gds_post_ops c n_ops op params idx post_flags).idx - idx ≤ 2 * n_ops ∧
    ((op.take n_ops).countP peer_op_wr.isStoreQword ≤ 2 →
      (gds_post_ops c n_ops op params idx post_flags).idx - idx ≤ n_ops + 2) := by
  have h := gds_post_ops_loop_idx_le c post_flags (use_inlcpy_for_dword c.build c.env) n_ops op
    { idx := idx, params := params, prev_was_fence := false, retcode := 0, aborted := false }
  have h1 : (op.take n_ops).length ≤ n_ops := List.length_take_le _ _
  have h2 : (op.take n_ops).countP peer_op_wr.isStoreQword ≤ (op.take n_ops).length :=
    List.countP_le_length _
  unfold gds_post_ops
  simp only at h ⊢
  refine ⟨by omega, by omega, fun h3 => by omega⟩

/-- Witness for C1 (as amended): a StoreNarrow, a fence and a StoreWide emit
three ops, within `3 + 2`. -/
theorem gds_post_ops_emits_at_most_n_plus_wide_witness :
    (gds_post_ops Ctx.plain 3 [.STORE_DWORD 5 4096 0, .FENCE 42, .STORE_QWORD 7 4096 8]
      Params.zero 0 0).idx - 0 ≤ 3 + 2 :=
  (gds_post_ops_emits_at_most_n_plus_wide Ctx.plain 3
    [.STORE_DWORD 5 4096 0, .FENCE 42, .STORE_QWORD 7 4096 8] Params.zero 0 0).2.2 (by decide)

/-- Counterexample to C1 as stated (at most `n+2` ops for `n` peer ops): on
three `STORE_QWORD` entries with valid addresses, in a plain build,
`gds_post_ops` returns `0` having advanced the cursor by six, which exceeds
`3+2`; each wide store is lowered to two writes. -/
theorem gds_post_ops_three_store_qword_emit_six :
    (gds_post_ops Ctx.plain 3
      [.STORE_QWORD 1 4096 0, .STORE_QWORD 2 4096 8, .STORE_QWORD 3 4096 16]
      Params.zero 0 0).ok = true ∧
    (gds_post_ops Ctx.plain 3
      [.STORE_QWORD 1 4096 0, .STORE_QWORD 2 4096 8, .STORE_QWORD 3 4096 16]
      Params.zero 0 0).idx - 0 = 6 ∧
    ¬ (6 ≤ 3 + 2) := by
  decide

/-- C2 (code defect): the claim says the final cursor of
`gds_stream_post_descriptors` never exceeds `calc_n_mem_ops`.  For a `WAIT` of
four `STORE_QWORD` entries followed by a `WRITE_VALUE32`, the planner sizes the
array at `8`; the translation passes `assert(idx <= n_mem_ops)` with `idx = 8`,
the value-level write then fills slot `8`, past the end of the array, and nine
ops are submitted. -/
theorem gds_stream_post_descriptors_writes_past_planned_size :
    calc_n_mem_ops
      [.WAIT 4 [.STORE_QWORD 1 4096 0, .STORE_QWORD 2 4096 8, .STORE_QWORD 3 4096 16,
                .STORE_QWORD 4 4096 24],
       .WRITE_VALUE32 ⟨8192, 1, 0, 0⟩] 0 = 8 ∧
    (gds_stream_post_descriptors Ctx.plain (Ext.returning 0)
      [.WAIT 4 [.STORE_QWORD 1 4096 0, .STORE_QWORD 2 4096 8, .STORE_QWORD 3 4096 16,
                .STORE_QWORD 4 4096 24],
       .WRITE_VALUE32 ⟨8192, 1, 0, 0⟩] Params.zero).aborted = false ∧
    (gds_stream_post_descriptors Ctx.plain (Ext.returning 0)
      [.WAIT 4 [.STORE_QWORD 1 4096 0, .STORE_QWORD 2 4096 8, .STORE_QWORD 3 4096 16,
                .STORE_QWORD 4 4096 24],
       .WRITE_VALUE32 ⟨8192, 1, 0, 0⟩] Params.zero).idx = 9 ∧
    ((gds_stream_post_descriptors Ctx.plain (Ext.returning 0)
      [.WAIT 4 [.STORE_QWORD 1 4096 0, .STORE_QWORD 2 4096 8, .STORE_QWORD 3 4096 16,
                .STORE_QWORD 4 4096 24],
       .WRITE_VALUE32 ⟨8192, 1, 0, 0⟩] Params.zero).params 8).operation = .WRITE_VALUE_32 ∧
    ((gds_stream_post_descriptors Ctx.plain (Ext.returning 0)
      [.WAIT 4 [.STORE_QWORD 1 4096 0, .STORE_QWORD 2 4096 8, .STORE_QWORD 3 4096 16,
                .STORE_QWORD 4 4096 24],
       .WRITE_VALUE32 ⟨8192, 1, 0, 0⟩] Params.zero).batches.map (fun b => b.count)) = [9] := by
  decide

/-- C3 (code defect): the claim says a failed batch submit makes
`gds_stream_post_descriptors` return a non-zero code.  Whenever the function
reaches the submit it returns `ret`, which is still `0`, whatever
`gds_stream_batch_ops` returned: the failure is stored in `retcode` and lost. -/
theorem gds_stream_post_descriptors_returns_zero_after_submit (c : Ctx) (x : Ext)
    (descs : List gds_descriptor_t) (params0 : Params)
    (h : (gds_stream_post_descriptors c x descs params0).batches.length ≠ 0) :
    (gds_stream_post_descriptors c x descs params0).ret = 0 := by
  unfold gds_stream_post_descriptors at h ⊢
  simp only at h ⊢
  split_ifs at h ⊢ with h1 h2
  · simp at h
  · simp at h
  · simp only
    have h3 := post_descriptors_loop_ret c x (move_flush_of descs) (get_wait_info descs).2.2
      (calc_n_mem_ops descs 0) descs 0
      { idx := 0, params := params0, ret := 0, retcode := 0, aborted := false } rfl
      (by simpa using h2)
    simpa using h3

/-- Witness for C3: the driver call fails (result `1`), `gds_stream_batch_ops`
returns `5`, and `gds_stream_post_descriptors` still returns `0`. -/
theorem gds_stream_post_descriptors_returns_zero_after_submit_witness :
    (gds_stream_batch_ops Ctx.plain (Ext.returning 1) 1
      (gds_stream_post_descriptors Ctx.plain (Ext.returning 1)
        [.WRITE_VALUE32 ⟨8192, 1, 0, 0⟩] Params.zero).params 0).1 = 5 ∧
    (gds_stream_post_descriptors Ctx.plain (Ext.returning 1)
      [.WRITE_VALUE32 ⟨8192, 1, 0, 0⟩] Params.zero).batches.length ≠ 0 ∧
    (gds_stream_post_descriptors Ctx.plain (Ext.returning 1)
      [.WRITE_VALUE32 ⟨8192, 1, 0, 0⟩] Params.zero).ret = 0 :=
  ⟨by decide, by decide,
    gds_stream_post_descriptors_returns_zero_after_submit Ctx.plain (Ext.returning 1)
      [.WRITE_VALUE32 ⟨8192, 1, 0, 0⟩] Params.zero (by decide)⟩

/-- C4: for every successful `gds_post_ops` translation (return code `0`), the
slots written from the entry cursor to the final cursor hold, `MemoryBarrier`
ops apart, exactly the concatenation in input order of the lowerings of the
first `n_ops` peer ops: nothing for a fence, one op for StoreNarrow, CopyBlock,
PollNarrow and simulated StoreWide, two consecutive ops for a non-simulated
StoreWide.  No non-fence op is reordered, dropped or duplicated. -/
theorem gds_post_ops_emits_lowerings_in_order (c : Ctx) (n_ops : Nat) (op : List peer_op_wr)
    (params : Params) (idx : Nat) (post_flags : Nat)
    (h : (gds_post_ops c n_ops op params idx post_flags).ok = true) :
    n_ops ≤ op.length ∧
    idx ≤ (gds_post_ops c n_ops op params idx post_flags).idx ∧
    (slots (gds_post_ops c n_ops op params idx post_flags).params idx
      (gds_post_ops c n_ops op params idx post_flags).idx).filterMap primitiveOf
      = (op.take n_ops).flatMap (spec_lowering c post_flags) := by
  unfold gds_post_ops Res.ok at *
  simp only at h ⊢
  have hl : (gds_post_ops_loop c post_flags (use_inlcpy_for_dword c.build c.env) n_ops op
      { idx := idx, params := params, prev_was_fence := false, retcode := 0,
        aborted := false }).live = true := h
  have hf := gds_post_ops_loop_frame c post_flags (use_inlcpy_for_dword c.build c.env) n_ops op
    { idx := idx, params := params, prev_was_fence := false, retcode := 0, aborted := false }
  exact ⟨gds_post_ops_loop_length c post_flags _ n_ops op _ hl, hf.1,
    gds_post_ops_loop_emitted c post_flags n_ops op _ hl⟩

/-- Witness for C4: a StoreNarrow, a fence and a StoreWide in a plain build. -/
theorem gds_post_ops_emits_lowerings_in_order_witness :
    (gds_post_ops Ctx.plain 3 [.STORE_DWORD 5 4096 0, .FENCE 42, .STORE_QWORD 7 4096 8]
      Params.zero 0 0).ok = true ∧
    (slots (gds_post_ops Ctx.plain 3 [.STORE_DWORD 5 4096 0, .FENCE 42, .STORE_QWORD 7 4096 8]
      Params.zero 0 0).params 0
      (gds_post_ops Ctx.plain 3 [.STORE_DWORD 5 4096 0, .FENCE 42, .STORE_QWORD 7 4096 8]
        Params.zero 0 0).idx).filterMap primitiveOf
      = [.WriteValue32 4096 5, .WriteValue32 4104 7, .WriteValue32 4108 0] :=
  ⟨by decide,
    (gds_post_ops_emits_lowerings_in_order Ctx.plain 3
      [.STORE_DWORD 5 4096 0, .FENCE 42, .STORE_QWORD 7 4096 8] Params.zero 0 0
      (by decide)).2.2.trans (by decide)⟩

theorem and_three_eq_mod (a : Nat) : a &&& 3 = a % 4 := by
  have h := Nat.and_pow_two_sub_one_eq_mod a 2
  simpa using h

theorem fill_poke_ok (p : CUstreamBatchMemOpParams) {a : Nat} (v f : Nat)
    (h0 : a ≠ 0) (h4 : a % 4 = 0) :
    gds_fill_poke p a v f = some (0, { p with
      operation := .WRITE_VALUE_32,
      writeValue := {
        address := a,
        value := v,
        flags := if f &&& GDS_POKE_POST_PRE_BARRIER ≠ 0 then 0
          else CU_STREAM_WRITE_VALUE_NO_MEMORY_BARRIER } }) := by
  unfold gds_fill_poke
  simp [h0, and_three_eq_mod, h4]

/-- C5 (as amended): with wide-write simulation off, for every 64-bit value `v`
and every base address `A` that is non-null, 4-byte aligned and not the last
word of the address space, one iteration of `gds_post_ops` on a StoreWide
writes exactly two consecutive `WRITE_VALUE_32` slots, first `A` with
`v mod 2^32`, then `A+4` with `v div 2^32`, touches no other slot, and
`hi * 2^32 + lo = v`. -/
theorem store_qword_lowers_to_two_writes (c : Ctx) (post_flags : Nat) (u : Bool)
    (v target_id offset A : Nat) (s : St)
    (hsim : gds_simulate_write64 c.build c.env = false)
    (hv : v < 2 ^ 64)
    (hA : (c.dptr target_id + offset) % 2 ^ 64 = A)
    (hA0 : A ≠ 0) (hA4 : A % 4 = 0) (hA64 : A + 4 < 2 ^ 64)
    (hs : s.aborted = false) :
    (gds_post_op c post_flags u (.STORE_QWORD v target_id offset) s).aborted = false ∧
    (gds_post_op c post_flags u (.STORE_QWORD v target_id offset) s).retcode = 0 ∧
    (gds_post_op c post_flags u (.STORE_QWORD v target_id offset) s).idx = s.idx + 2 ∧
    (gds_post_op c post_flags u (.STORE_QWORD v target_id offset) s).params s.idx =
      { s.params s.idx with
        operation := .WRITE_VALUE_32,
        writeValue := {
          address := A,
          value := v % 2 ^ 32,
          flags := if s.prev_was_fence then 0 else CU_STREAM_WRITE_VALUE_NO_MEMORY_BARRIER } } ∧
    (gds_post_op c post_flags u (.STORE_QWORD v target_id offset) s).params (s.idx + 1) =
      { s.params (s.idx + 1) with
        operation := .WRITE_VALUE_32,
        writeValue := {
          address := A + 4,
          value := v / 2 ^ 32,
          flags := CU_STREAM_WRITE_VALUE_NO_MEMORY_BARRIER } } ∧
    (∀ j, j ≠ s.idx → j ≠ s.idx + 1 →
      (gds_post_op c post_flags u (.STORE_QWORD v target_id offset) s).params j = s.params j) ∧
    (v / 2 ^ 32) * 2 ^ 32 + v % 2 ^ 32 = v := by
  have hA' : (A + 4) % 2 ^ 64 = A + 4 := Nat.mod_eq_of_lt hA64
  have hA4' : (A + 4) % 4 = 0 := by omega
  have hA0' : A + 4 ≠ 0 := by omega
  have hvm : v % 2 ^ 64 = v := Nat.mod_eq_of_lt hv
  have e1 : (16 &&& 16 : Nat) = 16 := by decide
  have e2 : (16 &&& (4294967295 ^^^ 16) : Nat) = 0 := by decide
  have e3 : (0 &&& (4294967295 ^^^ 16) : Nat) = 0 := by decide
  have e4 : (16 &&& 4294967279 &&& 16 : Nat) = 0 := by decide
  have hvm' : v % 18446744073709551616 = v := by simpa using hvm
  unfold gds_post_op
  simp only [gds_enable_write64, hsim, hA, hvm, hA']
  cases hp : s.prev_was_fence <;>
    simp [St.emit?, St.emit, fill_poke_ok, hA0, hA4, hA0', hA4', hs, setSlot, gds_qword_lo,
      qword_hi_eq, hvm, hvm', GDS_POKE_POST_PRE_BARRIER, e1, e2, e3, e4, Nat.div_add_mod'] <;>
    intro j h1 h2 <;> simp [h1, h2]

/-- Witness for C5 (as amended): the wide store of `5 * 2^32 + 7` at `0x1000`. -/
theorem store_qword_lowers_to_two_writes_witness :
    (gds_post_op Ctx.plain 0 false (.STORE_QWORD 21474836487 4096 0)
      { idx := 0, params := Params.zero, prev_was_fence := false, retcode := 0,
        aborted := false }).idx = 0 + 2 :=
  (store_qword_lowers_to_two_writes Ctx.plain 0 false 21474836487 4096 0 4096
    { idx := 0, params := Params.zero, prev_was_fence := false, retcode := 0, aborted := false }
    (by decide) (by decide) (by decide) (by decide) (by decide) (by decide) rfl).2.2.1

/-- Counterexample to C5 as stated ("every base address A"): with wide-write
simulation off, a StoreWide whose base address is `0` trips `assert(addr)` in
`gds_fill_poke`; the process aborts and no `WRITE_VALUE_32` is emitted. -/
theorem store_qword_at_null_address_aborts :
    gds_simulate_write64 Ctx.plain.build Ctx.plain.env = false ∧
    (gds_post_ops Ctx.plain 1 [.STORE_QWORD 7 0 0] Params.zero 0 0).aborted = true ∧
    (gds_post_ops Ctx.plain 1 [.STORE_QWORD 7 0 0] Params.zero 0 0).idx = 0 ∧
    ((gds_post_ops Ctx.plain 1 [.STORE_QWORD 7 0 0] Params.zero 0 0).params 0).operation
      ≠ .WRITE_VALUE_32 := by
  decide

theorem fill_inlcpy_ok {b : Build} (p : CUstreamBatchMemOpParams) {a n : Nat} (d : SrcData)
    (f : Nat) (hb : b.GDS_HAS_INLINE_COPY = true) (h0 : a ≠ 0) (hn : 0 < n) :
    gds_fill_inlcpy b p a d n f = some (0, { p with
      operation := .INLINE_COPY,
      inlineCopy := {
        byteCount := n,
        srcData := d,
        address := a,
        flags := if f &&& GDS_IMMCOPY_POST_TAIL_FLUSH ≠ 0 then 0
          else CU_STREAM_INLINE_COPY_NO_MEMORY_BARRIER } }) := by
  unfold gds_fill_inlcpy
  simp [hb, h0, hn]

/-- C6 (as amended): under a configuration with inline-copy enabled and
memory-barrier disabled (wide-write simulation is then off, inline-copy having
priority), one iteration of `gds_post_ops` on a StoreNarrow whose target
address is non-null writes exactly one slot, an `INLINE_COPY` of 4 bytes at the
target address (never a `WRITE_VALUE_32`), and touches no other slot. -/
theorem store_dword_lowers_to_inline_copy (c : Ctx) (post_flags : Nat)
    (d target_id offset A : Nat) (s : St)
    (hi : gds_enable_inlcpy c.build c.env = true)
    (hm : gds_enable_membar c.build c.env = false)
    (hA : (c.dptr target_id + offset) % 2 ^ 64 = A) (hA0 : A ≠ 0)
    (hs : s.aborted = false) :
    (gds_post_op c post_flags (use_inlcpy_for_dword c.build c.env)
      (.STORE_DWORD d target_id offset) s).aborted = false ∧
    (gds_post_op c post_flags (use_inlcpy_for_dword c.build c.env)
      (.STORE_DWORD d target_id offset) s).retcode = 0 ∧
    (gds_post_op c post_flags (use_inlcpy_for_dword c.build c.env)
      (.STORE_DWORD d target_id offset) s).idx = s.idx + 1 ∧
    (gds_post_op c post_flags (use_inlcpy_for_dword c.build c.env)
      (.STORE_DWORD d target_id offset) s).params s.idx =
      { s.params s.idx with
        operation := .INLINE_COPY,
        inlineCopy := {
          address := A,
          srcData := .addr_of_local (d % 2 ^ 32),
          byteCount := 4,
          flags := CU_STREAM_INLINE_COPY_NO_MEMORY_BARRIER } } ∧
    ((gds_post_op c post_flags (use_inlcpy_for_dword c.build c.env)
      (.STORE_DWORD d target_id offset) s).params s.idx).operation ≠ .WRITE_VALUE_32 ∧
    (∀ j, j ≠ s.idx →
      (gds_post_op c post_flags (use_inlcpy_for_dword c.build c.env)
        (.STORE_DWORD d target_id offset) s).params j = s.params j) := by
  have hu : use_inlcpy_for_dword c.build c.env = true := by
    rw [use_inlcpy_for_dword_eq]; simp [hi, hm]
  have hb := has_inline_copy_of_enable_inlcpy hi
  have e1 : (0 &&& 16 : Nat) = 0 := by decide
  unfold gds_post_op
  simp only [hu, hm, hA]
  simp [St.emit?, St.emit, fill_inlcpy_ok _ _ _ hb hA0, hs, setSlot, GDS_IMMCOPY_POST_TAIL_FLUSH, e1]
  intro j hj
  simp [hj]

/-- Witness for C6 (as amended): a StoreNarrow of `5` at `0x1000` in the
inline-copy build. -/
theorem store_dword_lowers_to_inline_copy_witness :
    ((gds_post_op Ctx.inlcpy 0 (use_inlcpy_for_dword Ctx.inlcpy.build Ctx.inlcpy.env)
      (.STORE_DWORD 5 4096 0)
      { idx := 0, params := Params.zero, prev_was_fence := false, retcode := 0,
        aborted := false }).params 0).operation ≠ .WRITE_VALUE_32 :=
  (store_dword_lowers_to_inline_copy Ctx.inlcpy 0 5 4096 0 4096
    { idx := 0, params := Params.zero, prev_was_fence := false, retcode := 0, aborted := false }
    (by decide) (by decide) (by decide) (by decide) rfl).2.2.2.2.1

/-- Counterexample to C6 as stated ("every StoreNarrow in every sequence"):
under that configuration a StoreNarrow whose target address is `0` trips
`assert(addr)` in `gds_fill_inlcpy`; the process aborts and no `INLINE_COPY`
is emitted. -/
theorem store_dword_at_null_address_aborts :
    gds_enable_inlcpy Ctx.inlcpy.build Ctx.inlcpy.env = true ∧
    gds_enable_membar Ctx.inlcpy.build Ctx.inlcpy.env = false ∧
    gds_simulate_write64 Ctx.inlcpy.build Ctx.inlcpy.env = false ∧
    (gds_post_ops Ctx.inlcpy 1 [.STORE_DWORD 5 0 0] Params.zero 0 0).aborted = true ∧
    (gds_post_ops Ctx.inlcpy 1 [.STORE_DWORD 5 0 0] Params.zero 0 0).idx = 0 ∧
    ((gds_post_ops Ctx.inlcpy 1 [.STORE_DWORD 5 0 0] Params.zero 0 0).params 0).operation
      ≠ .INLINE_COPY := by
  decide
theorem gds_post_ops_single (c : Ctx) (op : peer_op_wr) (params : Params) (idx pf : Nat) :
    gds_post_ops c 1 [op] params idx pf =
      { aborted := (gds_post_op c pf (use_inlcpy_for_dword c.build c.env) op
          { idx := idx, params := params, prev_was_fence := false, retcode := 0,
            aborted := false }).aborted,
        retcode := (gds_post_op c pf (use_inlcpy_for_dword c.build c.env) op
          { idx := idx, params := params, prev_was_fence := false, retcode := 0,
            aborted := false }).retcode,
        idx := (gds_post_op c pf (use_inlcpy_for_dword c.build c.env) op
          { idx := idx, params := params, prev_was_fence := false, retcode := 0,
            aborted := false }).idx,
        params := (gds_post_op c pf (use_inlcpy_for_dword c.build c.env) op
          { idx := idx, params := params, prev_was_fence := false, retcode := 0,
            aborted := false }).params } := by
  unfold gds_post_ops
  simp only [gds_post_ops_loop]
  split_ifs <;> rfl

/-- C8 (as amended): for every CopyBlock whose length exceeds the inline bound
of 256 bytes, with inline-copy enabled, `gds_post_ops` does not return
`EINVAL`: `assert(len <= GDS_GPU_MAX_INLINE_SIZE)` fails and the process
aborts.  No primitive op is emitted for it: at the abort the cursor and the
buffer are as they were before that op (and `retcode` is untouched). -/
theorem copy_block_over_bound_aborts (c : Ctx) (post_flags : Nat) (u : Bool)
    (src len target_id offset : Nat) (s : St) (params : Params) (idx : Nat)
    (hi : gds_enable_inlcpy c.build c.env = true)
    (hlen : GDS_GPU_MAX_INLINE_SIZE < len) :
    ((gds_post_op c post_flags u (.COPY_BLOCK src len target_id offset) s).aborted = true ∧
     (gds_post_op c post_flags u (.COPY_BLOCK src len target_id offset) s).retcode = s.retcode ∧
     (gds_post_op c post_flags u (.COPY_BLOCK src len target_id offset) s).idx = s.idx ∧
     (gds_post_op c post_flags u (.COPY_BLOCK src len target_id offset) s).params = s.params) ∧
    ((gds_post_ops c 1 [.COPY_BLOCK src len target_id offset] params idx post_flags).aborted
        = true ∧
     (gds_post_ops c 1 [.COPY_BLOCK src len target_id offset] params idx post_flags).retcode
        ≠ EINVAL ∧
     (gds_post_ops c 1 [.COPY_BLOCK src len target_id offset] params idx post_flags).idx
        = idx ∧
     (gds_post_ops c 1 [.COPY_BLOCK src len target_id offset] params idx post_flags).params
        = params) := by
  have hstep : ∀ t : St, gds_post_op c post_flags u (.COPY_BLOCK src len target_id offset) t
      = { t with aborted := true } := by
    intro t
    unfold gds_post_op
    simp [hi, Nat.not_le.mpr hlen]
  have hstep2 : ∀ t : St, gds_post_op c post_flags (use_inlcpy_for_dword c.build c.env)
      (.COPY_BLOCK src len target_id offset) t = { t with aborted := true } := by
    intro t
    unfold gds_post_op
    simp [hi, Nat.not_le.mpr hlen]
  refine ⟨?_, ?_⟩
  · rw [hstep]; exact ⟨rfl, rfl, rfl, rfl⟩
  · rw [gds_post_ops_single, hstep2]
    simp [EINVAL]

/-- Witness for C8 (as amended): a CopyBlock of 257 bytes in the inline-copy
build. -/
theorem copy_block_over_bound_aborts_witness :
    (gds_post_ops Ctx.inlcpy 1 [.COPY_BLOCK 77 257 8192 0] Params.zero 0 0).aborted = true :=
  (copy_block_over_bound_aborts Ctx.inlcpy 0 true 77 257 8192 0
    { idx := 0, params := Params.zero, prev_was_fence := false, retcode := 0, aborted := false }
    Params.zero 0 (by decide) (by decide)).2.1

/-- Counterexample to C8 as stated: a CopyBlock of 257 bytes with inline-copy
enabled does not make `gds_post_ops` return `EINVAL`; the call aborts in the
assertion and has no return code. -/
theorem copy_block_257_does_not_return_einval :
    gds_enable_inlcpy Ctx.inlcpy.build Ctx.inlcpy.env = true ∧
    ¬ ((gds_post_ops Ctx.inlcpy 1 [.COPY_BLOCK 77 257 8192 0] Params.zero 0 0).aborted = false ∧
       (gds_post_ops Ctx.inlcpy 1 [.COPY_BLOCK 77 257 8192 0] Params.zero 0 0).retcode
         = EINVAL) := by
  decide

/-- C9: under the configuration with memory-barrier, inline-copy and wide-write
simulation all disabled, for every non-null 4-byte-aligned address `a` and
every 32-bit value `d`, translating `[Fence(write, from-HCA, peer-memory),
StoreNarrow(a, d)]` with `gds_post_ops` returns `0` and writes exactly one
slot: a `WRITE_VALUE_32` with address `a`, value `d` and flags `0` (the
no-memory-barrier flag not set, so the pre-barrier is requested).  The cursor
advances by one: the fence emits nothing. -/
theorem fence_then_store_dword_emits_one_write (c : Ctx) (params : Params) (idx post_flags : Nat)
    (d target_id offset a : Nat)
    (hm : gds_enable_membar c.build c.env = false)
    (hi : gds_enable_inlcpy c.build c.env = false)
    (hsim : gds_simulate_write64 c.build c.env = false)
    (ha : (c.dptr target_id + offset) % 2 ^ 64 = a) (ha0 : a ≠ 0) (ha4 : a % 4 = 0)
    (hd : d < 2 ^ 32) :
    (gds_post_ops c 2
      [.FENCE (IBV_EXP_PEER_FENCE_OP_WRITE ||| IBV_EXP_PEER_FENCE_FROM_HCA |||
        IBV_EXP_PEER_FENCE_MEM_PEER), .STORE_DWORD d target_id offset]
      params idx post_flags).ok = true ∧
    (gds_post_ops c 2
      [.FENCE (IBV_EXP_PEER_FENCE_OP_WRITE ||| IBV_EXP_PEER_FENCE_FROM_HCA |||
        IBV_EXP_PEER_FENCE_MEM_PEER), .STORE_DWORD d target_id offset]
      params idx post_flags).idx = idx + 1 ∧
    (gds_post_ops c 2
      [.FENCE (IBV_EXP_PEER_FENCE_OP_WRITE ||| IBV_EXP_PEER_FENCE_FROM_HCA |||
        IBV_EXP_PEER_FENCE_MEM_PEER), .STORE_DWORD d target_id offset]
      params idx post_flags).params idx =
      { params idx with
        operation := .WRITE_VALUE_32,
        writeValue := { address := a, value := d, flags := 0 } } ∧
    ((gds_post_ops c 2
      [.FENCE (IBV_EXP_PEER_FENCE_OP_WRITE ||| IBV_EXP_PEER_FENCE_FROM_HCA |||
        IBV_EXP_PEER_FENCE_MEM_PEER), .STORE_DWORD d target_id offset]
      params idx post_flags).params idx).writeValue.flags
        &&& CU_STREAM_WRITE_VALUE_NO_MEMORY_BARRIER = 0 ∧
    (∀ j, j ≠ idx →
      (gds_post_ops c 2
        [.FENCE (IBV_EXP_PEER_FENCE_OP_WRITE ||| IBV_EXP_PEER_FENCE_FROM_HCA |||
          IBV_EXP_PEER_FENCE_MEM_PEER), .STORE_DWORD d target_id offset]
        params idx post_flags).params j = params j) := by
  have hu : use_inlcpy_for_dword c.build c.env = false := by
    rw [use_inlcpy_for_dword_eq]; simp [hi, hsim]
  have hdm : d % 2 ^ 32 = d := Nat.mod_eq_of_lt hd
  have hdm' : d % 4294967296 = d := by simpa using hdm
  have e1 : ((2 ||| 8 ||| 32) &&& (1 ||| 2) : Nat) = 2 := by decide
  have e2 : (0 ||| 16 : Nat) = 16 := by decide
  have e3 : (16 &&& 16 : Nat) = 16 := by decide
  unfold gds_post_ops Res.ok
  simp only [hu, gds_post_ops_loop, gds_post_op, hm, hi, ha, IBV_EXP_PEER_FENCE_OP_WRITE,
    IBV_EXP_PEER_FENCE_FROM_HCA, IBV_EXP_PEER_FENCE_MEM_PEER, IBV_EXP_PEER_FENCE_OP_READ, e1]
  simp [St.emit?, St.emit, fill_poke_ok _ _ _ ha0 ha4, setSlot, GDS_POKE_POST_PRE_BARRIER, e2, e3,
    hdm']
  intro j hj
  simp [hj]

/-- Witness for C9: the spec's scenario, address `0x1000` and data `1`. -/
theorem fence_then_store_dword_emits_one_write_witness :
    (gds_post_ops Ctx.plain 2
      [.FENCE (IBV_EXP_PEER_FENCE_OP_WRITE ||| IBV_EXP_PEER_FENCE_FROM_HCA |||
        IBV_EXP_PEER_FENCE_MEM_PEER), .STORE_DWORD 1 4096 0]
      Params.zero 0 0).params 0 =
      { Params.zero 0 with
        operation := .WRITE_VALUE_32,
        writeValue := { address := 4096, value := 1, flags := 0 } } :=
  (fence_then_store_dword_emits_one_write Ctx.plain Params.zero 0 0 1 4096 0 4096
    (by decide) (by decide) (by decide) (by decide) (by decide) (by decide) (by decide)).2.2.1
theorem fence_read (c : Ctx) (pf : Nat) (u : Bool) (f : Nat) (s : St)
    (hr : f &&& (IBV_EXP_PEER_FENCE_OP_READ ||| IBV_EXP_PEER_FENCE_OP_WRITE)
      = IBV_EXP_PEER_FENCE_OP_READ) :
    gds_post_op c pf u (.FENCE f) s = s := by
  unfold gds_post_op
  simp only [hr, if_true]

theorem fence_membar (c : Ctx) (pf : Nat) (u : Bool) (f : Nat) (s : St)
    (hr : f &&& (IBV_EXP_PEER_FENCE_OP_READ ||| IBV_EXP_PEER_FENCE_OP_WRITE)
      ≠ IBV_EXP_PEER_FENCE_OP_READ)
    (hm : gds_enable_membar c.build c.env = true) :
    gds_post_op c pf u (.FENCE f) s =
      if f &&& (IBV_EXP_PEER_FENCE_FROM_CPU ||| IBV_EXP_PEER_FENCE_FROM_HCA)
          ≠ IBV_EXP_PEER_FENCE_FROM_HCA then { s with retcode := EINVAL }
      else if f &&& (IBV_EXP_PEER_FENCE_MEM_SYS ||| IBV_EXP_PEER_FENCE_MEM_PEER)
          = IBV_EXP_PEER_FENCE_MEM_PEER then
        s.emit (gds_fill_membar c.build (s.params s.idx) GDS_MEMBAR_DEFAULT)
      else if f &&& (IBV_EXP_PEER_FENCE_MEM_SYS ||| IBV_EXP_PEER_FENCE_MEM_PEER)
          = IBV_EXP_PEER_FENCE_MEM_SYS then
        s.emit (gds_fill_membar c.build (s.params s.idx) GDS_MEMBAR_SYS)
      else { s with retcode := EINVAL } := by
  unfold gds_post_op
  simp only [if_neg hr, hm]
  rfl

theorem fence_patch (c : Ctx) (pf : Nat) (f : Nat) (s : St)
    (hr : f &&& (IBV_EXP_PEER_FENCE_OP_READ ||| IBV_EXP_PEER_FENCE_OP_WRITE)
      ≠ IBV_EXP_PEER_FENCE_OP_READ)
    (hm : gds_enable_membar c.build c.env = false) :
    gds_post_op c pf true (.FENCE f) s =
      if ¬ (s.idx ≥ 1) then { s with aborted := true }
      else
        match gds_enable_barrier_for_inlcpy c.build (s.params (s.idx - 1)) with
        | none => { s with aborted := true }
        | some p => { s with params := setSlot s.params (s.idx - 1) p } := by
  unfold gds_post_op
  simp only [if_neg hr, hm]
  rfl

theorem fence_record (c : Ctx) (pf : Nat) (f : Nat) (s : St)
    (hr : f &&& (IBV_EXP_PEER_FENCE_OP_READ ||| IBV_EXP_PEER_FENCE_OP_WRITE)
      ≠ IBV_EXP_PEER_FENCE_OP_READ)
    (hm : gds_enable_membar c.build c.env = false) :
    gds_post_op c pf false (.FENCE f) s = { s with prev_was_fence := true } := by
  unfold gds_post_op
  simp only [if_neg hr, hm]
  rfl

/-- C10: for every capability configuration, one iteration of `gds_post_ops`
on a fence from a live state does the following.  A read-direction fence
leaves the state as it is: still live, cursor and buffer unchanged.  Any other
(write-direction) fence that leaves the state live either appends exactly one
`MEMORY_BARRIER` slot at the cursor and changes no other slot, or keeps the
cursor and changes only `inlineCopy.flags` of the `INLINE_COPY` slot just below
it, or keeps cursor and buffer unchanged; so it never both appends a barrier
and patches a flag.  The same holds for a call of `gds_post_ops` on the fence
alone. -/
theorem fence_appends_or_patches_not_both (c : Ctx) (post_flags : Nat) (f : Nat) (s : St)
    (params : Params) (idx : Nat) (hs : s.live = true) :
    (f &&& (IBV_EXP_PEER_FENCE_OP_READ ||| IBV_EXP_PEER_FENCE_OP_WRITE)
        = IBV_EXP_PEER_FENCE_OP_READ →
      (gds_post_op c post_flags (use_inlcpy_for_dword c.build c.env) (.FENCE f) s).live = true ∧
      (gds_post_op c post_flags (use_inlcpy_for_dword c.build c.env) (.FENCE f) s).idx = s.idx ∧
      (gds_post_op c post_flags (use_inlcpy_for_dword c.build c.env) (.FENCE f) s).params
        = s.params ∧
      (gds_post_ops c 1 [.FENCE f] params idx post_flags).ok = true ∧
      (gds_post_ops c 1 [.FENCE f] params idx post_flags).idx = idx ∧
      (gds_post_ops c 1 [.FENCE f] params idx post_flags).params = params) ∧
    (f &&& (IBV_EXP_PEER_FENCE_OP_READ ||| IBV_EXP_PEER_FENCE_OP_WRITE)
        ≠ IBV_EXP_PEER_FENCE_OP_READ →
      (gds_post_op c post_flags (use_inlcpy_for_dword c.build c.env) (.FENCE f) s).live = true →
      ((gds_post_op c post_flags (use_inlcpy_for_dword c.build c.env) (.FENCE f) s).idx
          = s.idx + 1 ∧
        ((gds_post_op c post_flags (use_inlcpy_for_dword c.build c.env) (.FENCE f) s).params
          s.idx).operation = .MEMORY_BARRIER ∧
        ∀ j, j ≠ s.idx →
          (gds_post_op c post_flags (use_inlcpy_for_dword c.build c.env) (.FENCE f) s).params j
            = s.params j) ∨
      ((gds_post_op c post_flags (use_inlcpy_for_dword c.build c.env) (.FENCE f) s).idx
          = s.idx ∧
        1 ≤ s.idx ∧ (s.params (s.idx - 1)).operation = .INLINE_COPY ∧
        (gds_post_op c post_flags (use_inlcpy_for_dword c.build c.env) (.FENCE f) s).params
          (s.idx - 1) =
          { s.params (s.idx - 1) with inlineCopy := { (s.params (s.idx - 1)).inlineCopy with
              flags := (s.params (s.idx - 1)).inlineCopy.flags &&&
                (0xFFFFFFFF ^^^ CU_STREAM_INLINE_COPY_NO_MEMORY_BARRIER) } } ∧
        ∀ j, j ≠ s.idx - 1 →
          (gds_post_op c post_flags (use_inlcpy_for_dword c.build c.env) (.FENCE f) s).params j
            = s.params j) ∨
      ((gds_post_op c post_flags (use_inlcpy_for_dword c.build c.env) (.FENCE f) s).idx
          = s.idx ∧
        (gds_post_op c post_flags (use_inlcpy_for_dword c.build c.env) (.FENCE f) s).params
          = s.params)) := by
  constructor
  · intro hr
    rw [gds_post_ops_single, fence_read c post_flags _ f _ hr, fence_read c post_flags _ f _ hr]
    exact ⟨hs, rfl, rfl, rfl, rfl, rfl⟩
  · intro hr hl
    by_cases hm : gds_enable_membar c.build c.env = true
    · -- a barrier is appended
      left
      rw [fence_membar c post_flags _ f s hr hm] at hl ⊢
      split_ifs at hl ⊢
      all_goals first
        | (simp [St.live, EINVAL] at hl; done)
        | (obtain ⟨h0, -, he⟩ := emit_live hl
           rw [he]
           refine ⟨rfl, ?_, ?_⟩
           · simp only [setSlot_same]
             rw [fill_membar_zero (by simp) h0]
           · intro j hj
             simp only [setSlot_ne _ _ hj])
    · have hm' : gds_enable_membar c.build c.env = false := by simpa using hm
      by_cases hu : use_inlcpy_for_dword c.build c.env = true
      · right; left
        have hb := has_inline_copy_of_use_inlcpy hu
        rw [hu] at hl ⊢
        rw [fence_patch c post_flags f s hr hm'] at hl ⊢
        by_cases h1 : s.idx ≥ 1
        · rw [if_neg (not_not.mpr h1)] at hl ⊢
          by_cases hop : (s.params (s.idx - 1)).operation = .INLINE_COPY
          · have hq : gds_enable_barrier_for_inlcpy c.build (s.params (s.idx - 1)) = some
                { s.params (s.idx - 1) with inlineCopy := { (s.params (s.idx - 1)).inlineCopy with
                  flags := (s.params (s.idx - 1)).inlineCopy.flags &&&
                    (0xFFFFFFFF ^^^ CU_STREAM_INLINE_COPY_NO_MEMORY_BARRIER) } } := by
              unfold gds_enable_barrier_for_inlcpy
              simp [hb, hop]
            simp only [hq]
            refine ⟨trivial, h1, hop, by simp, ?_⟩
            intro j hj
            simp only [setSlot_ne _ _ hj]
          · have hq : gds_enable_barrier_for_inlcpy c.build (s.params (s.idx - 1)) = none := by
              unfold gds_enable_barrier_for_inlcpy
              simp [hb, hop]
            simp [hq, St.live] at hl
        · rw [if_pos h1] at hl
          simp [St.live] at hl
      · right; right
        have hu' : use_inlcpy_for_dword c.build c.env = false := by simpa using hu
        rw [hu', fence_record c post_flags f s hr hm']
        exact ⟨rfl, rfl⟩

/-- Witness for C10: in the memory-barrier build a read fence leaves the cursor
where it was, and a write fence from the HCA on peer memory advances it by one
(the `MEMORY_BARRIER`) or not at all. -/
theorem fence_appends_or_patches_not_both_witness :
    (gds_post_ops Ctx.membar 1 [.FENCE 1] Params.zero 0 0).idx = 0 ∧
    ((gds_post_op Ctx.membar 0 (use_inlcpy_for_dword Ctx.membar.build Ctx.membar.env) (.FENCE 42)
        { idx := 0, params := Params.zero, prev_was_fence := false, retcode := 0,
          aborted := false }).idx = 0 + 1 ∨
     (gds_post_op Ctx.membar 0 (use_inlcpy_for_dword Ctx.membar.build Ctx.membar.env) (.FENCE 42)
        { idx := 0, params := Params.zero, prev_was_fence := false, retcode := 0,
          aborted := false }).idx = 0) :=
  ⟨((fence_appends_or_patches_not_both Ctx.membar 0 1
      { idx := 0, params := Params.zero, prev_was_fence := false, retcode := 0, aborted := false }
      Params.zero 0 (by decide)).1 (by decide)).2.2.2.2.1,
    ((fence_appends_or_patches_not_both Ctx.membar 0 42
      { idx := 0, params := Params.zero, prev_was_fence := false, retcode := 0, aborted := false }
      Params.zero 0 (by decide)).2 (by decide) (by decide)).elim (fun h => Or.inl h.1)
      (fun h => h.elim (fun h => Or.inr h.1) (fun h => Or.inr h.1))⟩

theorem dframe_refl (s : DSt) : DFrame s s :=
  ⟨le_refl _, fun _ _ => sameButCopyFlags_refl _⟩

theorem dframe_trans {s t r : DSt} (h1 : DFrame s t) (h2 : DFrame t r) : DFrame s r :=
  ⟨le_trans h1.1 h2.1, fun j hj =>
    sameButCopyFlags_trans (h2.2 j (lt_of_lt_of_le hj h1.1)) (h1.2 j hj)⟩

/-- The frame of a whole call of `gds_post_ops`, for every run. -/
theorem gds_post_ops_frame (c : Ctx) (n_ops : Nat) (op : List peer_op_wr) (params : Params)
    (idx pf : Nat) :
    idx ≤ (gds_post_ops c n_ops op params idx pf).idx ∧
    ∀ j, j < idx → SameButCopyFlags ((gds_post_ops c n_ops op params idx pf).params j)
      (params j) := by
  have hf := gds_post_ops_loop_frame c pf (use_inlcpy_for_dword c.build c.env) n_ops op
    { idx := idx, params := params, prev_was_fence := false, retcode := 0, aborted := false }
  exact hf

theorem post_descriptor_frame (c : Ctx) (x : Ext) (mf : Bool) (lw cap i : Nat)
    (d : gds_descriptor_t) (s : DSt) : DFrame s (post_descriptor c x mf lw cap i d s) := by
  have hset : ∀ (q : CUstreamBatchMemOpParams) (j : Nat), j < s.idx →
      SameButCopyFlags (setSlot s.params s.idx q j) (s.params j) := by
    intro q j hj
    rw [setSlot_ne _ _ (Nat.ne_of_lt hj)]
    exact sameButCopyFlags_refl _
  unfold post_descriptor
  cases d with
  | SEND e st =>
    have hf := gds_post_ops_frame c (u32 e) st s.params s.idx 0
    simp only
    split_ifs <;> exact hf
  | WAIT e st =>
    have hf := gds_post_ops_frame c (u32 e) st s.params s.idx
      (if (mf && i != lw) = true then GDS_POST_OPS_DISCARD_WAIT_FLUSH else 0)
    simp only
    split_ifs <;> first | exact hf | (simp_all; exact hf)
  | WAIT_VALUE32 v =>
    simp only
    split
    · exact dframe_refl s
    · split_ifs
      · exact ⟨le_refl _, hset _⟩
      · exact ⟨Nat.le_succ _, hset _⟩
  | WRITE_VALUE32 v =>
    simp only
    split
    · exact dframe_refl s
    · split_ifs
      · exact ⟨le_refl _, hset _⟩
      · exact ⟨Nat.le_succ _, hset _⟩
  | INVALID t => exact dframe_refl s

theorem post_descriptors_loop_frame (c : Ctx) (x : Ext) (mf : Bool) (lw cap : Nat) :
    ∀ (ds : List gds_descriptor_t) (i : Nat) (s : DSt),
      DFrame s (post_descriptors_loop c x mf lw cap i ds s) := by
  intro ds
  induction ds with
  | nil => intro i s; exact dframe_refl s
  | cons d ds ih =>
    intro i s
    simp only [post_descriptors_loop]
    split_ifs
    · exact post_descriptor_frame c x mf lw cap i d s
    · exact dframe_trans (post_descriptor_frame c x mf lw cap i d s) (ih (i + 1) _)

theorem post_descriptors_loop_cons (c : Ctx) (x : Ext) (mf : Bool) (lw cap : Nat)
    (d : gds_descriptor_t) (ds : List gds_descriptor_t) (i : Nat) (s : DSt) :
    post_descriptors_loop c x mf lw cap i (d :: ds) s =
      if ((post_descriptor c x mf lw cap i d s).aborted ||
          (post_descriptor c x mf lw cap i d s).retcode != 0) = true
      then post_descriptor c x mf lw cap i d s
      else post_descriptors_loop c x mf lw cap (i + 1) ds (post_descriptor c x mf lw cap i d s) :=
  rfl

theorem dst_live_iff (s : DSt) : s.live = true ↔ ¬ ((s.aborted || s.retcode != 0) = true) := by
  simp [DSt.live]

theorem post_descriptors_loop_append (c : Ctx) (x : Ext) (mf : Bool) (lw cap : Nat) :
    ∀ (l1 l2 : List gds_descriptor_t) (i : Nat) (s : DSt), s.live = true →
      post_descriptors_loop c x mf lw cap i (l1 ++ l2) s =
        if (post_descriptors_loop c x mf lw cap i l1 s).live = true then
          post_descriptors_loop c x mf lw cap (i + l1.length) l2
            (post_descriptors_loop c x mf lw cap i l1 s)
        else post_descriptors_loop c x mf lw cap i l1 s := by
  intro l1
  induction l1 with
  | nil => intro l2 i s hs; simp [post_descriptors_loop, hs]
  | cons d ds ih =>
    intro l2 i s hs
    rw [List.cons_append, post_descriptors_loop_cons, post_descriptors_loop_cons,
      List.length_cons]
    by_cases hc : ((post_descriptor c x mf lw cap i d s).aborted ||
        (post_descriptor c x mf lw cap i d s).retcode != 0) = true
    · have hn : ¬ ((post_descriptor c x mf lw cap i d s).live = true) := by
        rw [dst_live_iff]; exact not_not.mpr hc
      simp only [if_pos hc, if_neg hn]
    · simp only [if_neg hc]
      rw [ih l2 (i + 1) _ ((dst_live_iff _).mpr hc)]
      have e : i + 1 + ds.length = i + (ds.length + 1) := by omega
      rw [e]

theorem get_wait_info_from_append :
    ∀ (l1 l2 : List gds_descriptor_t) (i : Nat) (acc : Int × Nat × Nat),
      get_wait_info_from i (l1 ++ l2) acc =
        get_wait_info_from (i + l1.length) l2 (get_wait_info_from i l1 acc) := by
  intro l1
  induction l1 with
  | nil => intro l2 i acc; simp [get_wait_info_from]
  | cons d ds ih =>
    intro l2 i acc
    obtain ⟨ret, n, lw⟩ := acc
    have e : i + 1 + ds.length = i + (ds.length + 1) := by omega
    cases d <;>
      (rw [List.cons_append]; simp only [get_wait_info_from, List.length_cons]; rw [ih, e])

theorem get_wait_info_from_values :
    ∀ (l : List gds_descriptor_t), (∀ d ∈ l, d.isValue32 = true) →
      ∀ (i : Nat) (acc : Int × Nat × Nat), get_wait_info_from i l acc = acc := by
  intro l
  induction l with
  | nil => intro _ i acc; simp [get_wait_info_from]
  | cons d ds ih =>
    intro h i acc
    have hd := h d (List.mem_cons_self _ _)
    have hds : ∀ d ∈ ds, d.isValue32 = true := fun d' hd' => h d' (List.mem_cons_of_mem _ hd')
    cases d <;> simp [gds_descriptor_t.isValue32] at hd <;>
      simp only [get_wait_info_from, ih hds]

theorem no_network_go_values :
    ∀ (l : List gds_descriptor_t), (∀ d ∈ l, d.isValue32 = true) →
      no_network_descs_after_entry.go l = true := by
  intro l
  induction l with
  | nil => intro _; rfl
  | cons d ds ih =>
    intro h
    have hd := h d (List.mem_cons_self _ _)
    have hds : ∀ d ∈ ds, d.isValue32 = true := fun d' hd' => h d' (List.mem_cons_of_mem _ hd')
    cases d <;> simp [gds_descriptor_t.isValue32] at hd <;>
      simp only [no_network_descs_after_entry.go, ih hds]

/-- With a Wait followed by value-level descriptors only, `last_wait` is the
index of that Wait and `move_flush` is set. -/
theorem wait_info_of_last_wait (pre post : List gds_descriptor_t) (e : Nat)
    (st : List peer_op_wr) (hpost : ∀ d ∈ post, d.isValue32 = true) :
    (get_wait_info (pre ++ .WAIT e st :: post)).2.2 = pre.length ∧
    move_flush_of (pre ++ .WAIT e st :: post) = true := by
  have h1 : get_wait_info (pre ++ .WAIT e st :: post) =
      ((get_wait_info_from 0 pre (0, 0, 0)).1, (get_wait_info_from 0 pre (0, 0, 0)).2.1 + 1,
        pre.length) := by
    unfold get_wait_info
    rw [get_wait_info_from_append]
    obtain ⟨ret, n, lw⟩ := get_wait_info_from 0 pre (0, 0, 0)
    simp only [get_wait_info_from, Nat.zero_add, get_wait_info_from_values post hpost]
  refine ⟨by rw [h1], ?_⟩
  unfold move_flush_of no_network_descs_after_entry
  simp only [h1]
  have h2 : List.drop (pre.length + 1) (pre ++ .WAIT e st :: post) = post := by
    rw [List.drop_append_eq_append_drop]
    simp
  rw [h2, no_network_go_values post hpost]
  simp

theorem mem_slots {p : Params} {a b j : Nat} (h1 : a ≤ j) (h2 : j < b) : p j ∈ slots p a b := by
  unfold slots
  rw [List.mem_map]
  exact ⟨j, by rw [List.mem_range'_1]; omega, rfl⟩

theorem spec_wait_flags_flush (pf cnd : Nat)
    (hc : cnd = CU_STREAM_WAIT_VALUE_AND ∨ cnd = CU_STREAM_WAIT_VALUE_GEQ) :
    (spec_wait_flags pf cnd &&& CU_STREAM_WAIT_VALUE_FLUSH ≠ 0 ↔
      pf &&& GDS_POST_OPS_DISCARD_WAIT_FLUSH = 0) := by
  unfold spec_wait_flags
  have e1 : ((2 ||| 2 ^ 30) &&& 2 ^ 30 : Nat) ≠ 0 := by decide
  have e2 : ((0 ||| 2 ^ 30) &&& 2 ^ 30 : Nat) ≠ 0 := by decide
  have e3 : (2 &&& 2 ^ 30 : Nat) = 0 := by decide
  have e4 : (0 &&& 2 ^ 30 : Nat) = 0 := by decide
  have e5 : ((2 ||| 1073741824) &&& 1073741824 : Nat) = 1073741824 := by decide
  have e6 : ((0 ||| 1073741824) &&& 1073741824 : Nat) = 1073741824 := by decide
  have e7 : (2 &&& 1073741824 : Nat) = 0 := by decide
  have e8 : (0 &&& 1073741824 : Nat) = 0 := by decide
  rcases hc with hc | hc <;> subst hc <;>
    by_cases hd : pf &&& GDS_POST_OPS_DISCARD_WAIT_FLUSH = 0 <;>
    simp only [hd, if_true, if_false, CU_STREAM_WAIT_VALUE_AND, CU_STREAM_WAIT_VALUE_GEQ,
      CU_STREAM_WAIT_VALUE_FLUSH] <;>
    simp [e1, e2, e3, e4, e5, e6, e7, e8]

/-- The polls written by a successful `gds_post_ops` carry the remote-flush
request exactly when the call does not discard it. -/
theorem gds_post_ops_wait_flush (c : Ctx) (n_ops : Nat) (op : List peer_op_wr) (params : Params)
    (idx pf : Nat) (h : (gds_post_ops c n_ops op params idx pf).ok = true) (j : Nat)
    (h1 : idx ≤ j) (h2 : j < (gds_post_ops c n_ops op params idx pf).idx)
    (hop : ((gds_post_ops c n_ops op params idx pf).params j).operation = .WAIT_VALUE_32) :
    (((gds_post_ops c n_ops op params idx pf).params j).waitValue.flags
        &&& CU_STREAM_WAIT_VALUE_FLUSH ≠ 0 ↔ pf &&& GDS_POST_OPS_DISCARD_WAIT_FLUSH = 0) := by
  have hl : (gds_post_ops_loop c pf (use_inlcpy_for_dword c.build c.env) n_ops op
      { idx := idx, params := params, prev_was_fence := false, retcode := 0,
        aborted := false }).live = true := h
  have hem := gds_post_ops_loop_emitted c pf n_ops op _ hl
  have hmem : PrimitiveOp.WaitValue32
      ((gds_post_ops c n_ops op params idx pf).params j).waitValue.address
      ((gds_post_ops c n_ops op params idx pf).params j).waitValue.value
      ((gds_post_ops c n_ops op params idx pf).params j).waitValue.flags ∈
      (op.take n_ops).flatMap (spec_lowering c pf) := by
    rw [← hem, List.mem_filterMap]
    refine ⟨(gds_post_ops c n_ops op params idx pf).params j, mem_slots h1 h2, ?_⟩
    unfold primitiveOf
    rw [hop]
  rw [List.mem_flatMap] at hmem
  obtain ⟨o, -, ho⟩ := hmem
  cases o with
  | FENCE f => simp [spec_lowering] at ho
  | STORE_DWORD d t off => simp only [spec_lowering] at ho; split_ifs at ho <;> simp at ho
  | STORE_QWORD d t off => simp only [spec_lowering] at ho; split_ifs at ho <;> simp at ho
  | COPY_BLOCK src len t off => simp [spec_lowering] at ho
  | POLL_AND_DWORD d t off =>
    simp only [spec_lowering, List.mem_singleton, PrimitiveOp.WaitValue32.injEq] at ho
    rw [ho.2.2]
    exact spec_wait_flags_flush pf _ (Or.inl rfl)
  | POLL_GEQ_DWORD d t off =>
    simp only [spec_lowering, List.mem_singleton, PrimitiveOp.WaitValue32.injEq] at ho
    rw [ho.2.2]
    exact spec_wait_flags_flush pf _ (Or.inr rfl)
  | POLL_NOR_DWORD d t off => simp [spec_lowering] at ho
  | UNDEFINED t => simp [spec_lowering] at ho

theorem post_descriptor_wait_live (c : Ctx) (x : Ext) (mf : Bool) (lw cap i : Nat) (e : Nat)
    (st : List peer_op_wr) (s : DSt)
    (h : (post_descriptor c x mf lw cap i (.WAIT e st) s).live = true) :
    (gds_post_ops c (u32 e) st s.params s.idx
      (if (mf && i != lw) = true then GDS_POST_OPS_DISCARD_WAIT_FLUSH else 0)).ok = true ∧
    (post_descriptor c x mf lw cap i (.WAIT e st) s).idx =
      (gds_post_ops c (u32 e) st s.params s.idx
        (if (mf && i != lw) = true then GDS_POST_OPS_DISCARD_WAIT_FLUSH else 0)).idx ∧
    (post_descriptor c x mf lw cap i (.WAIT e st) s).params =
      (gds_post_ops c (u32 e) st s.params s.idx
        (if (mf && i != lw) = true then GDS_POST_OPS_DISCARD_WAIT_FLUSH else 0)).params := by
  unfold post_descriptor at h ⊢
  simp only at h ⊢
  generalize gds_post_ops c (u32 e) st s.params s.idx
    (if (mf && i != lw) = true then GDS_POST_OPS_DISCARD_WAIT_FLUSH else 0) = r at h ⊢
  split_ifs at h ⊢ <;> simp_all [DSt.live, Res.ok]

theorem gds_stream_post_descriptors_params (c : Ctx) (x : Ext) (descs : List gds_descriptor_t)
    (params0 : Params) :
    (gds_stream_post_descriptors c x descs params0).params =
      (post_descriptors_loop c x (move_flush_of descs) (get_wait_info descs).2.2
        (calc_n_mem_ops descs 0) 0 descs (DSt.init params0)).params := by
  unfold gds_stream_post_descriptors DSt.init
  simp only
  split_ifs <;> rfl

theorem post_descriptors_loop_snoc_live (c : Ctx) (x : Ext) (mf : Bool) (lw cap : Nat)
    (l : List gds_descriptor_t) (d : gds_descriptor_t) (s : DSt) (hs : s.live = true)
    (h : (post_descriptors_loop c x mf lw cap 0 (l ++ [d]) s).live = true) :
    (post_descriptors_loop c x mf lw cap 0 l s).live = true ∧
    post_descriptors_loop c x mf lw cap 0 (l ++ [d]) s =
      post_descriptor c x mf lw cap l.length d (post_descriptors_loop c x mf lw cap 0 l s) := by
  rw [post_descriptors_loop_append c x mf lw cap l [d] 0 s hs] at h ⊢
  by_cases hl : (post_descriptors_loop c x mf lw cap 0 l s).live = true
  · refine ⟨hl, ?_⟩
    rw [if_pos hl, post_descriptors_loop_cons, Nat.zero_add]
    split_ifs <;> rfl
  · rw [if_neg hl] at h
    exact absurd h hl

/-- C7: for every descriptor sequence that contains at least one Wait and in
which every descriptor after the last Wait is a `WAIT_VALUE32` or
`WRITE_VALUE32` (the sequence is `pre ++ WAIT :: post` with `post` value-level
only), and for every Wait descriptor, at index `i`, that
`gds_stream_post_descriptors` translates successfully: every `WAIT_VALUE_32`
slot written for it (the slots between the cursor before and after iteration
`i`), as found in the array the function leaves behind, has the remote-flush
flag set if and only if that Wait is the last one (`i = pre.length`).  So the
polls of every other Wait have the flag cleared. -/
theorem flush_kept_only_on_last_wait (c : Ctx) (x : Ext) (pre post : List gds_descriptor_t)
    (e : Nat) (st : List peer_op_wr) (params0 : Params)
    (hpost : ∀ d ∈ post, d.isValue32 = true)
    (i e_i : Nat) (st_i : List peer_op_wr)
    (hi : (pre ++ .WAIT e st :: post)[i]? = some (.WAIT e_i st_i))
    (hlive : (descs_state c x (pre ++ .WAIT e st :: post) params0 (i + 1)).live = true)
    (j : Nat)
    (hj1 : (descs_state c x (pre ++ .WAIT e st :: post) params0 i).idx ≤ j)
    (hj2 : j < (descs_state c x (pre ++ .WAIT e st :: post) params0 (i + 1)).idx)
    (hop : ((gds_stream_post_descriptors c x (pre ++ .WAIT e st :: post) params0).params
      j).operation = .WAIT_VALUE_32) :
    (((gds_stream_post_descriptors c x (pre ++ .WAIT e st :: post) params0).params
        j).waitValue.flags &&& CU_STREAM_WAIT_VALUE_FLUSH ≠ 0 ↔ i = pre.length) := by
  obtain ⟨hlw, hmf⟩ := wait_info_of_last_wait pre post e st hpost
  generalize hdescs : pre ++ gds_descriptor_t.WAIT e st :: post = descs at *
  have hinit : (DSt.init params0).live = true := rfl
  have hilt : i < descs.length := by
    by_contra hcon
    rw [List.getElem?_eq_none (by omega)] at hi
    exact absurd hi (by simp)
  have htake : descs.take (i + 1) = descs.take i ++ [.WAIT e_i st_i] := by
    rw [List.take_succ, hi]; rfl
  have hlen : (descs.take i).length = i := by
    rw [List.length_take]; omega
  -- the state after iteration `i` is one step from the state before it
  unfold descs_state at hlive hj1 hj2
  rw [htake] at hlive hj2
  obtain ⟨hli, hstep⟩ := post_descriptors_loop_snoc_live c x _ _ _ _ _ _ hinit hlive
  rw [hstep] at hlive hj2
  rw [hlen] at hlive hj2
  obtain ⟨hok, hidx, hpar⟩ := post_descriptor_wait_live c x _ _ _ i e_i st_i _ hlive
  rw [hidx] at hj2
  -- the rest of the loop keeps that slot
  have hfin : (gds_stream_post_descriptors c x descs params0).params j =
      (gds_stream_post_descriptors c x descs params0).params j := rfl
  have hsplit : descs = (descs.take i ++ [.WAIT e_i st_i]) ++ descs.drop (i + 1) := by
    rw [← htake, List.take_append_drop]
  have hframe : SameButCopyFlags ((gds_stream_post_descriptors c x descs params0).params j)
      ((gds_post_ops c (u32 e_i) st_i
        (post_descriptors_loop c x (move_flush_of descs) (get_wait_info descs).2.2
          (calc_n_mem_ops descs 0) 0 (descs.take i) (DSt.init params0)).params
        (post_descriptors_loop c x (move_flush_of descs) (get_wait_info descs).2.2
          (calc_n_mem_ops descs 0) 0 (descs.take i) (DSt.init params0)).idx
        (if (move_flush_of descs && i != (get_wait_info descs).2.2) = true
          then GDS_POST_OPS_DISCARD_WAIT_FLUSH else 0)).params j) := by
    have hloop : ∀ (mf : Bool) (lw cap : Nat),
        post_descriptors_loop c x mf lw cap 0 descs (DSt.init params0) =
        post_descriptors_loop c x mf lw cap 0
          ((descs.take i ++ [.WAIT e_i st_i]) ++ descs.drop (i + 1)) (DSt.init params0) := by
      intro mf lw cap
      rw [← hsplit]
    rw [gds_stream_post_descriptors_params, hloop,
      post_descriptors_loop_append c x _ _ _ _ _ 0 _ hinit, hstep, hlen, if_pos hlive]
    have hf := post_descriptors_loop_frame c x (move_flush_of descs) (get_wait_info descs).2.2
      (calc_n_mem_ops descs 0) (descs.drop (i + 1))
      (0 + (descs.take i ++ [gds_descriptor_t.WAIT e_i st_i]).length)
      (post_descriptor c x (move_flush_of descs) (get_wait_info descs).2.2
        (calc_n_mem_ops descs 0) i (.WAIT e_i st_i)
        (post_descriptors_loop c x (move_flush_of descs) (get_wait_info descs).2.2
          (calc_n_mem_ops descs 0) 0 (descs.take i) (DSt.init params0)))
    have := hf.2 j (by rw [hidx]; exact hj2)
    rw [hpar] at this
    exact this
  obtain ⟨fop, fwait, -⟩ := hframe
  rw [fop] at hop
  rw [fwait]
  rw [gds_post_ops_wait_flush c _ _ _ _ _ hok j hj1 hj2 hop, hmf, hlw]
  have e1 : (1 &&& 1 : Nat) ≠ 0 := by decide
  by_cases hip : i = pre.length
  · simp [hip]
  · simp [hip, GDS_POST_OPS_DISCARD_WAIT_FLUSH, e1]

/-- Witness for C7: the spec's scenario `[Wait, Wait, WriteValue32]`; the poll
of the first Wait (slot 0) has the flush flag cleared, the poll of the second
(slot 1) has it set. -/
theorem flush_kept_only_on_last_wait_witness :
    ((((gds_stream_post_descriptors Ctx.plain (Ext.returning 0)
        ([.WAIT 1 [.POLL_GEQ_DWORD 1 4096 0]] ++
          .WAIT 1 [.POLL_AND_DWORD 1 4096 8] :: [.WRITE_VALUE32 ⟨8192, 1, 0, 0⟩])
        Params.zero).params 0).waitValue.flags &&& CU_STREAM_WAIT_VALUE_FLUSH ≠ 0) ↔
      0 = [gds_descriptor_t.WAIT 1 [.POLL_GEQ_DWORD 1 4096 0]].length) ∧
    ((((gds_stream_post_descriptors Ctx.plain (Ext.returning 0)
        ([.WAIT 1 [.POLL_GEQ_DWORD 1 4096 0]] ++
          .WAIT 1 [.POLL_AND_DWORD 1 4096 8] :: [.WRITE_VALUE32 ⟨8192, 1, 0, 0⟩])
        Params.zero).params 1).waitValue.flags &&& CU_STREAM_WAIT_VALUE_FLUSH ≠ 0) ↔
      1 = [gds_descriptor_t.WAIT 1 [.POLL_GEQ_DWORD 1 4096 0]].length) :=
  ⟨flush_kept_only_on_last_wait Ctx.plain (Ext.returning 0)
      [.WAIT 1 [.POLL_GEQ_DWORD 1 4096 0]] [.WRITE_VALUE32 ⟨8192, 1, 0, 0⟩] 1
      [.POLL_AND_DWORD 1 4096 8] Params.zero (by decide) 0 1 [.POLL_GEQ_DWORD 1 4096 0]
      (by decide) (by decide) 0 (by decide) (by decide) (by decide),
    flush_kept_only_on_last_wait Ctx.plain (Ext.returning 0)
      [.WAIT 1 [.POLL_GEQ_DWORD 1 4096 0]] [.WRITE_VALUE32 ⟨8192, 1, 0, 0⟩] 1
      [.POLL_AND_DWORD 1 4096 8] Params.zero (by decide) 1 1 [.POLL_AND_DWORD 1 4096 8]
      (by decide) (by decide) 1 (by decide) (by decide) (by decide)⟩

theorem env_int_ne_neg_one (v : Option (List Nat)) (d : Int) (hd : d ≠ -1) :
    env_int v d ≠ -1 := by
  unfold env_int
  cases v with
  | none => exact hd
  | some s => simp only; split_ifs <;> decide

/-- C15: for each capability resolver, modelled with its static cache as
explicit state, a second call returns the same value as the first call,
whatever the caches held before the first call and whatever the environment
holds at the time of the second call. -/
theorem resolver_second_call_same_value (b : Build) (e1 e2 : Env) (st : Statics) :
    (gds_enable_write64_call b e2 (gds_enable_write64_call b e1 st).2).1
      = (gds_enable_write64_call b e1 st).1 ∧
    (gds_enable_inlcpy_call b e2 (gds_enable_inlcpy_call b e1 st).2).1
      = (gds_enable_inlcpy_call b e1 st).1 ∧
    (gds_simulate_write64_call b e2 (gds_simulate_write64_call b e1 st).2).1
      = (gds_simulate_write64_call b e1 st).1 ∧
    (gds_enable_membar_call b e2 (gds_enable_membar_call b e1 st).2).1
      = (gds_enable_membar_call b e1 st).1 ∧
    (gds_enable_weak_consistency_call b e2 (gds_enable_weak_consistency_call b e1 st).2).1
      = (gds_enable_weak_consistency_call b e1 st).1 ∧
    (gds_enable_dump_memops_call b e2 (gds_enable_dump_memops_call b e1 st).2).1
      = (gds_enable_dump_memops_call b e1 st).1 := by
  have h0 := env_int_ne_neg_one
  refine ⟨rfl, ?_, ?_, ?_, ?_, ?_⟩
  · unfold gds_enable_inlcpy_call
    by_cases h : st.gds_disable_inlcpy = -1
    · simp [h, h0 e1.GDS_DISABLE_INLINECOPY 0 (by decide)]
    · simp [h]
  · unfold gds_simulate_write64_call
    by_cases h : st.gds_simulate_write64 = -1
    · simp only [h, if_true]
      by_cases hv : c_bool (env_int e1.GDS_SIMULATE_WRITE64 0) = true
      · simp only [hv, if_true]
        by_cases hi : (gds_enable_inlcpy_call b e1
            { st with gds_simulate_write64 := env_int e1.GDS_SIMULATE_WRITE64 0 }).1 = true
        · simp [hi]
        · have hk : (gds_enable_inlcpy_call b e1
              { st with gds_simulate_write64 := env_int e1.GDS_SIMULATE_WRITE64 0 }).2.gds_simulate_write64
              = env_int e1.GDS_SIMULATE_WRITE64 0 := by
            unfold gds_enable_inlcpy_call
            simp only
            split_ifs <;> rfl
          simp [hi, hk, h0 e1.GDS_SIMULATE_WRITE64 0 (by decide)]
      · simp [hv, h0 e1.GDS_SIMULATE_WRITE64 0 (by decide)]
    · simp [h]
  · unfold gds_enable_membar_call
    by_cases h : st.gds_disable_membar = -1
    · simp [h, h0 e1.GDS_DISABLE_MEMBAR 0 (by decide)]
    · simp [h]
  · unfold gds_enable_weak_consistency_call
    by_cases h : st.gds_disable_weak_consistency = -1
    · simp [h, h0 e1.GDS_DISABLE_WEAK_CONSISTENCY 1 (by decide)]
    · simp [h]
  · unfold gds_enable_dump_memops_call
    by_cases h : st.gds_enable_dump_memops = -1
    · simp [h, h0 e1.GDS_ENABLE_DUMP_MEMOPS 0 (by decide)]
    · simp [h]

theorem c_bool_env_int (v : Option (List Nat)) (d : Bool) :
    c_bool (env_int v (if d then 1 else 0)) = env_flag v d := by
  unfold c_bool env_int env_flag
  cases v with
  | none => cases d <;> rfl
  | some s => simp only; split_ifs with h <;> simp_all

/-- From fresh caches and one environment, every resolver call returns the
value of the corresponding function of the build and the environment. -/
theorem resolver_calls_fresh (b : Build) (e : Env) :
    (gds_enable_write64_call b e Statics.fresh).1 = gds_enable_write64 b e ∧
    (gds_enable_inlcpy_call b e Statics.fresh).1 = gds_enable_inlcpy b e ∧
    (gds_simulate_write64_call b e Statics.fresh).1 = gds_simulate_write64 b e ∧
    (gds_enable_membar_call b e Statics.fresh).1 = gds_enable_membar b e ∧
    (gds_enable_weak_consistency_call b e Statics.fresh).1 = gds_enable_weak_consistency b e ∧
    (gds_enable_dump_memops_call b e Statics.fresh).1 = gds_enable_dump_memops b e := by
  have k0 := fun v => c_bool_env_int v false
  have k1 := fun v => c_bool_env_int v true
  simp only [Bool.false_eq_true, if_false, if_true] at k0 k1
  refine ⟨rfl, ?_, ?_, ?_, ?_, ?_⟩
  · simp [gds_enable_inlcpy_call, gds_enable_inlcpy, Statics.fresh, k0]
  · unfold gds_simulate_write64_call gds_simulate_write64 gds_enable_inlcpy_call gds_enable_inlcpy
    simp only [Statics.fresh, if_true, ← k0]
    have hx := env_int_ne_neg_one e.GDS_SIMULATE_WRITE64 0 (by decide)
    have hy := env_int_ne_neg_one e.GDS_DISABLE_INLINECOPY 0 (by decide)
    generalize env_int e.GDS_SIMULATE_WRITE64 0 = x at hx ⊢
    generalize env_int e.GDS_DISABLE_INLINECOPY 0 = y at hy ⊢
    cases b.GDS_HAS_INLINE_COPY <;> by_cases hx0 : x = 0 <;> by_cases hy0 : y = 0 <;>
      simp [c_bool, hx0, hy0, hx, hy]
  · simp [gds_enable_membar_call, gds_enable_membar, Statics.fresh, k0]
  · simp [gds_enable_weak_consistency_call, gds_enable_weak_consistency, Statics.fresh, k1]
  · simp [gds_enable_dump_memops_call, gds_enable_dump_memops, Statics.fresh, k0]

/-- C16: for every environment and every compile-time feature set, whenever
`gds_enable_inlcpy()` is true, `gds_simulate_write64()` is false; this holds
for the values as functions of build and environment, and for the calls with
their caches from process start, in either order of first call (also if the
environment changes between the two calls). -/
theorem inlcpy_excludes_simulate_write64 (b : Build) (e e2 : Env) :
    (gds_enable_inlcpy b e = true → gds_simulate_write64 b e = false) ∧
    ((gds_enable_inlcpy_call b e Statics.fresh).1 = true →
      (gds_simulate_write64_call b e2 (gds_enable_inlcpy_call b e Statics.fresh).2).1 = false) ∧
    ((gds_enable_inlcpy_call b e2 (gds_simulate_write64_call b e Statics.fresh).2).1 = true →
      (gds_simulate_write64_call b e Statics.fresh).1 = false) := by
  refine ⟨?_, ?_, ?_⟩
  · intro h
    unfold gds_simulate_write64
    simp [h]
  · unfold gds_simulate_write64_call gds_enable_inlcpy_call
    simp only [Statics.fresh, if_true]
    have hx := env_int_ne_neg_one e2.GDS_SIMULATE_WRITE64 0 (by decide)
    have hy := env_int_ne_neg_one e.GDS_DISABLE_INLINECOPY 0 (by decide)
    generalize env_int e2.GDS_SIMULATE_WRITE64 0 = x at hx ⊢
    generalize env_int e.GDS_DISABLE_INLINECOPY 0 = y at hy ⊢
    cases b.GDS_HAS_INLINE_COPY <;> by_cases hx0 : x = 0 <;> by_cases hy0 : y = 0 <;>
      simp [c_bool, hx0, hy0, hx, hy]
  · unfold gds_simulate_write64_call gds_enable_inlcpy_call
    simp only [Statics.fresh, if_true]
    have hx := env_int_ne_neg_one e.GDS_SIMULATE_WRITE64 0 (by decide)
    have hy := env_int_ne_neg_one e.GDS_DISABLE_INLINECOPY 0 (by decide)
    have hz := env_int_ne_neg_one e2.GDS_DISABLE_INLINECOPY 0 (by decide)
    generalize env_int e.GDS_SIMULATE_WRITE64 0 = x at hx ⊢
    generalize env_int e.GDS_DISABLE_INLINECOPY 0 = y at hy ⊢
    generalize env_int e2.GDS_DISABLE_INLINECOPY 0 = z at hz ⊢
    cases b.GDS_HAS_INLINE_COPY <;> by_cases hx0 : x = 0 <;> by_cases hy0 : y = 0 <;>
      by_cases hz0 : z = 0 <;> simp [c_bool, hx0, hy0, hz0, hx, hy, hz]

/-- Witness for C16: the inline-copy build with `GDS_SIMULATE_WRITE64=1`. -/
theorem inlcpy_excludes_simulate_write64_witness :
    gds_simulate_write64 Build.inlcpy { Env.unset with GDS_SIMULATE_WRITE64 := some [49] }
      = false :=
  (inlcpy_excludes_simulate_write64 Build.inlcpy
    { Env.unset with GDS_SIMULATE_WRITE64 := some [49] } Env.unset).1 (by decide)

theorem atoi_digits_non_digit_head (cs : List Nat)
    (h : (match cs with | c :: _ => (48 ≤ c && c ≤ 57) | [] => false) = false) :
    atoi_digits cs 0 = 0 := by
  cases cs with
  | nil => rfl
  | cons c cs =>
    simp only [Bool.and_eq_false_imp, decide_eq_true_eq, decide_eq_false_iff_not] at h
    unfold atoi_digits
    rw [if_neg]
    intro hc
    exact h hc.1 hc.2

theorem atoi_non_numeric (s : List Nat) (h : non_numeric s = true) : atoi s = 0 := by
  unfold non_numeric at h
  unfold atoi
  generalize List.dropWhile isspace s = l at h ⊢
  rcases l with _ | ⟨c, cs⟩
  · rfl
  · by_cases h45 : c = 45
    · subst h45
      simp only [Bool.not_eq_true'] at h
      simp only [atoi_digits_non_digit_head cs h]
      rfl
    · by_cases h43 : c = 43
      · subst h43
        simp only [Bool.not_eq_true'] at h
        simp only [atoi_digits_non_digit_head cs h]
        rfl
      · have h' : (match c :: cs with | c :: _ => (48 ≤ c && c ≤ 57) | [] => false) = false := by
          split at h
          · rename_i heq; simp at heq; exact absurd heq.1 h45
          · rename_i heq; simp at heq; exact absurd heq.1 h43
          · simp at h ⊢
            omega
        split
        · rename_i heq; simp at heq; exact absurd heq.1 h45
        · rename_i heq; simp at heq; exact absurd heq.1 h43
        · rename_i cs' _ _
          simp only [atoi_digits_non_digit_head (c :: cs) h']
          rfl

/-- C17 (as amended): a malformed (non-numeric) value parses as `0` with
`atoi`.  For the variables that enable a feature the resolver then returns the
disabled value: wide-write simulation and op dumping resolve to `false`.  For
the variables that disable a feature the feature is then not disabled:
inline-copy, memory-barrier and weak-consistency resolve to enabled whenever
they are compiled in. -/
theorem malformed_value_parses_as_zero (b : Build) (e : Env) (s : List Nat)
    (h : non_numeric s = true) :
    atoi s = 0 ∧
    gds_simulate_write64 b { e with GDS_SIMULATE_WRITE64 := some s } = false ∧
    gds_enable_dump_memops b { e with GDS_ENABLE_DUMP_MEMOPS := some s } = false ∧
    gds_enable_inlcpy b { e with GDS_DISABLE_INLINECOPY := some s } = b.GDS_HAS_INLINE_COPY ∧
    gds_enable_membar b { e with GDS_DISABLE_MEMBAR := some s } = b.GDS_HAS_MEMBAR ∧
    gds_enable_weak_consistency b { e with GDS_DISABLE_WEAK_CONSISTENCY := some s }
      = b.GDS_HAS_WEAK_API := by
  have h0 := atoi_non_numeric s h
  refine ⟨h0, ?_, ?_, ?_, ?_, ?_⟩
  · simp [gds_simulate_write64, env_flag, h0]
  · simp [gds_enable_dump_memops, env_flag, h0]
  · simp [gds_enable_inlcpy, env_flag, h0]
  · simp [gds_enable_membar, env_flag, h0]
  · simp [gds_enable_weak_consistency, env_flag, h0]

/-- Witness for C17 (as amended): the value `abc`. -/
theorem malformed_value_parses_as_zero_witness :
    gds_enable_membar Build.membar { Env.unset with GDS_DISABLE_MEMBAR := some [97, 98, 99] }
      = Build.membar.GDS_HAS_MEMBAR :=
  (malformed_value_parses_as_zero Build.membar Env.unset [97, 98, 99] (by decide)).2.2.2.2.1

/-- Counterexample to C17 as stated: with `GDS_DISABLE_INLINECOPY=abc` in a
build that has the inline-copy extension, `gds_enable_inlcpy()` is `true`, not
the disabled value; likewise `GDS_DISABLE_WEAK_CONSISTENCY=abc` enables weak
consistency, which is disabled when the variable is unset. -/
theorem malformed_disable_variable_leaves_feature_enabled :
    non_numeric [97, 98, 99] = true ∧
    gds_enable_inlcpy Build.inlcpy { Env.unset with GDS_DISABLE_INLINECOPY := some [97, 98, 99] }
      = true ∧
    gds_enable_weak_consistency
      { GDS_HAS_WRITE64 := false, GDS_HAS_INLINE_COPY := false, GDS_HAS_WEAK_API := true,
        GDS_HAS_MEMBAR := false }
      { Env.unset with GDS_DISABLE_WEAK_CONSISTENCY := some [97, 98, 99] } = true ∧
    gds_enable_weak_consistency
      { GDS_HAS_WRITE64 := false, GDS_HAS_INLINE_COPY := false, GDS_HAS_WEAK_API := true,
        GDS_HAS_MEMBAR := false } Env.unset = false := by
  decide

/-- C18 (as amended): on a non-null 4-byte-aligned address `gds_fill_poll`
returns `0` exactly for the conditions GEQ, EQ and AND (writing a
`WAIT_VALUE_32` with the given address and value), and `EINVAL` for NOR and
for every other condition value. -/
theorem gds_fill_poll_accepts_geq_eq_and (p : CUstreamBatchMemOpParams)
    (ptr magic cond_flag flags : Nat) (h0 : ptr ≠ 0) (h4 : ptr % 4 = 0) :
    ((cond_flag = GDS_POLL_COND_GEQ ∨ cond_flag = GDS_POLL_COND_EQ ∨
        cond_flag = GDS_POLL_COND_AND) →
      (gds_fill_poll p ptr magic cond_flag flags).map Prod.fst = some 0 ∧
      (gds_fill_poll p ptr magic cond_flag flags).map (fun r => r.2.operation)
        = some .WAIT_VALUE_32 ∧
      (gds_fill_poll p ptr magic cond_flag flags).map (fun r => r.2.waitValue.address)
        = some ptr ∧
      (gds_fill_poll p ptr magic cond_flag flags).map (fun r => r.2.waitValue.value)
        = some magic) ∧
    ((cond_flag ≠ GDS_POLL_COND_GEQ ∧ cond_flag ≠ GDS_POLL_COND_EQ ∧
        cond_flag ≠ GDS_POLL_COND_AND) →
      (gds_fill_poll p ptr magic cond_flag flags).map Prod.fst = some EINVAL) ∧
    (gds_fill_poll p ptr magic GDS_POLL_COND_NOR flags).map Prod.fst = some EINVAL := by
  have h4' : ptr &&& 3 = 0 := by rw [and_three_eq_mod]; exact h4
  refine ⟨?_, ?_, ?_⟩
  · intro hc
    unfold gds_fill_poll
    rcases hc with hc | hc | hc <;> subst hc <;>
      simp [h0, h4', GDS_POLL_COND_GEQ, GDS_POLL_COND_EQ, GDS_POLL_COND_AND]
  · intro hc
    unfold gds_fill_poll
    simp [h0, h4', hc.1, hc.2.1, hc.2.2]
  · unfold gds_fill_poll
    simp [h0, h4', GDS_POLL_COND_GEQ, GDS_POLL_COND_EQ, GDS_POLL_COND_AND, GDS_POLL_COND_NOR]

/-- Witness for C18 (as amended): the condition EQ on address `0x1000`. -/
theorem gds_fill_poll_accepts_geq_eq_and_witness :
    (gds_fill_poll CUstreamBatchMemOpParams.zero 4096 7 GDS_POLL_COND_EQ 0).map Prod.fst
      = some 0 :=
  ((gds_fill_poll_accepts_geq_eq_and CUstreamBatchMemOpParams.zero 4096 7 GDS_POLL_COND_EQ 0
    (by decide) (by decide)).1 (Or.inr (Or.inl rfl))).1

/-- Counterexample to C18 as stated: the condition EQ, which is none of AND,
GEQ and NOR, makes `gds_fill_poll` succeed. -/
theorem gds_fill_poll_accepts_eq :
    GDS_POLL_COND_EQ ≠ GDS_POLL_COND_AND ∧ GDS_POLL_COND_EQ ≠ GDS_POLL_COND_GEQ ∧
    GDS_POLL_COND_EQ ≠ GDS_POLL_COND_NOR ∧
    (gds_fill_poll CUstreamBatchMemOpParams.zero 4096 7 GDS_POLL_COND_EQ 0).map Prod.fst
      = some 0 ∧
    (gds_fill_poll CUstreamBatchMemOpParams.zero 4096 7 GDS_POLL_COND_EQ 0).map
      (fun r => r.2.waitValue.flags) = some CU_STREAM_WAIT_VALUE_EQ := by
  decide

/-- C19 (as amended): with the inline-copy extension compiled in and a
non-null address, `gds_fill_inlcpy` aborts in `assert(n_bytes > 0)` for length
`0` and succeeds for every length of at least one byte, also above 256,
writing one `INLINE_COPY` op with the given address, source pointer and byte
count; it checks no upper bound.  Without the extension it returns `EINVAL`
for every length and writes nothing. -/
theorem gds_fill_inlcpy_has_no_upper_bound (b : Build) (p : CUstreamBatchMemOpParams)
    (addr : Nat) (data : SrcData) (n_bytes flags : Nat) (ha : addr ≠ 0) :
    (b.GDS_HAS_INLINE_COPY = true → n_bytes = 0 →
      gds_fill_inlcpy b p addr data n_bytes flags = none) ∧
    (b.GDS_HAS_INLINE_COPY = true → 0 < n_bytes →
      gds_fill_inlcpy b p addr data n_bytes flags = some (0, { p with
        operation := .INLINE_COPY,
        inlineCopy := {
          byteCount := n_bytes,
          srcData := data,
          address := addr,
          flags := if flags &&& GDS_IMMCOPY_POST_TAIL_FLUSH ≠ 0 then 0
            else CU_STREAM_INLINE_COPY_NO_MEMORY_BARRIER } })) ∧
    (b.GDS_HAS_INLINE_COPY = false →
      gds_fill_inlcpy b p addr data n_bytes flags = some (EINVAL, p)) := by
  refine ⟨?_, ?_, ?_⟩
  · intro hb hn
    unfold gds_fill_inlcpy
    simp [hb, ha, hn]
  · intro hb hn
    exact fill_inlcpy_ok p data flags hb ha hn
  · intro hb
    unfold gds_fill_inlcpy
    simp [hb]

/-- Witness for C19 (as amended): 257 bytes at `0x1000`. -/
theorem gds_fill_inlcpy_has_no_upper_bound_witness :
    (gds_fill_inlcpy Build.inlcpy CUstreamBatchMemOpParams.zero 4096 (.ptr 77) 257 0).map
      (fun r => r.2.inlineCopy.byteCount) = some 257 :=
  ((gds_fill_inlcpy_has_no_upper_bound Build.inlcpy CUstreamBatchMemOpParams.zero 4096
    (.ptr 77) 257 0 (by decide)).2.1 (by decide) (by decide)) ▸ rfl

/-- Counterexample to C19 as stated: a length of 257 bytes, above the bound of
256, makes `gds_fill_inlcpy` succeed, and a length of 16 fails with `EINVAL`
in a build without the inline-copy extension. -/
theorem gds_fill_inlcpy_accepts_257 :
    (gds_fill_inlcpy Build.inlcpy CUstreamBatchMemOpParams.zero 4096 (.ptr 77) 257 0).map
      Prod.fst = some 0 ∧
    (gds_fill_inlcpy Build.inlcpy CUstreamBatchMemOpParams.zero 4096 (.ptr 77) 257 0).map
      (fun r => r.2.operation) = some .INLINE_COPY ∧
    (gds_fill_inlcpy Build.plain CUstreamBatchMemOpParams.zero 4096 (.ptr 77) 16 0).map
      Prod.fst = some EINVAL := by
  decide

/-- C20 (as amended): `gds_fill_membar` returns `EINVAL`, writing nothing,
whenever the memory-barrier extension is not compiled in; it does not consult
`gds_enable_membar()`.  When the extension is compiled in (in particular
whenever `gds_enable_membar()` is true) it writes a `FLUSH_REMOTE_WRITES` op if
the flush-remote bit is set, else a `MEMORY_BARRIER` of scope DEFAULT if the
light bit is set, else of scope SYS if the heavy bit is set, and returns
`EINVAL` if none of the three bits is set. -/
theorem gds_fill_membar_checks_build_only (b : Build) (e : Env)
    (p : CUstreamBatchMemOpParams) (flags : Nat) :
    (gds_enable_membar b e = true → b.GDS_HAS_MEMBAR = true) ∧
    (b.GDS_HAS_MEMBAR = false → gds_fill_membar b p flags = (EINVAL, p)) ∧
    (b.GDS_HAS_MEMBAR = true → flags &&& GDS_MEMBAR_FLUSH_REMOTE ≠ 0 →
      gds_fill_membar b p flags =
        (0, { p with operation := .FLUSH_REMOTE_WRITES, flushRemoteWrites := { flags := 0 } })) ∧
    (b.GDS_HAS_MEMBAR = true → flags &&& GDS_MEMBAR_FLUSH_REMOTE = 0 →
      flags &&& GDS_MEMBAR_DEFAULT ≠ 0 →
      gds_fill_membar b p flags =
        (0, { p with operation := .MEMORY_BARRIER,
                     memoryBarrier := { flags := CU_STREAM_MEMORY_BARRIER_DEFAULT } })) ∧
    (b.GDS_HAS_MEMBAR = true → flags &&& GDS_MEMBAR_FLUSH_REMOTE = 0 →
      flags &&& GDS_MEMBAR_DEFAULT = 0 → flags &&& GDS_MEMBAR_SYS ≠ 0 →
      gds_fill_membar b p flags =
        (0, { p with operation := .MEMORY_BARRIER,
                     memoryBarrier := { flags := CU_STREAM_MEMORY_BARRIER_SYS } })) ∧
    (b.GDS_HAS_MEMBAR = true → flags &&& GDS_MEMBAR_FLUSH_REMOTE = 0 →
      flags &&& GDS_MEMBAR_DEFAULT = 0 → flags &&& GDS_MEMBAR_SYS = 0 →
      gds_fill_membar b p flags = (EINVAL, p)) := by
  refine ⟨has_membar_of_enable_membar, ?_, ?_, ?_, ?_, ?_⟩ <;> intros <;>
    unfold gds_fill_membar <;> simp_all

/-- Witness for C20 (as amended): the light scope in the memory-barrier
build. -/
theorem gds_fill_membar_checks_build_only_witness :
    gds_fill_membar Build.membar CUstreamBatchMemOpParams.zero GDS_MEMBAR_DEFAULT =
      (0, { CUstreamBatchMemOpParams.zero with
              operation := .MEMORY_BARRIER,
              memoryBarrier := { flags := CU_STREAM_MEMORY_BARRIER_DEFAULT } }) :=
  (gds_fill_membar_checks_build_only Build.membar Env.unset CUstreamBatchMemOpParams.zero
    GDS_MEMBAR_DEFAULT).2.2.2.1 (by decide) (by decide) (by decide)

/-- Counterexample to C20 as stated: with the extension compiled in and
`GDS_DISABLE_MEMBAR=1`, `gds_enable_membar()` is false, yet `gds_fill_membar`
returns `0` and writes a `MEMORY_BARRIER`. -/
theorem gds_fill_membar_ignores_disable_membar :
    gds_enable_membar Build.membar { Env.unset with GDS_DISABLE_MEMBAR := some [49] } = false ∧
    (gds_fill_membar Build.membar CUstreamBatchMemOpParams.zero GDS_MEMBAR_DEFAULT).1 = 0 ∧
    (gds_fill_membar Build.membar CUstreamBatchMemOpParams.zero GDS_MEMBAR_DEFAULT).2.operation
      = .MEMORY_BARRIER := by
  decide
theorem calc_n_mem_ops_eq_spec :
    ∀ (ds : List gds_descriptor_t) (acc : Nat), (∀ d ∈ ds, d.fits32 = true) →
      acc + spec_n_mem_ops ds < 2 ^ 64 → calc_n_mem_ops ds acc = acc + spec_n_mem_ops ds := by
  intro ds
  induction ds with
  | nil => intro acc _ _; rfl
  | cons d ds ih =>
    intro acc hfit hsum
    have hd := hfit d (List.mem_cons_self _ _)
    have hds : ∀ d ∈ ds, d.fits32 = true := fun d' hd' => hfit d' (List.mem_cons_of_mem _ hd')
    cases d with
    | SEND e st =>
      simp only [gds_descriptor_t.fits32, decide_eq_true_eq] at hd
      simp only [spec_n_mem_ops] at hsum ⊢
      have h1 : u32 e = e := by unfold u32; exact Nat.mod_eq_of_lt (by omega)
      have h2 : (e + 2) % 2 ^ 32 = e + 2 := Nat.mod_eq_of_lt hd
      have h3 : (acc + (e + 2)) % 2 ^ 64 = acc + (e + 2) := Nat.mod_eq_of_lt (by omega)
      simp only [calc_n_mem_ops, h1, h2, h3]
      rw [ih _ hds (by omega)]
      omega
    | WAIT e st =>
      simp only [gds_descriptor_t.fits32, decide_eq_true_eq] at hd
      simp only [spec_n_mem_ops] at hsum ⊢
      have h1 : u32 e = e := by unfold u32; exact Nat.mod_eq_of_lt (by omega)
      have h2 : (e + 2) % 2 ^ 32 = e + 2 := Nat.mod_eq_of_lt hd
      have h3 : (acc + (e + 2)) % 2 ^ 64 = acc + (e + 2) := Nat.mod_eq_of_lt (by omega)
      simp only [calc_n_mem_ops, h1, h2, h3]
      rw [ih _ hds (by omega)]
      omega
    | WAIT_VALUE32 v =>
      simp only [spec_n_mem_ops] at hsum ⊢
      have h3 : (acc + 2) % 2 ^ 64 = acc + 2 := Nat.mod_eq_of_lt (by omega)
      simp only [calc_n_mem_ops, h3]
      rw [ih _ hds (by omega)]
      omega
    | WRITE_VALUE32 v =>
      simp only [spec_n_mem_ops] at hsum ⊢
      have h3 : (acc + 2) % 2 ^ 64 = acc + 2 := Nat.mod_eq_of_lt (by omega)
      simp only [calc_n_mem_ops, h3]
      rw [ih _ hds (by omega)]
      omega
    | INVALID t =>
      simp only [spec_n_mem_ops] at hsum ⊢
      simp only [calc_n_mem_ops]
      exact ih _ hds hsum

/-- C13 (as amended): for every descriptor sequence in which `entries + 2` of
each Send and Wait fits 32 bits and whose total stays below `2^64`,
`calc_n_mem_ops` returns exactly the sum over the descriptors of
`commit.entries + 2` for each Send, `peek.entries + 2` for each Wait and `2`
for each `WAIT_VALUE32` or `WRITE_VALUE32` (an invalid tag adds nothing). -/
theorem calc_n_mem_ops_is_the_sum (descs : List gds_descriptor_t)
    (hfit : ∀ d ∈ descs, d.fits32 = true) (hsum : spec_n_mem_ops descs < 2 ^ 64) :
    calc_n_mem_ops descs 0 = spec_n_mem_ops descs := by
  have h := calc_n_mem_ops_eq_spec descs 0 hfit (by omega)
  omega

/-- Witness for C13 (as amended): a Send of three entries, a Wait of two and a
value-level write. -/
theorem calc_n_mem_ops_is_the_sum_witness :
    calc_n_mem_ops [.SEND 3 [], .WAIT 2 [], .WRITE_VALUE32 ⟨8192, 1, 0, 0⟩] 0 = 5 + 4 + 2 :=
  (calc_n_mem_ops_is_the_sum [.SEND 3 [], .WAIT 2 [], .WRITE_VALUE32 ⟨8192, 1, 0, 0⟩]
    (by decide) (by decide)).trans (by decide)

/-- Counterexample to C13 as stated: for a Send whose `entries` is
`0xFFFFFFFF`, the 32-bit sum `entries + 2` wraps to `1`, so `calc_n_mem_ops`
returns `1` and not `entries + 2`. -/
theorem calc_n_mem_ops_wraps :
    calc_n_mem_ops [.SEND 4294967295 []] 0 = 1 ∧
    spec_n_mem_ops [.SEND 4294967295 []] = 4294967297 := by
  decide

theorem and_mask_idem (f m : Nat) : f &&& m &&& m = f &&& m := by
  rw [Nat.and_assoc, Nat.and_self]

theorem with_barrier_idem (p : CUstreamBatchMemOpParams) :
    with_barrier (with_barrier p) = with_barrier p := by
  unfold with_barrier
  simp only [and_mask_idem]

theorem enable_barrier_cases {b : Build} {p q : CUstreamBatchMemOpParams}
    (h : gds_enable_barrier_for_inlcpy b p = some q) : q = p ∨ q = with_barrier p := by
  unfold gds_enable_barrier_for_inlcpy at h
  split_ifs at h <;> simp at h
  · right; rw [← h]; rfl
  · left; exact h.symm

/-- Change to the slots below the cursor in one iteration: none, or the
barrier request patched into the slot just below the cursor. -/
theorem gds_post_op_below (c : Ctx) (pf : Nat) (u : Bool) (op : peer_op_wr) (s : St) :
    ∀ j, j < s.idx →
      (gds_post_op c pf u op s).params j = s.params j ∨
      (u = true ∧ j + 1 = s.idx ∧ (gds_post_op c pf u op s).params j = with_barrier (s.params j)) := by
  intro j hj
  have hemit : ∀ (t : St) (r : Int × CUstreamBatchMemOpParams), t.idx = s.idx →
      t.params = s.params → (t.emit r).params j = s.params j := by
    intro t r h1 h2
    simp only [St.emit, h1, h2]
    exact setSlot_ne _ _ (Nat.ne_of_lt hj)
  have hemit? : ∀ (t : St) (r : Option (Int × CUstreamBatchMemOpParams)), t.idx = s.idx →
      t.params = s.params → (t.emit? r).params j = s.params j := by
    intro t r h1 h2
    cases r with
    | none => simp only [St.emit?, h2]
    | some r => exact hemit t r h1 h2
  have hemit2 : ∀ (t : St) (r1 r2 : Option (Int × CUstreamBatchMemOpParams)), t.idx = s.idx →
      t.params = s.params → ((t.emit? r1).emit? r2).params j = s.params j := by
    intro t r1 r2 h1 h2
    cases r1 with
    | none => exact hemit? _ r2 h1 h2
    | some r1 =>
      cases r2 with
      | none => exact hemit t r1 h1 h2
      | some r2 =>
        simp only [St.emit?, St.emit, h1, h2]
        rw [setSlot_ne _ _ (by omega), setSlot_ne _ _ (Nat.ne_of_lt hj)]
  unfold gds_post_op
  cases op with
  | FENCE f =>
    simp only
    split_ifs with h1 h2 h3 h4
    all_goals first
      | (left; rfl)
      | (left; exact hemit s _ rfl rfl)
      | (split
         · left; rfl
         · rename_i q hq
           by_cases hjj : j = s.idx - 1
           · subst hjj
             simp only [setSlot_same]
             rcases enable_barrier_cases hq with h | h
             · left; exact h
             · right; exact ⟨h3, by omega, h⟩
           · left; exact setSlot_ne _ _ hjj)
  | STORE_DWORD d t o =>
    simp only
    split_ifs
    all_goals first
      | (left; rfl)
      | (left; exact hemit? _ _ rfl rfl)
  | STORE_QWORD d t o =>
    simp only
    split_ifs
    all_goals first
      | (left; rfl)
      | (left; exact hemit? _ _ rfl rfl)
      | (left; exact hemit2 _ _ _ rfl rfl)
  | COPY_BLOCK src len t o =>
    simp only
    split_ifs
    all_goals first
      | (left; rfl)
      | (left; exact hemit? _ _ rfl rfl)
  | POLL_AND_DWORD d t o => left; exact hemit? _ _ rfl rfl
  | POLL_GEQ_DWORD d t o => left; exact hemit? _ _ rfl rfl
  | POLL_NOR_DWORD d t o =>
    simp only
    split_ifs <;> (left; rfl)
  | UNDEFINED t => left; rfl

theorem gds_post_ops_loop_below (c : Ctx) (pf : Nat) (u : Bool) (c0 : Nat) (p0 : Params) :
    ∀ (n : Nat) (ops : List peer_op_wr) (s : St), c0 ≤ s.idx →
      (∀ j, j < c0 → s.params j = p0 j ∨
        (u = true ∧ j + 1 = c0 ∧ s.params j = with_barrier (p0 j))) →
      ∀ j, j < c0 → (gds_post_ops_loop c pf u n ops s).params j = p0 j ∨
        (u = true ∧ j + 1 = c0 ∧
          (gds_post_ops_loop c pf u n ops s).params j = with_barrier (p0 j)) := by
  intro n
  induction n with
  | zero => intro ops s _ hinv; simpa [gds_post_ops_loop] using hinv
  | succ n ih =>
    intro ops s hc hinv
    cases ops with
    | nil => simpa [gds_post_ops_loop] using hinv
    | cons op rest =>
      have hstep : ∀ j, j < c0 → (gds_post_op c pf u op s).params j = p0 j ∨
          (u = true ∧ j + 1 = c0 ∧ (gds_post_op c pf u op s).params j = with_barrier (p0 j)) := by
        intro j hj
        rcases gds_post_op_below c pf u op s j (by omega) with h | ⟨hu, hj1, h⟩
        · rw [h]; exact hinv j hj
        · have hjc : j + 1 = c0 := by omega
          rcases hinv j hj with h0 | ⟨-, -, h0⟩
          · right; exact ⟨hu, hjc, by rw [h, h0]⟩
          · right; exact ⟨hu, hjc, by rw [h, h0, with_barrier_idem]⟩
      simp only [gds_post_ops_loop]
      split_ifs
      · exact hstep
      · exact ih rest _ (le_trans hc (gds_post_op_frame c pf u op s).1) hstep

/-- C14 (as amended): `gds_post_ops` entered with cursor value `c` returns a
cursor of at least `c` and leaves every slot below `c - 1` as it was.  The slot
at `c - 1` is either left as it was or has the no-memory-barrier bit of its
`inlineCopy.flags` cleared (the fence patch of `params+idx-1`, when the
sequence meets a write fence before it has emitted anything); outside the
emit-narrow-as-copy mode no slot below `c` is modified at all. -/
theorem gds_post_ops_modifies_only_patch_below_cursor (c : Ctx) (n_ops : Nat)
    (op : List peer_op_wr) (params : Params) (idx post_flags : Nat) :
    idx ≤ (gds_post_ops c n_ops op params idx post_flags).idx ∧
    (∀ j, j + 1 < idx → (gds_post_ops c n_ops op params idx post_flags).params j = params j) ∧
    (∀ j, j < idx →
      (gds_post_ops c n_ops op params idx post_flags).params j = params j ∨
      (gds_post_ops c n_ops op params idx post_flags).params j = with_barrier (params j)) ∧
    (use_inlcpy_for_dword c.build c.env = false → ∀ j, j < idx →
      (gds_post_ops c n_ops op params idx post_flags).params j = params j) := by
  have hinv := gds_post_ops_loop_below c post_flags (use_inlcpy_for_dword c.build c.env) idx params
    n_ops op
    { idx := idx, params := params, prev_was_fence := false, retcode := 0, aborted := false }
    (le_refl _) (fun j _ => Or.inl rfl)
  refine ⟨(gds_post_ops_frame c n_ops op params idx post_flags).1, ?_, ?_, ?_⟩
  · intro j hj
    rcases hinv j (by omega) with h | ⟨-, h1, -⟩
    · exact h
    · omega
  · intro j hj
    rcases hinv j hj with h | ⟨-, -, h⟩
    · exact Or.inl h
    · exact Or.inr h
  · intro hu j hj
    rcases hinv j hj with h | ⟨h1, -, -⟩
    · exact h
    · rw [hu] at h1; exact absurd h1 (by decide)

/-- Witness for C14 (as amended): in the plain build nothing below the entry
cursor changes. -/
theorem gds_post_ops_modifies_only_patch_below_cursor_witness :
    (gds_post_ops Ctx.plain 2 [.FENCE 42, .STORE_DWORD 1 4096 0] Params.zero 1 0).params 0
      = Params.zero 0 :=
  (gds_post_ops_modifies_only_patch_below_cursor Ctx.plain 2 [.FENCE 42, .STORE_DWORD 1 4096 0]
    Params.zero 1 0).2.2.2 (by decide) 0 (by decide)

/-- Counterexample to C14 as stated: in the inline-copy build without memory
barrier, entered with cursor `1` below which slot `0` holds an `INLINE_COPY`
with the no-memory-barrier flag, a sequence that is one write fence returns `0`
and has changed slot `0` (its flags are now `0`). -/
theorem gds_post_ops_fence_patches_slot_below_cursor :
    (gds_post_ops Ctx.inlcpy 1 [.FENCE 42]
      (setSlot Params.zero 0 { CUstreamBatchMemOpParams.zero with
        operation := .INLINE_COPY,
        inlineCopy := ⟨4096, .ptr 77, 8, CU_STREAM_INLINE_COPY_NO_MEMORY_BARRIER⟩ }) 1 0).ok
      = true ∧
    (gds_post_ops Ctx.inlcpy 1 [.FENCE 42]
      (setSlot Params.zero 0 { CUstreamBatchMemOpParams.zero with
        operation := .INLINE_COPY,
        inlineCopy := ⟨4096, .ptr 77, 8, CU_STREAM_INLINE_COPY_NO_MEMORY_BARRIER⟩ }) 1 0).params 0
      ≠ (setSlot Params.zero 0 { CUstreamBatchMemOpParams.zero with
        operation := .INLINE_COPY,
        inlineCopy := ⟨4096, .ptr 77, 8, CU_STREAM_INLINE_COPY_NO_MEMORY_BARRIER⟩ }) 0 ∧
    ((gds_post_ops Ctx.inlcpy 1 [.FENCE 42]
      (setSlot Params.zero 0 { CUstreamBatchMemOpParams.zero with
        operation := .INLINE_COPY,
        inlineCopy := ⟨4096, .ptr 77, 8, CU_STREAM_INLINE_COPY_NO_MEMORY_BARRIER⟩ }) 1 0).params
      0).inlineCopy.flags = 0 := by
  decide

theorem gds_post_ops_loop_append (c : Ctx) (pf : Nat) (u : Bool) :
    ∀ (pre rest : List peer_op_wr) (n : Nat) (s : St),
      (gds_post_ops_loop c pf u pre.length pre s).live = true →
      gds_post_ops_loop c pf u (pre.length + n) (pre ++ rest) s =
        gds_post_ops_loop c pf u n rest (gds_post_ops_loop c pf u pre.length pre s) := by
  intro pre
  induction pre with
  | nil =>
    intro rest n s _
    simp only [List.length_nil, Nat.zero_add, List.nil_append, gds_post_ops_loop]
  | cons op pre ih =>
    intro rest n s h
    have e : (op :: pre).length + n = (pre.length + n) + 1 := by
      simp only [List.length_cons]; omega
    rw [e, List.cons_append]
    simp only [List.length_cons, gds_post_ops_loop] at h ⊢
    by_cases hc : ((gds_post_op c pf u op s).aborted || (gds_post_op c pf u op s).retcode != 0)
        = true
    · rw [if_pos hc] at h
      rw [st_live_iff] at h
      simp [h.1, h.2] at hc
    · simp only [if_neg hc] at h ⊢
      exact ih rest n _ h

/-- C11 (as amended): with the memory-barrier capability enabled, a fence that
is not a read fence and whose origin bits are not exactly `FROM_HCA`, reached
by `gds_post_ops` after a prefix `pre` that it translated successfully, makes
the call return `EINVAL` without emitting anything for the fence (cursor and
array are as the prefix left them).  With the capability disabled the fence
origin is not examined: the iteration for a fence leaves `retcode` as it was,
whatever the origin bits are. -/
theorem write_fence_origin_checked_only_with_membar (c : Ctx) (pre post : List peer_op_wr)
    (f : Nat) (params : Params) (idx post_flags : Nat) (u : Bool) (s : St) :
    (gds_enable_membar c.build c.env = true →
      f &&& (IBV_EXP_PEER_FENCE_OP_READ ||| IBV_EXP_PEER_FENCE_OP_WRITE)
        ≠ IBV_EXP_PEER_FENCE_OP_READ →
      f &&& (IBV_EXP_PEER_FENCE_FROM_CPU ||| IBV_EXP_PEER_FENCE_FROM_HCA)
        ≠ IBV_EXP_PEER_FENCE_FROM_HCA →
      (gds_post_ops c pre.length pre params idx post_flags).ok = true →
      (gds_post_ops c (pre.length + (post.length + 1)) (pre ++ .FENCE f :: post) params idx
          post_flags).aborted = false ∧
      (gds_post_ops c (pre.length + (post.length + 1)) (pre ++ .FENCE f :: post) params idx
          post_flags).retcode = EINVAL ∧
      (gds_post_ops c (pre.length + (post.length + 1)) (pre ++ .FENCE f :: post) params idx
          post_flags).idx = (gds_post_ops c pre.length pre params idx post_flags).idx ∧
      (gds_post_ops c (pre.length + (post.length + 1)) (pre ++ .FENCE f :: post) params idx
          post_flags).params = (gds_post_ops c pre.length pre params idx post_flags).params) ∧
    (gds_enable_membar c.build c.env = false →
      (gds_post_op c post_flags u (.FENCE f) s).retcode = s.retcode) := by
  constructor
  · intro hm hr hf hpre
    have hlive : (gds_post_ops_loop c post_flags (use_inlcpy_for_dword c.build c.env) pre.length
        pre { idx := idx, params := params, prev_was_fence := false, retcode := 0,
              aborted := false }).live = true := by
      simpa [gds_post_ops, Res.ok, St.live] using hpre
    have hstep := fence_membar c post_flags (use_inlcpy_for_dword c.build c.env) f
      (gds_post_ops_loop c post_flags (use_inlcpy_for_dword c.build c.env) pre.length
        pre { idx := idx, params := params, prev_was_fence := false, retcode := 0,
              aborted := false }) hr hm
    rw [if_pos hf] at hstep
    have hab := ((st_live_iff _).mp hlive).1
    unfold gds_post_ops
    simp only
    rw [gds_post_ops_loop_append c post_flags _ pre (.FENCE f :: post) (post.length + 1) _ hlive]
    simp only [gds_post_ops_loop, hstep]
    have he : ((22 : Int) != 0) = true := by decide
    simp [hab, EINVAL, he]
  · intro hm
    unfold gds_post_op
    simp only [hm]
    split_ifs
    all_goals first
      | rfl
      | (split <;> rfl)
      | simp_all

/-- Witness for C11 (as amended): in the memory-barrier build a write fence
from the CPU after one translated store returns `EINVAL`; in the plain build
the same fence leaves `retcode` at `0`. -/
theorem write_fence_origin_checked_only_with_membar_witness :
    (gds_post_ops Ctx.membar (1 + (0 + 1)) ([.STORE_DWORD 1 4096 0] ++ [.FENCE 38]) Params.zero 0
      0).retcode = EINVAL ∧
    (gds_post_op Ctx.plain 0 false (.FENCE 38)
      { idx := 0, params := Params.zero, prev_was_fence := false, retcode := 0,
        aborted := false }).retcode = 0 :=
  ⟨((write_fence_origin_checked_only_with_membar Ctx.membar [.STORE_DWORD 1 4096 0] [] 38
      Params.zero 0 0 false
      { idx := 0, params := Params.zero, prev_was_fence := false, retcode := 0,
        aborted := false }).1 (by decide) (by decide) (by decide) (by decide)).2.1,
   (write_fence_origin_checked_only_with_membar Ctx.plain [] [] 38 Params.zero 0 0 false
      { idx := 0, params := Params.zero, prev_was_fence := false, retcode := 0,
        aborted := false }).2 (by decide)⟩

/-- Counterexample to C11 as stated: in the plain build (memory barrier not
enabled) a write fence whose origin is the CPU (`WRITE | FROM_CPU | MEM_PEER`)
makes `gds_post_ops` return `0`, not `EINVAL`. -/
theorem write_fence_from_cpu_accepted_without_membar :
    gds_enable_membar Ctx.plain.build Ctx.plain.env = false ∧
    (38 : Nat) &&& (IBV_EXP_PEER_FENCE_OP_READ ||| IBV_EXP_PEER_FENCE_OP_WRITE)
      = IBV_EXP_PEER_FENCE_OP_WRITE ∧
    (38 : Nat) &&& (IBV_EXP_PEER_FENCE_FROM_CPU ||| IBV_EXP_PEER_FENCE_FROM_HCA)
      = IBV_EXP_PEER_FENCE_FROM_CPU ∧
    (gds_post_ops Ctx.plain 1 [.FENCE 38] Params.zero 0 0).aborted = false ∧
    (gds_post_ops Ctx.plain 1 [.FENCE 38] Params.zero 0 0).retcode = 0 := by
  decide
theorem post_descriptor_ret_of_fail (c : Ctx) (x : Ext) (mf : Bool) (lw cap i : Nat)
    (d : gds_descriptor_t) (s : DSt)
    (hab : (post_descriptor c x mf lw cap i d s).aborted = false)
    (hrc : (post_descriptor c x mf lw cap i d s).retcode ≠ 0) :
    (post_descriptor c x mf lw cap i d s).ret = (post_descriptor c x mf lw cap i d s).retcode := by
  unfold post_descriptor at hab hrc ⊢
  cases d with
  | SEND e st => simp only at hab hrc ⊢; split_ifs at hab hrc ⊢ <;> simp_all
  | WAIT e st => simp only at hab hrc ⊢; split_ifs at hab hrc ⊢ <;> simp_all
  | WAIT_VALUE32 v =>
    simp only at hab hrc ⊢
    cases hm : gds_fill_poll_ptr x (s.params s.idx) v.ptr (u32 v.value) v.cond_flags v.flags with
    | none => simp [hm] at hab
    | some r =>
      obtain ⟨rc, q⟩ := r
      simp only [hm] at hab hrc ⊢
      split_ifs at hab hrc ⊢ <;> simp_all
  | WRITE_VALUE32 v =>
    simp only at hab hrc ⊢
    cases hm : gds_fill_poke_ptr x (s.params s.idx) v.ptr (u32 v.value) v.flags with
    | none => simp [hm] at hab
    | some r =>
      obtain ⟨rc, q⟩ := r
      simp only [hm] at hab hrc ⊢
      split_ifs at hab hrc ⊢ <;> simp_all
  | INVALID t => simp at hab

theorem post_descriptors_loop_fail_at (c : Ctx) (x : Ext) (mf : Bool) (lw cap : Nat)
    (pre post : List gds_descriptor_t) (d : gds_descriptor_t) (s0 : DSt)
    (hs0 : s0.live = true)
    (hpre : (post_descriptors_loop c x mf lw cap 0 pre s0).live = true)
    (hfail : ((post_descriptor c x mf lw cap pre.length d
        (post_descriptors_loop c x mf lw cap 0 pre s0)).aborted ||
      (post_descriptor c x mf lw cap pre.length d
        (post_descriptors_loop c x mf lw cap 0 pre s0)).retcode != 0) = true) :
    post_descriptors_loop c x mf lw cap 0 (pre ++ d :: post) s0 =
      post_descriptor c x mf lw cap pre.length d
        (post_descriptors_loop c x mf lw cap 0 pre s0) := by
  rw [post_descriptors_loop_append c x mf lw cap pre (d :: post) 0 s0 hs0, if_pos hpre,
    post_descriptors_loop_cons, Nat.zero_add, if_pos hfail]

theorem res_ok_iff (r : Res) : r.ok = true ↔ ¬ ((r.aborted || r.retcode != 0) = true) := by
  simp [Res.ok]

theorem post_requests_loop_cons (c : Ctx) (q : peer_ops_t) (qs : List peer_ops_t) (r : Res) :
    post_requests_loop c (q :: qs) r =
      if ((gds_post_ops c (u32 q.entries) q.storage r.params r.idx 0).aborted ||
          (gds_post_ops c (u32 q.entries) q.storage r.params r.idx 0).retcode != 0) = true
      then gds_post_ops c (u32 q.entries) q.storage r.params r.idx 0
      else post_requests_loop c qs (gds_post_ops c (u32 q.entries) q.storage r.params r.idx 0) :=
  rfl

theorem post_requests_loop_append (c : Ctx) :
    ∀ (l1 l2 : List peer_ops_t) (r : Res), r.ok = true →
      post_requests_loop c (l1 ++ l2) r =
        if (post_requests_loop c l1 r).ok = true then
          post_requests_loop c l2 (post_requests_loop c l1 r)
        else post_requests_loop c l1 r := by
  intro l1
  induction l1 with
  | nil => intro l2 r hr; simp [post_requests_loop, hr]
  | cons q qs ih =>
    intro l2 r hr
    rw [List.cons_append, post_requests_loop_cons, post_requests_loop_cons]
    by_cases hc : ((gds_post_ops c (u32 q.entries) q.storage r.params r.idx 0).aborted ||
        (gds_post_ops c (u32 q.entries) q.storage r.params r.idx 0).retcode != 0) = true
    · have hn : ¬ ((gds_post_ops c (u32 q.entries) q.storage r.params r.idx 0).ok = true) := by
        rw [res_ok_iff]; exact not_not.mpr hc
      simp only [if_pos hc, if_neg hn]
    · simp only [if_neg hc]
      exact ih l2 _ ((res_ok_iff _).mpr hc)

theorem post_requests_loop_fail_at (c : Ctx) (pre post : List peer_ops_t) (q : peer_ops_t)
    (r : Res) (hr : r.ok = true) (hpre : (post_requests_loop c pre r).ok = true)
    (hab : (gds_post_ops c (u32 q.entries) q.storage (post_requests_loop c pre r).params
      (post_requests_loop c pre r).idx 0).aborted = false)
    (hrc : (gds_post_ops c (u32 q.entries) q.storage (post_requests_loop c pre r).params
      (post_requests_loop c pre r).idx 0).retcode ≠ 0) :
    post_requests_loop c (pre ++ q :: post) r =
      gds_post_ops c (u32 q.entries) q.storage (post_requests_loop c pre r).params
        (post_requests_loop c pre r).idx 0 := by
  rw [post_requests_loop_append c pre (q :: post) r hr, if_pos hpre, post_requests_loop_cons,
    if_pos]
  simp [hab, hrc]

theorem post_tracking_fail (c : Ctx) (x : Ext) (dw val : Nat) (r : Res) (rc : Int)
    (p : CUstreamBatchMemOpParams) (hdw : dw ≠ 0)
    (hp : gds_fill_poke_ptr x (r.params r.idx) dw (u32 val) GDS_MEMORY_HOST = some (rc, p))
    (hrc : rc ≠ 0) :
    (post_tracking_and_submit c x dw val r).batches = [] ∧
    (post_tracking_and_submit c x dw val r).ret = rc ∧
    (post_tracking_and_submit c x dw val r).aborted = false := by
  unfold post_tracking_and_submit
  rw [if_pos hdw]
  simp only [hp, if_pos hrc]
  exact ⟨trivial, trivial, trivial⟩

/-- C12: in `gds_stream_post_descriptors`, `gds_post_pokes` and
`gds_stream_post_wait_cq_multi`, when the translation reaches an element (after
a prefix `pre` that was translated successfully) whose step returns a non-zero
code without aborting (the `gds_post_ops` call of a request or descriptor, or
the value-level builder of a descriptor), no driver batch is submitted
(`batches = []`) and the function returns that non-zero code.  The same holds
in the two request functions when the builder of the tracking write, reached
after every request was translated, returns non-zero. -/
theorem no_submit_after_failed_step (c : Ctx) (x : Ext) (params0 : Params) (dw val : Nat) :
    (∀ (pre post : List gds_descriptor_t) (d : gds_descriptor_t),
      (post_descriptors_loop c x (move_flush_of (pre ++ d :: post))
        (get_wait_info (pre ++ d :: post)).2.2 (calc_n_mem_ops (pre ++ d :: post) 0) 0 pre
        (DSt.init params0)).live = true →
      (post_descriptor c x (move_flush_of (pre ++ d :: post))
        (get_wait_info (pre ++ d :: post)).2.2 (calc_n_mem_ops (pre ++ d :: post) 0) pre.length d
        (post_descriptors_loop c x (move_flush_of (pre ++ d :: post))
          (get_wait_info (pre ++ d :: post)).2.2 (calc_n_mem_ops (pre ++ d :: post) 0) 0 pre
          (DSt.init params0))).aborted = false →
      (post_descriptor c x (move_flush_of (pre ++ d :: post))
        (get_wait_info (pre ++ d :: post)).2.2 (calc_n_mem_ops (pre ++ d :: post) 0) pre.length d
        (post_descriptors_loop c x (move_flush_of (pre ++ d :: post))
          (get_wait_info (pre ++ d :: post)).2.2 (calc_n_mem_ops (pre ++ d :: post) 0) 0 pre
          (DSt.init params0))).retcode ≠ 0 →
      (gds_stream_post_descriptors c x (pre ++ d :: post) params0).batches = [] ∧
      (gds_stream_post_descriptors c x (pre ++ d :: post) params0).aborted = false ∧
      (gds_stream_post_descriptors c x (pre ++ d :: post) params0).ret ≠ 0 ∧
      (gds_stream_post_descriptors c x (pre ++ d :: post) params0).ret =
        (post_descriptor c x (move_flush_of (pre ++ d :: post))
          (get_wait_info (pre ++ d :: post)).2.2 (calc_n_mem_ops (pre ++ d :: post) 0) pre.length
          d (post_descriptors_loop c x (move_flush_of (pre ++ d :: post))
            (get_wait_info (pre ++ d :: post)).2.2 (calc_n_mem_ops (pre ++ d :: post) 0) 0 pre
            (DSt.init params0))).retcode) ∧
    (∀ (pre post : List gds_send_request_t) (q : gds_send_request_t),
      (post_requests_loop c (pre.map (fun q => q.commit)) (Res.init params0)).ok = true →
      (gds_post_ops c (u32 q.commit.entries) q.commit.storage
        (post_requests_loop c (pre.map (fun q => q.commit)) (Res.init params0)).params
        (post_requests_loop c (pre.map (fun q => q.commit)) (Res.init params0)).idx 0).aborted
        = false →
      (gds_post_ops c (u32 q.commit.entries) q.commit.storage
        (post_requests_loop c (pre.map (fun q => q.commit)) (Res.init params0)).params
        (post_requests_loop c (pre.map (fun q => q.commit)) (Res.init params0)).idx 0).retcode
        ≠ 0 →
      (gds_post_pokes c x (pre ++ q :: post) dw val params0).batches = [] ∧
      (gds_post_pokes c x (pre ++ q :: post) dw val params0).aborted = false ∧
      (gds_post_pokes c x (pre ++ q :: post) dw val params0).ret =
        (gds_post_ops c (u32 q.commit.entries) q.commit.storage
          (post_requests_loop c (pre.map (fun q => q.commit)) (Res.init params0)).params
          (post_requests_loop c (pre.map (fun q => q.commit)) (Res.init params0)).idx 0).retcode) ∧
    (∀ (info : List gds_send_request_t) (rc : Int) (p : CUstreamBatchMemOpParams),
      (post_requests_loop c (info.map (fun q => q.commit)) (Res.init params0)).ok = true →
      ((post_requests_loop c (info.map (fun q => q.commit)) (Res.init params0)).idx : Int)
        < int_of_u32 (poke_count_bits info 0) →
      dw ≠ 0 →
      gds_fill_poke_ptr x
        ((post_requests_loop c (info.map (fun q => q.commit)) (Res.init params0)).params
          (post_requests_loop c (info.map (fun q => q.commit)) (Res.init params0)).idx)
        dw (u32 val) GDS_MEMORY_HOST = some (rc, p) →
      rc ≠ 0 →
      (gds_post_pokes c x info dw val params0).batches = [] ∧
      (gds_post_pokes c x info dw val params0).aborted = false ∧
      (gds_post_pokes c x info dw val params0).ret = rc) ∧
    (∀ (pre post : List gds_wait_request_t) (q : gds_wait_request_t),
      (post_requests_loop c (pre.map (fun q => q.peek)) (Res.init params0)).ok = true →
      (gds_post_ops c (u32 q.peek.entries) q.peek.storage
        (post_requests_loop c (pre.map (fun q => q.peek)) (Res.init params0)).params
        (post_requests_loop c (pre.map (fun q => q.peek)) (Res.init params0)).idx 0).aborted
        = false →
      (gds_post_ops c (u32 q.peek.entries) q.peek.storage
        (post_requests_loop c (pre.map (fun q => q.peek)) (Res.init params0)).params
        (post_requests_loop c (pre.map (fun q => q.peek)) (Res.init params0)).idx 0).retcode
        ≠ 0 →
      (gds_stream_post_wait_cq_multi c x (pre ++ q :: post) dw val params0).batches = [] ∧
      (gds_stream_post_wait_cq_multi c x (pre ++ q :: post) dw val params0).aborted = false ∧
      (gds_stream_post_wait_cq_multi c x (pre ++ q :: post) dw val params0).ret =
        (gds_post_ops c (u32 q.peek.entries) q.peek.storage
          (post_requests_loop c (pre.map (fun q => q.peek)) (Res.init params0)).params
          (post_requests_loop c (pre.map (fun q => q.peek)) (Res.init params0)).idx 0).retcode) ∧
    (∀ (request : List gds_wait_request_t) (rc : Int) (p : CUstreamBatchMemOpParams),
      (post_requests_loop c (request.map (fun q => q.peek)) (Res.init params0)).ok = true →
      ((post_requests_loop c (request.map (fun q => q.peek)) (Res.init params0)).idx : Int)
        ≤ int_of_u32 (wait_n_mem_ops_bits request 0) →
      dw ≠ 0 →
      gds_fill_poke_ptr x
        ((post_requests_loop c (request.map (fun q => q.peek)) (Res.init params0)).params
          (post_requests_loop c (request.map (fun q => q.peek)) (Res.init params0)).idx)
        dw (u32 val) GDS_MEMORY_HOST = some (rc, p) →
      rc ≠ 0 →
      (gds_stream_post_wait_cq_multi c x request dw val params0).batches = [] ∧
      (gds_stream_post_wait_cq_multi c x request dw val params0).aborted = false ∧
      (gds_stream_post_wait_cq_multi c x request dw val params0).ret = rc) := by
  have hinit : (Res.init params0).ok = true := rfl
  refine ⟨?_, ?_, ?_, ?_, ?_⟩
  · intro pre post d hpre hab hrc
    have hfail : ((post_descriptor c x (move_flush_of (pre ++ d :: post))
        (get_wait_info (pre ++ d :: post)).2.2 (calc_n_mem_ops (pre ++ d :: post) 0) pre.length d
        (post_descriptors_loop c x (move_flush_of (pre ++ d :: post))
          (get_wait_info (pre ++ d :: post)).2.2 (calc_n_mem_ops (pre ++ d :: post) 0) 0 pre
          (DSt.init params0))).aborted ||
        (post_descriptor c x (move_flush_of (pre ++ d :: post))
        (get_wait_info (pre ++ d :: post)).2.2 (calc_n_mem_ops (pre ++ d :: post) 0) pre.length d
        (post_descriptors_loop c x (move_flush_of (pre ++ d :: post))
          (get_wait_info (pre ++ d :: post)).2.2 (calc_n_mem_ops (pre ++ d :: post) 0) 0 pre
          (DSt.init params0))).retcode != 0) = true := by
      simp [hab, hrc]
    have hloop := post_descriptors_loop_fail_at c x (move_flush_of (pre ++ d :: post))
      (get_wait_info (pre ++ d :: post)).2.2 (calc_n_mem_ops (pre ++ d :: post) 0) pre post d
      (DSt.init params0) rfl hpre hfail
    have hret := post_descriptor_ret_of_fail c x (move_flush_of (pre ++ d :: post))
      (get_wait_info (pre ++ d :: post)).2.2 (calc_n_mem_ops (pre ++ d :: post) 0) pre.length d
      _ hab hrc
    have hres : gds_stream_post_descriptors c x (pre ++ d :: post) params0 =
        { aborted := false,
          ret := (post_descriptors_loop c x (move_flush_of (pre ++ d :: post))
            (get_wait_info (pre ++ d :: post)).2.2 (calc_n_mem_ops (pre ++ d :: post) 0) 0
            (pre ++ d :: post) (DSt.init params0)).ret,
          idx := (post_descriptors_loop c x (move_flush_of (pre ++ d :: post))
            (get_wait_info (pre ++ d :: post)).2.2 (calc_n_mem_ops (pre ++ d :: post) 0) 0
            (pre ++ d :: post) (DSt.init params0)).idx,
          params := (post_descriptors_loop c x (move_flush_of (pre ++ d :: post))
            (get_wait_info (pre ++ d :: post)).2.2 (calc_n_mem_ops (pre ++ d :: post) 0) 0
            (pre ++ d :: post) (DSt.init params0)).params,
          batches := [] } := by
      unfold gds_stream_post_descriptors
      simp only
      have e : ({ idx := 0, params := params0, ret := 0, retcode := 0, aborted := false } : DSt)
          = DSt.init params0 := rfl
      rw [e, hloop, hab]
      simp only [Bool.false_eq_true, if_false, if_pos hrc]
    rw [hres, hloop]
    simp only
    refine ⟨?_, ?_, ?_, ?_⟩
    · trivial
    · trivial
    · rw [hret]; exact hrc
    · exact hret
  · intro pre post q hpre hab hrc
    have hloop := post_requests_loop_fail_at c (pre.map (fun q => q.commit))
      (post.map (fun q => q.commit)) q.commit (Res.init params0) hinit hpre hab hrc
    unfold gds_post_pokes
    simp only
    have e : ({ aborted := false, retcode := 0, idx := 0, params := params0 } : Res)
        = Res.init params0 := rfl
    rw [e, List.map_append, List.map_cons, hloop, hab]
    simp only [Bool.false_eq_true, if_false, if_pos hrc]
    exact ⟨trivial, trivial, trivial⟩
  · intro info rc p hok hidx hdw hp hrc
    have hk := (res_ok_iff _).mp hok
    simp only [Bool.or_eq_true, bne_iff_ne, ne_eq, not_or, Bool.not_eq_true, not_not] at hk
    unfold gds_post_pokes
    simp only
    have e : ({ aborted := false, retcode := 0, idx := 0, params := params0 } : Res)
        = Res.init params0 := rfl
    rw [e, hk.1]
    simp only [Bool.false_eq_true, if_false, hk.2, ne_eq, not_true_eq_false, hidx,
      not_false_eq_true]
    exact ⟨(post_tracking_fail c x dw val _ rc p hdw hp hrc).1,
      (post_tracking_fail c x dw val _ rc p hdw hp hrc).2.2,
      (post_tracking_fail c x dw val _ rc p hdw hp hrc).2.1⟩
  · intro pre post q hpre hab hrc
    have hloop := post_requests_loop_fail_at c (pre.map (fun q => q.peek))
      (post.map (fun q => q.peek)) q.peek (Res.init params0) hinit hpre hab hrc
    unfold gds_stream_post_wait_cq_multi
    simp only
    have e : ({ aborted := false, retcode := 0, idx := 0, params := params0 } : Res)
        = Res.init params0 := rfl
    rw [e, List.map_append, List.map_cons, hloop, hab]
    simp only [Bool.false_eq_true, if_false, if_pos hrc]
    exact ⟨trivial, trivial, trivial⟩
  · intro request rc p hok hidx hdw hp hrc
    have hk := (res_ok_iff _).mp hok
    simp only [Bool.or_eq_true, bne_iff_ne, ne_eq, not_or, Bool.not_eq_true, not_not] at hk
    unfold gds_stream_post_wait_cq_multi
    simp only
    have e : ({ aborted := false, retcode := 0, idx := 0, params := params0 } : Res)
        = Res.init params0 := rfl
    rw [e, hk.1]
    simp only [Bool.false_eq_true, if_false, hk.2, ne_eq, not_true_eq_false, hidx,
      not_false_eq_true]
    exact ⟨(post_tracking_fail c x dw val _ rc p hdw hp hrc).1,
      (post_tracking_fail c x dw val _ rc p hdw hp hrc).2.2,
      (post_tracking_fail c x dw val _ rc p hdw hp hrc).2.1⟩

/-- Witness for C12: a descriptor sequence whose second element is a Send
holding an operation of unknown type, and request sequences whose second
element holds one, in the plain build: nothing is submitted and the return
value is not zero. -/
theorem no_submit_after_failed_step_witness :
    ((gds_stream_post_descriptors Ctx.plain (Ext.returning 0)
        ([.WRITE_VALUE32 ⟨8192, 1, 0, 0⟩] ++ .SEND 1 [.UNDEFINED 0] ::
          [.WAIT_VALUE32 ⟨8192, 1, 0, 0⟩]) Params.zero).batches = [] ∧
      (gds_stream_post_descriptors Ctx.plain (Ext.returning 0)
        ([.WRITE_VALUE32 ⟨8192, 1, 0, 0⟩] ++ .SEND 1 [.UNDEFINED 0] ::
          [.WAIT_VALUE32 ⟨8192, 1, 0, 0⟩]) Params.zero).ret ≠ 0) ∧
    ((gds_post_pokes Ctx.plain (Ext.returning 0)
        ([⟨⟨1, [.STORE_DWORD 1 4096 0]⟩⟩] ++ ⟨⟨1, [.UNDEFINED 0]⟩⟩ :: []) 0 0
        Params.zero).batches = [] ∧
      (gds_post_pokes Ctx.plain (Ext.returning 0)
        ([⟨⟨1, [.STORE_DWORD 1 4096 0]⟩⟩] ++ ⟨⟨1, [.UNDEFINED 0]⟩⟩ :: []) 0 0
        Params.zero).ret = EINVAL) ∧
    ((gds_stream_post_wait_cq_multi Ctx.plain (Ext.returning 0)
        ([⟨⟨1, [.POLL_GEQ_DWORD 1 4096 0]⟩⟩] ++ ⟨⟨1, [.UNDEFINED 0]⟩⟩ :: []) 0 0
        Params.zero).batches = [] ∧
      (gds_stream_post_wait_cq_multi Ctx.plain (Ext.returning 0)
        ([⟨⟨1, [.POLL_GEQ_DWORD 1 4096 0]⟩⟩] ++ ⟨⟨1, [.UNDEFINED 0]⟩⟩ :: []) 0 0
        Params.zero).ret = EINVAL) :=
  ⟨⟨((no_submit_after_failed_step Ctx.plain (Ext.returning 0) Params.zero 0 0).1
        [.WRITE_VALUE32 ⟨8192, 1, 0, 0⟩] [.WAIT_VALUE32 ⟨8192, 1, 0, 0⟩] (.SEND 1 [.UNDEFINED 0])
        (by decide) (by decide) (by decide)).1,
     ((no_submit_after_failed_step Ctx.plain (Ext.returning 0) Params.zero 0 0).1
        [.WRITE_VALUE32 ⟨8192, 1, 0, 0⟩] [.WAIT_VALUE32 ⟨8192, 1, 0, 0⟩] (.SEND 1 [.UNDEFINED 0])
        (by decide) (by decide) (by decide)).2.2.1⟩,
   ⟨((no_submit_after_failed_step Ctx.plain (Ext.returning 0) Params.zero 0 0).2.1
        [⟨⟨1, [.STORE_DWORD 1 4096 0]⟩⟩] [] ⟨⟨1, [.UNDEFINED 0]⟩⟩
        (by decide) (by decide) (by decide)).1,
     (((no_submit_after_failed_step Ctx.plain (Ext.returning 0) Params.zero 0 0).2.1
        [⟨⟨1, [.STORE_DWORD 1 4096 0]⟩⟩] [] ⟨⟨1, [.UNDEFINED 0]⟩⟩
        (by decide) (by decide) (by decide)).2.2).trans (by decide)⟩,
   ⟨((no_submit_after_failed_step Ctx.plain (Ext.returning 0) Params.zero 0 0).2.2.2.1
        [⟨⟨1, [.POLL_GEQ_DWORD 1 4096 0]⟩⟩] [] ⟨⟨1, [.UNDEFINED 0]⟩⟩
        (by decide) (by decide) (by decide)).1,
     (((no_submit_after_failed_step Ctx.plain (Ext.returning 0) Params.zero 0 0).2.2.2.1
        [⟨⟨1, [.POLL_GEQ_DWORD 1 4096 0]⟩⟩] [] ⟨⟨1, [.UNDEFINED 0]⟩⟩
        (by decide) (by decide) (by decide)).2.2).trans (by decide)⟩⟩

/-- C21: for every op count `nops` (also above 256), `gds_stream_batch_ops`
makes its one driver call with all `nops` ops of the array it was given, and
its return code is `0` when the driver call returns `CUDA_SUCCESS` and
`gds_curesult_to_errno` of the driver result otherwise; `nops` enters the
return code only through the driver call.  So, `gds_curesult_to_errno` mapping
every driver error to a non-zero code, it returns `0` exactly when the submit
succeeds. -/
theorem gds_stream_batch_ops_submits_all_once (c : Ctx) (x : Ext) (nops : Nat) (params : Params)
    (flags : Nat)
    (herrno : ∀ r, r ≠ CUDA_SUCCESS → x.gds_curesult_to_errno r ≠ 0) :
    (gds_stream_batch_ops c x nops params flags).2.count = nops ∧
    (gds_stream_batch_ops c x nops params flags).2.paramArray = params ∧
    (x.cuStreamBatchMemOp nops params (gds_stream_batch_ops c x nops params flags).2.flags
        = CUDA_SUCCESS → (gds_stream_batch_ops c x nops params flags).1 = 0) ∧
    (x.cuStreamBatchMemOp nops params (gds_stream_batch_ops c x nops params flags).2.flags
        ≠ CUDA_SUCCESS →
      (gds_stream_batch_ops c x nops params flags).1 = x.gds_curesult_to_errno
        (x.cuStreamBatchMemOp nops params (gds_stream_batch_ops c x nops params flags).2.flags)) ∧
    ((gds_stream_batch_ops c x nops params flags).1 = 0 ↔
      x.cuStreamBatchMemOp nops params (gds_stream_batch_ops c x nops params flags).2.flags
        = CUDA_SUCCESS) := by
  refine ⟨rfl, rfl, ?_, ?_, ?_⟩
  · intro h
    simp only [gds_stream_batch_ops] at h ⊢
    rw [h]; simp
  · intro h
    simp only [gds_stream_batch_ops] at h ⊢
    rw [if_pos (Ne.symm h)]
  · simp only [gds_stream_batch_ops]
    constructor
    · intro h
      by_contra hne
      rw [if_pos (Ne.symm hne)] at h
      exact herrno _ hne h
    · intro h
      rw [h]; simp

/-- Witness for C21: a batch of 1000 ops on a driver that succeeds is
submitted whole and returns `0`. -/
theorem gds_stream_batch_ops_submits_all_once_witness :
    (gds_stream_batch_ops Ctx.plain (Ext.returning 0) 1000 Params.zero 0).2.count = 1000 ∧
    (gds_stream_batch_ops Ctx.plain (Ext.returning 0) 1000 Params.zero 0).1 = 0 :=
  ⟨(gds_stream_batch_ops_submits_all_once Ctx.plain (Ext.returning 0) 1000 Params.zero 0
      (fun r hr => by simp [Ext.returning, CUDA_SUCCESS] at hr ⊢; exact hr)).1,
   (gds_stream_batch_ops_submits_all_once Ctx.plain (Ext.returning 0) 1000 Params.zero 0
      (fun r hr => by simp [Ext.returning, CUDA_SUCCESS] at hr ⊢; exact hr)).2.2.1 rfl⟩

/-- C22: with the memory-barrier capability enabled, one iteration of
`gds_post_ops` on a write-direction fence from the HCA (origin bits exactly
`FROM_HCA`) does the following, in whatever state it is met.  When the
domain bits are `MEM_PEER` it writes at the cursor one `MEMORY_BARRIER` of
scope `DEFAULT` and advances the cursor by one; when they are `MEM_SYS`, one of
scope `SYS`; no other slot changes and `retcode` is `0`.  For any other domain
value (neither bit or both) it sets `retcode` to `EINVAL` and leaves cursor and
array as they were. -/
theorem write_fence_from_hca_emits_one_membar (c : Ctx) (post_flags : Nat) (u : Bool) (f : Nat)
    (s : St)
    (hm : gds_enable_membar c.build c.env = true)
    (hr : f &&& (IBV_EXP_PEER_FENCE_OP_READ ||| IBV_EXP_PEER_FENCE_OP_WRITE)
      ≠ IBV_EXP_PEER_FENCE_OP_READ)
    (hf : f &&& (IBV_EXP_PEER_FENCE_FROM_CPU ||| IBV_EXP_PEER_FENCE_FROM_HCA)
      = IBV_EXP_PEER_FENCE_FROM_HCA) :
    (f &&& (IBV_EXP_PEER_FENCE_MEM_SYS ||| IBV_EXP_PEER_FENCE_MEM_PEER)
        = IBV_EXP_PEER_FENCE_MEM_PEER →
      gds_post_op c post_flags u (.FENCE f) s =
        { s with
          params := setSlot s.params s.idx { s.params s.idx with
            operation := .MEMORY_BARRIER,
            memoryBarrier := { flags := CU_STREAM_MEMORY_BARRIER_DEFAULT } },
          retcode := 0,
          idx := s.idx + 1 }) ∧
    (f &&& (IBV_EXP_PEER_FENCE_MEM_SYS ||| IBV_EXP_PEER_FENCE_MEM_PEER)
        = IBV_EXP_PEER_FENCE_MEM_SYS →
      gds_post_op c post_flags u (.FENCE f) s =
        { s with
          params := setSlot s.params s.idx { s.params s.idx with
            operation := .MEMORY_BARRIER,
            memoryBarrier := { flags := CU_STREAM_MEMORY_BARRIER_SYS } },
          retcode := 0,
          idx := s.idx + 1 }) ∧
    (f &&& (IBV_EXP_PEER_FENCE_MEM_SYS ||| IBV_EXP_PEER_FENCE_MEM_PEER)
        ≠ IBV_EXP_PEER_FENCE_MEM_PEER →
      f &&& (IBV_EXP_PEER_FENCE_MEM_SYS ||| IBV_EXP_PEER_FENCE_MEM_PEER)
        ≠ IBV_EXP_PEER_FENCE_MEM_SYS →
      gds_post_op c post_flags u (.FENCE f) s = { s with retcode := EINVAL }) := by
  have hb := has_membar_of_enable_membar hm
  have hstep := fence_membar c post_flags u f s hr hm
  have hnf : ¬ (f &&& (IBV_EXP_PEER_FENCE_FROM_CPU ||| IBV_EXP_PEER_FENCE_FROM_HCA)
      ≠ IBV_EXP_PEER_FENCE_FROM_HCA) := not_not.mpr hf
  rw [if_neg hnf] at hstep
  have e1 : (32 &&& 16 : Nat) = 0 := by decide
  have e2 : (32 &&& 32 : Nat) = 32 := by decide
  have e3 : (64 &&& 16 : Nat) = 0 := by decide
  have e4 : (64 &&& 32 : Nat) = 0 := by decide
  have e5 : (64 &&& 64 : Nat) = 64 := by decide
  refine ⟨?_, ?_, ?_⟩
  · intro hp
    rw [hstep, if_pos hp]
    simp [St.emit, gds_fill_membar, hb, GDS_MEMBAR_DEFAULT, GDS_MEMBAR_FLUSH_REMOTE, e1, e2]
  · intro hsys
    have hnp : ¬ (f &&& (IBV_EXP_PEER_FENCE_MEM_SYS ||| IBV_EXP_PEER_FENCE_MEM_PEER)
        = IBV_EXP_PEER_FENCE_MEM_PEER) := by
      rw [hsys]; decide
    rw [hstep, if_neg hnp, if_pos hsys]
    simp [St.emit, gds_fill_membar, hb, GDS_MEMBAR_SYS, GDS_MEMBAR_DEFAULT,
      GDS_MEMBAR_FLUSH_REMOTE, e3, e4, e5]
  · intro hnp hns
    rw [hstep, if_neg hnp, if_neg hns]

/-- Witness for C22: in the memory-barrier build the fence
`WRITE | FROM_HCA | MEM_PEER` alone makes `gds_post_ops` write one
`MEMORY_BARRIER` of scope `DEFAULT`. -/
theorem write_fence_from_hca_emits_one_membar_witness :
    gds_post_op Ctx.membar 0 false (.FENCE 42)
        { idx := 0, params := Params.zero, prev_was_fence := false, retcode := 0,
          aborted := false } =
      { idx := 1,
        params := setSlot Params.zero 0 { Params.zero 0 with
          operation := .MEMORY_BARRIER,
          memoryBarrier := { flags := CU_STREAM_MEMORY_BARRIER_DEFAULT } },
        prev_was_fence := false, retcode := 0, aborted := false } :=
  (write_fence_from_hca_emits_one_membar Ctx.membar 0 false 42
    { idx := 0, params := Params.zero, prev_was_fence := false, retcode := 0, aborted := false }
    (by decide) (by decide) (by decide)).1 (by decide)
theorem use_inlcpy_membar_off {b : Build} {e : Env} (h : use_inlcpy_for_dword b e = true) :
    gds_enable_membar b e = false := by
  rw [use_inlcpy_for_dword_eq] at h
  cases hm : gds_enable_membar b e
  · rfl
  · simp [hm] at h

theorem enable_barrier_of_copy {b : Build} {p : CUstreamBatchMemOpParams}
    (hb : b.GDS_HAS_INLINE_COPY = true) (hp : p.operation = .INLINE_COPY) :
    gds_enable_barrier_for_inlcpy b p = some (with_barrier p) := by
  unfold gds_enable_barrier_for_inlcpy
  rw [if_pos hb, if_neg (not_not.mpr hp)]
  rfl

theorem enable_barrier_of_other {b : Build} {p : CUstreamBatchMemOpParams}
    (hb : b.GDS_HAS_INLINE_COPY = true) (hp : p.operation ≠ .INLINE_COPY) :
    gds_enable_barrier_for_inlcpy b p = none := by
  unfold gds_enable_barrier_for_inlcpy
  simp only [hb, if_true, if_pos hp]

/-- C23 (as amended): in emit-narrow-as-copy mode (which implies that the
memory barrier is not enabled), one iteration of `gds_post_ops` on a
write-direction fence met when the cursor is `0`, or when the slot just below
the cursor is not an `INLINE_COPY`, fails an assertion (`assert(idx-1 >= 0)`,
or the one of `gds_enable_barrier_for_inlcpy`): the process aborts, `retcode`,
cursor and array are as they were, and no `EINVAL` is returned. -/
theorem write_fence_without_copy_below_aborts (c : Ctx) (post_flags : Nat) (f : Nat) (s : St)
    (hu : use_inlcpy_for_dword c.build c.env = true)
    (hr : f &&& (IBV_EXP_PEER_FENCE_OP_READ ||| IBV_EXP_PEER_FENCE_OP_WRITE)
      ≠ IBV_EXP_PEER_FENCE_OP_READ)
    (hno : s.idx = 0 ∨ (s.params (s.idx - 1)).operation ≠ .INLINE_COPY) :
    gds_enable_membar c.build c.env = false ∧
    gds_post_op c post_flags (use_inlcpy_for_dword c.build c.env) (.FENCE f) s
      = { s with aborted := true } := by
  have hm := use_inlcpy_membar_off hu
  have hb := has_inline_copy_of_use_inlcpy hu
  refine ⟨hm, ?_⟩
  rw [hu, fence_patch c post_flags f s hr hm]
  by_cases h0 : s.idx ≥ 1
  · rcases hno with h | h
    · omega
    · rw [if_neg (not_not.mpr h0), enable_barrier_of_other hb h]
  · rw [if_pos h0]

/-- Witness for C23 (as amended): in the inline-copy build a write fence met
at cursor `0` aborts the process. -/
theorem write_fence_without_copy_below_aborts_witness :
    gds_post_op Ctx.inlcpy 0 (use_inlcpy_for_dword Ctx.inlcpy.build Ctx.inlcpy.env) (.FENCE 42)
        { idx := 0, params := Params.zero, prev_was_fence := false, retcode := 0,
          aborted := false } =
      { idx := 0, params := Params.zero, prev_was_fence := false, retcode := 0,
        aborted := true } :=
  (write_fence_without_copy_below_aborts Ctx.inlcpy 0 42
    { idx := 0, params := Params.zero, prev_was_fence := false, retcode := 0, aborted := false }
    (by decide) (by decide) (Or.inl rfl)).2

/-- Counterexample to C23 as stated: in the inline-copy build (emit-narrow-as-
copy mode, memory barrier not enabled) `gds_post_ops` on the single write fence
`WRITE | FROM_HCA | MEM_PEER`, entered with cursor `0`, does not return
`EINVAL`: it aborts in `assert(idx-1 >= 0)`.  The same happens at cursor `1`
when slot `0` is not an `INLINE_COPY`. -/
theorem write_fence_at_cursor_zero_does_not_return_einval :
    use_inlcpy_for_dword Ctx.inlcpy.build Ctx.inlcpy.env = true ∧
    gds_enable_membar Ctx.inlcpy.build Ctx.inlcpy.env = false ∧
    ¬ ((gds_post_ops Ctx.inlcpy 1 [.FENCE 42] Params.zero 0 0).aborted = false ∧
       (gds_post_ops Ctx.inlcpy 1 [.FENCE 42] Params.zero 0 0).retcode = EINVAL) ∧
    (gds_post_ops Ctx.inlcpy 1 [.FENCE 42] Params.zero 0 0).aborted = true ∧
    (gds_post_ops Ctx.inlcpy 1 [.FENCE 42] Params.zero 1 0).aborted = true := by
  decide

theorem with_barrier_bit_clear (p : CUstreamBatchMemOpParams) :
    (with_barrier p).inlineCopy.flags &&& CU_STREAM_INLINE_COPY_NO_MEMORY_BARRIER = 0 := by
  have e : ((0xFFFFFFFF ^^^ CU_STREAM_INLINE_COPY_NO_MEMORY_BARRIER) &&&
      CU_STREAM_INLINE_COPY_NO_MEMORY_BARRIER : Nat) = 0 := by decide
  show p.inlineCopy.flags &&& (0xFFFFFFFF ^^^ CU_STREAM_INLINE_COPY_NO_MEMORY_BARRIER) &&&
    CU_STREAM_INLINE_COPY_NO_MEMORY_BARRIER = 0
  rw [Nat.and_assoc, e, Nat.and_zero]

/-- C24: in emit-narrow-as-copy mode (which implies that the memory barrier is
not enabled), one iteration of `gds_post_ops` on a write-direction fence met
when the slot just below the cursor is an `INLINE_COPY` replaces that slot by
itself with the no-memory-barrier bit of `inlineCopy.flags` cleared, and
changes nothing else: the slot stays an `INLINE_COPY` with the same address,
source and byte count, every other slot, the cursor, `retcode` and the abort
state are as they were.  A second write-direction fence met right after leaves
the state as the first one left it. -/
theorem write_fence_patches_only_copy_flags (c : Ctx) (post_flags : Nat) (f f2 : Nat) (s : St)
    (hu : use_inlcpy_for_dword c.build c.env = true)
    (hr : f &&& (IBV_EXP_PEER_FENCE_OP_READ ||| IBV_EXP_PEER_FENCE_OP_WRITE)
      ≠ IBV_EXP_PEER_FENCE_OP_READ)
    (hr2 : f2 &&& (IBV_EXP_PEER_FENCE_OP_READ ||| IBV_EXP_PEER_FENCE_OP_WRITE)
      ≠ IBV_EXP_PEER_FENCE_OP_READ)
    (hidx : 1 ≤ s.idx)
    (hcopy : (s.params (s.idx - 1)).operation = .INLINE_COPY) :
    gds_enable_membar c.build c.env = false ∧
    gds_post_op c post_flags (use_inlcpy_for_dword c.build c.env) (.FENCE f) s
      = { s with params := setSlot s.params (s.idx - 1) (with_barrier (s.params (s.idx - 1))) } ∧
    (with_barrier (s.params (s.idx - 1))).operation = .INLINE_COPY ∧
    (with_barrier (s.params (s.idx - 1))).inlineCopy.address
      = (s.params (s.idx - 1)).inlineCopy.address ∧
    (with_barrier (s.params (s.idx - 1))).inlineCopy.srcData
      = (s.params (s.idx - 1)).inlineCopy.srcData ∧
    (with_barrier (s.params (s.idx - 1))).inlineCopy.byteCount
      = (s.params (s.idx - 1)).inlineCopy.byteCount ∧
    (with_barrier (s.params (s.idx - 1))).inlineCopy.flags
      = (s.params (s.idx - 1)).inlineCopy.flags
          &&& (0xFFFFFFFF ^^^ CU_STREAM_INLINE_COPY_NO_MEMORY_BARRIER) ∧
    (with_barrier (s.params (s.idx - 1))).inlineCopy.flags
      &&& CU_STREAM_INLINE_COPY_NO_MEMORY_BARRIER = 0 ∧
    (∀ j, j ≠ s.idx - 1 →
      (gds_post_op c post_flags (use_inlcpy_for_dword c.build c.env) (.FENCE f) s).params j
        = s.params j) ∧
    gds_post_op c post_flags (use_inlcpy_for_dword c.build c.env) (.FENCE f2)
        (gds_post_op c post_flags (use_inlcpy_for_dword c.build c.env) (.FENCE f) s)
      = gds_post_op c post_flags (use_inlcpy_for_dword c.build c.env) (.FENCE f) s := by
  have hm := use_inlcpy_membar_off hu
  have hb := has_inline_copy_of_use_inlcpy hu
  have hpatch : ∀ (g : Nat) (t : St),
      g &&& (IBV_EXP_PEER_FENCE_OP_READ ||| IBV_EXP_PEER_FENCE_OP_WRITE)
        ≠ IBV_EXP_PEER_FENCE_OP_READ → 1 ≤ t.idx →
      (t.params (t.idx - 1)).operation = .INLINE_COPY →
      gds_post_op c post_flags (use_inlcpy_for_dword c.build c.env) (.FENCE g) t
        = { t with params := setSlot t.params (t.idx - 1) (with_barrier (t.params (t.idx - 1))) } := by
    intro g t hg ht hc
    rw [hu, fence_patch c post_flags g t hg hm, if_neg (not_not.mpr ht),
      enable_barrier_of_copy hb hc]
  have h1 := hpatch f s hr hidx hcopy
  refine ⟨hm, h1, hcopy, rfl, rfl, rfl, rfl, with_barrier_bit_clear _, ?_, ?_⟩
  · intro j hj
    rw [h1]
    exact setSlot_ne _ _ hj
  · rw [h1]
    have h2 := hpatch f2
      { s with params := setSlot s.params (s.idx - 1) (with_barrier (s.params (s.idx - 1))) }
      hr2 hidx (by simp only [setSlot_same]; exact hcopy)
    rw [h2]
    simp only [setSlot_same, with_barrier_idem]
    congr 1
    funext j
    by_cases hj : j = s.idx - 1
    · subst hj; simp only [setSlot_same]
    · rw [setSlot_ne _ _ hj, setSlot_ne _ _ hj]

/-- Witness for C24: in the inline-copy build, a StoreNarrow followed by two
write fences: the second fence changes nothing. -/
theorem write_fence_patches_only_copy_flags_witness :
    gds_post_op Ctx.inlcpy 0 (use_inlcpy_for_dword Ctx.inlcpy.build Ctx.inlcpy.env) (.FENCE 42)
        (gds_post_op Ctx.inlcpy 0 (use_inlcpy_for_dword Ctx.inlcpy.build Ctx.inlcpy.env)
          (.FENCE 42)
          (gds_post_op Ctx.inlcpy 0 (use_inlcpy_for_dword Ctx.inlcpy.build Ctx.inlcpy.env)
            (.STORE_DWORD 5 4096 0)
            { idx := 0, params := Params.zero, prev_was_fence := false, retcode := 0,
              aborted := false })) =
      gds_post_op Ctx.inlcpy 0 (use_inlcpy_for_dword Ctx.inlcpy.build Ctx.inlcpy.env) (.FENCE 42)
        (gds_post_op Ctx.inlcpy 0 (use_inlcpy_for_dword Ctx.inlcpy.build Ctx.inlcpy.env)
          (.STORE_DWORD 5 4096 0)
          { idx := 0, params := Params.zero, prev_was_fence := false, retcode := 0,
            aborted := false }) :=
  (write_fence_patches_only_copy_flags Ctx.inlcpy 0 42 42
    (gds_post_op Ctx.inlcpy 0 (use_inlcpy_for_dword Ctx.inlcpy.build Ctx.inlcpy.env)
      (.STORE_DWORD 5 4096 0)
      { idx := 0, params := Params.zero, prev_was_fence := false, retcode := 0,
        aborted := false })
    (by decide) (by decide) (by decide) (by decide) (by decide)).2.2.2.2.2.2.2.2.2

theorem gds_post_ops_loop_stops (c : Ctx) (pf : Nat) (u : Bool) :
    ∀ (l1 l2 : List peer_op_wr) (n : Nat) (s : St), s.live = true →
      (gds_post_ops_loop c pf u l1.length l1 s).live = false →
      gds_post_ops_loop c pf u (l1.length + n) (l1 ++ l2) s =
        gds_post_ops_loop c pf u l1.length l1 s := by
  intro l1
  induction l1 with
  | nil =>
    intro l2 n s hs h
    simp only [List.length_nil, gds_post_ops_loop] at h
    rw [hs] at h
    exact absurd h (by decide)
  | cons op l1 ih =>
    intro l2 n s hs h
    have e : (op :: l1).length + n = (l1.length + n) + 1 := by
      simp only [List.length_cons]; omega
    rw [e, List.cons_append]
    simp only [List.length_cons, gds_post_ops_loop] at h ⊢
    by_cases hc : ((gds_post_op c pf u op s).aborted || (gds_post_op c pf u op s).retcode != 0)
        = true
    · simp only [if_pos hc]
    · simp only [if_neg hc] at h ⊢
      have hl : (gds_post_op c pf u op s).live = true := by
        rw [st_live_iff]
        simpa using hc
      exact ih l2 n _ hl h

theorem gds_post_ops_loop_one (c : Ctx) (pf : Nat) (u : Bool) (op : peer_op_wr) (s : St) :
    gds_post_ops_loop c pf u 1 [op] s = gds_post_op c pf u op s := by
  simp only [gds_post_ops_loop]
  split_ifs <;> rfl

theorem gds_post_ops_loop_snoc (c : Ctx) (pf : Nat) (u : Bool) (pre : List peer_op_wr)
    (op : peer_op_wr) (s : St) (hs : s.live = true)
    (h : (gds_post_ops_loop c pf u (pre.length + 1) (pre ++ [op]) s).live = true) :
    (gds_post_ops_loop c pf u pre.length pre s).live = true ∧
    gds_post_ops_loop c pf u (pre.length + 1) (pre ++ [op]) s =
      gds_post_op c pf u op (gds_post_ops_loop c pf u pre.length pre s) := by
  cases hl : (gds_post_ops_loop c pf u pre.length pre s).live with
  | false =>
    rw [gds_post_ops_loop_stops c pf u pre [op] 1 s hs hl, hl] at h
    exact absurd h (by decide)
  | true =>
    refine ⟨rfl, ?_⟩
    rw [gds_post_ops_loop_append c pf u pre [op] 1 s hl, gds_post_ops_loop_one]

theorem emit_opt_prev (t : St) (r : Option (Int × CUstreamBatchMemOpParams)) :
    (t.emit? r).prev_was_fence = t.prev_was_fence := by
  cases r <;> rfl

theorem step_pending (c : Ctx) (pf : Nat) (op : peer_op_wr) (s : St)
    (hm : gds_enable_membar c.build c.env = false)
    (hi : gds_enable_inlcpy c.build c.env = false)
    (hs : gds_simulate_write64 c.build c.env = false)
    (h : (gds_post_op c pf false op s).live = true) :
    (gds_post_op c pf false op s).prev_was_fence =
      (if op.isWriteFence then true else if op.isStore then false else s.prev_was_fence) := by
  cases op with
  | FENCE f =>
    by_cases hr : f &&& (IBV_EXP_PEER_FENCE_OP_READ ||| IBV_EXP_PEER_FENCE_OP_WRITE)
        = IBV_EXP_PEER_FENCE_OP_READ
    · rw [fence_read c pf false f s hr]
      simp [peer_op_wr.isWriteFence, peer_op_wr.isStore, hr]
    · rw [fence_record c pf f s hr hm]
      simp [peer_op_wr.isWriteFence, hr]
  | STORE_DWORD d t o =>
    unfold gds_post_op
    simp only [hi, hm, Bool.false_eq_true, if_false, Bool.false_and,
      peer_op_wr.isWriteFence, peer_op_wr.isStore, if_true]
    rw [emit_opt_prev]
    split_ifs with hp
    · rfl
    · simpa using hp
  | STORE_QWORD d t o =>
    unfold gds_post_op
    simp only [hs, gds_enable_write64, Bool.false_eq_true, if_false,
      peer_op_wr.isWriteFence, peer_op_wr.isStore, if_true]
    split_ifs with hp ha ha
    · rw [emit_opt_prev]
    · rw [emit_opt_prev, emit_opt_prev]
    · rw [emit_opt_prev]; simpa using hp
    · rw [emit_opt_prev, emit_opt_prev]; simpa using hp
  | COPY_BLOCK src len t o =>
    unfold gds_post_op at h
    simp [hi, St.live, EINVAL] at h
  | POLL_AND_DWORD d t o =>
    unfold gds_post_op
    simp only
    rw [emit_opt_prev]
    simp [peer_op_wr.isWriteFence, peer_op_wr.isStore]
  | POLL_GEQ_DWORD d t o =>
    unfold gds_post_op
    simp only
    rw [emit_opt_prev]
    simp [peer_op_wr.isWriteFence, peer_op_wr.isStore]
  | POLL_NOR_DWORD d t o =>
    unfold gds_post_op at h
    simp [gpu_does_support_nor, St.live] at h
  | UNDEFINED t =>
    unfold gds_post_op at h
    simp [St.live, EINVAL] at h
theorem loop_pending (c : Ctx) (pf : Nat)
    (hm : gds_enable_membar c.build c.env = false)
    (hi : gds_enable_inlcpy c.build c.env = false)
    (hs : gds_simulate_write64 c.build c.env = false) :
    ∀ (pre : List peer_op_wr) (s : St),
      (gds_post_ops_loop c pf false pre.length pre s).live = true →
      (gds_post_ops_loop c pf false pre.length pre s).prev_was_fence =
        pre.foldl (fun pending op => if op.isWriteFence then true
          else if op.isStore then false else pending) s.prev_was_fence := by
  intro pre
  induction pre with
  | nil => intro s _; rfl
  | cons op pre ih =>
    intro s h
    simp only [List.length_cons, gds_post_ops_loop, List.foldl_cons] at h ⊢
    by_cases hc : ((gds_post_op c pf false op s).aborted ||
        (gds_post_op c pf false op s).retcode != 0) = true
    · rw [if_pos hc] at h
      rw [st_live_iff] at h
      simp [h.1, h.2] at hc
    · simp only [if_neg hc] at h ⊢
      have hl : (gds_post_op c pf false op s).live = true := by
        rw [st_live_iff]; simpa using hc
      rw [ih _ h, step_pending c pf op s hm hi hs hl]

theorem fold_without_fence (mid : List peer_op_wr) (hmid : ∀ x ∈ mid, x.isWriteFence = false) :
    mid.foldl (fun pending op => if op.isWriteFence then true
      else if op.isStore then false else pending) false = false := by
  induction mid with
  | nil => rfl
  | cons x mid ih =>
    have hx := hmid x (List.mem_cons_self _ _)
    have hrest : ∀ y ∈ mid, y.isWriteFence = false :=
      fun y hy => hmid y (List.mem_cons_of_mem _ hy)
    simp only [List.foldl_cons, hx, Bool.false_eq_true, if_false, ite_self]
    exact ih hrest

theorem fold_without_store (mid : List peer_op_wr) (hmid : ∀ x ∈ mid, x.isStore = false) :
    mid.foldl (fun pending op => if op.isWriteFence then true
      else if op.isStore then false else pending) true = true := by
  induction mid with
  | nil => rfl
  | cons x mid ih =>
    have hx := hmid x (List.mem_cons_self _ _)
    have hrest : ∀ y ∈ mid, y.isStore = false :=
      fun y hy => hmid y (List.mem_cons_of_mem _ hy)
    simp only [List.foldl_cons, hx, Bool.false_eq_true, if_false, ite_self]
    exact ih hrest

theorem spec_pendingFence_after_store (a mid : List peer_op_wr) (st : peer_op_wr)
    (hst : st.isStore = true) (hmid : ∀ x ∈ mid, x.isWriteFence = false) :
    spec_pendingFence (a ++ st :: mid) = false := by
  have hnf : st.isWriteFence = false := by
    cases st <;> simp_all [peer_op_wr.isStore, peer_op_wr.isWriteFence]
  unfold spec_pendingFence
  rw [List.foldl_append, List.foldl_cons]
  simp only [hnf, hst, Bool.false_eq_true, if_false, if_true]
  exact fold_without_fence mid hmid

theorem spec_pendingFence_after_fence (a mid : List peer_op_wr) (fe : peer_op_wr)
    (hfe : fe.isWriteFence = true) (hmid : ∀ x ∈ mid, x.isStore = false) :
    spec_pendingFence (a ++ fe :: mid) = true := by
  unfold spec_pendingFence
  rw [List.foldl_append, List.foldl_cons]
  simp only [hfe, if_true]
  exact fold_without_store mid hmid

theorem spec_pendingFence_no_fence (pre : List peer_op_wr)
    (hpre : ∀ x ∈ pre, x.isWriteFence = false) : spec_pendingFence pre = false :=
  fold_without_fence pre hpre

theorem emit_opt_some (t : St) (r : Int × CUstreamBatchMemOpParams) :
    t.emit? (some r) = t.emit r := rfl

theorem store_step_slots (c : Ctx) (pf : Nat) (op : peer_op_wr) (s : St)
    (hm : gds_enable_membar c.build c.env = false)
    (hi : gds_enable_inlcpy c.build c.env = false)
    (hs : gds_simulate_write64 c.build c.env = false)
    (hst : op.isStore = true)
    (h : (gds_post_op c pf false op s).live = true) :
    s.idx < (gds_post_op c pf false op s).idx ∧
    ((gds_post_op c pf false op s).params s.idx).operation = .WRITE_VALUE_32 ∧
    ((gds_post_op c pf false op s).params s.idx).writeValue.flags =
      (if s.prev_was_fence then 0 else CU_STREAM_WRITE_VALUE_NO_MEMORY_BARRIER) ∧
    (op.isStoreQword = true →
      s.idx + 1 < (gds_post_op c pf false op s).idx ∧
      ((gds_post_op c pf false op s).params (s.idx + 1)).operation = .WRITE_VALUE_32 ∧
      ((gds_post_op c pf false op s).params (s.idx + 1)).writeValue.flags =
        CU_STREAM_WRITE_VALUE_NO_MEMORY_BARRIER) := by
  have e1 : (16 &&& 16 : Nat) = 16 := by decide
  have e2 : (0 &&& 16 : Nat) = 0 := by decide
  have e3 : (16 &&& 4294967279 &&& 16 : Nat) = 0 := by decide
  have e4 : (0 &&& (4294967295 ^^^ 16) &&& 16 : Nat) = 0 := by decide
  cases op with
  | STORE_DWORD d t o =>
    unfold gds_post_op at h ⊢
    simp only [hi, hm, Bool.false_eq_true, if_false, Bool.false_and] at h ⊢
    obtain ⟨q, hq, -, he⟩ := emit_opt_live h
    obtain ⟨-, -, -, hq2⟩ := fill_poke_some hq
    rw [he]
    refine ⟨by simp; split_ifs <;> simp, ?_, ?_, ?_⟩
    · have : (if s.prev_was_fence = true then
          ({ s with prev_was_fence := false } : St) else s).idx = s.idx := by
        split_ifs <;> rfl
      simp only [this, setSlot_same, hq2]
    · have : (if s.prev_was_fence = true then
          ({ s with prev_was_fence := false } : St) else s).idx = s.idx := by
        split_ifs <;> rfl
      simp only [this, setSlot_same, hq2]
      by_cases hp : s.prev_was_fence = true
      · simp [hp, GDS_POKE_POST_PRE_BARRIER, e1]
      · simp [hp, GDS_POKE_POST_PRE_BARRIER, e2, CU_STREAM_WRITE_VALUE_NO_MEMORY_BARRIER]
    · intro hq; simp [peer_op_wr.isStoreQword] at hq
  | STORE_QWORD d t o =>
    unfold gds_post_op at h ⊢
    simp only [hs, gds_enable_write64, Bool.false_eq_true, if_false] at h ⊢
    by_cases hp : s.prev_was_fence = true
    · simp only [hp, if_true] at h ⊢
      cases hq1 : gds_fill_poke (s.params s.idx) ((c.dptr t + o) % 2 ^ 64)
          (gds_qword_lo (d % 2 ^ 64)) (0 ||| GDS_POKE_POST_PRE_BARRIER) with
      | none =>
        rw [hq1] at h
        simp [St.emit?, St.live] at h
      | some r =>
        obtain ⟨rc, q1⟩ := r
        obtain ⟨hrc, -, -, hv1⟩ := fill_poke_some hq1
        rw [hq1] at h
        simp only [emit_opt_some, St.emit] at h ⊢
        by_cases hsa : s.aborted = true
        · rw [if_pos hsa] at h
          simp [St.live, hsa] at h
        · rw [if_neg hsa] at h ⊢
          obtain ⟨q2, hq2, -, he2⟩ := emit_opt_live h
          obtain ⟨-, -, -, hv2⟩ := fill_poke_some hq2
          rw [he2]
          dsimp only
          refine ⟨by omega, ?_, ?_, ?_⟩
          · rw [setSlot_ne _ _ (by omega), setSlot_same, hv1]
          · rw [setSlot_ne _ _ (by omega), setSlot_same, hv1]
            simp [GDS_POKE_POST_PRE_BARRIER, e1, CU_STREAM_WRITE_VALUE_NO_MEMORY_BARRIER]
          · intro _
            refine ⟨by omega, ?_, ?_⟩
            · rw [setSlot_same, hv2]
            · rw [setSlot_same, hv2]
              simp [GDS_POKE_POST_PRE_BARRIER, e3, CU_STREAM_WRITE_VALUE_NO_MEMORY_BARRIER]
    · simp only [hp, Bool.false_eq_true, if_false] at h ⊢
      cases hq1 : gds_fill_poke (s.params s.idx) ((c.dptr t + o) % 2 ^ 64)
          (gds_qword_lo (d % 2 ^ 64)) 0 with
      | none =>
        rw [hq1] at h
        simp [St.emit?, St.live] at h
      | some r =>
        obtain ⟨rc, q1⟩ := r
        obtain ⟨hrc, -, -, hv1⟩ := fill_poke_some hq1
        rw [hq1] at h
        simp only [emit_opt_some, St.emit] at h ⊢
        by_cases hsa : s.aborted = true
        · rw [if_pos hsa] at h
          simp [St.live, hsa] at h
        · rw [if_neg hsa] at h ⊢
          obtain ⟨q2, hq2, -, he2⟩ := emit_opt_live h
          obtain ⟨-, -, -, hv2⟩ := fill_poke_some hq2
          rw [he2]
          dsimp only
          refine ⟨by omega, ?_, ?_, ?_⟩
          · rw [setSlot_ne _ _ (by omega), setSlot_same, hv1]
          · rw [setSlot_ne _ _ (by omega), setSlot_same, hv1]
            simp [GDS_POKE_POST_PRE_BARRIER, e2, CU_STREAM_WRITE_VALUE_NO_MEMORY_BARRIER]
          · intro _
            refine ⟨by omega, ?_, ?_⟩
            · rw [setSlot_same, hv2]
            · rw [setSlot_same, hv2]
              simp [GDS_POKE_POST_PRE_BARRIER, e4, CU_STREAM_WRITE_VALUE_NO_MEMORY_BARRIER]
  | FENCE f => simp [peer_op_wr.isStore] at hst
  | COPY_BLOCK src len t o => simp [peer_op_wr.isStore] at hst
  | POLL_AND_DWORD d t o => simp [peer_op_wr.isStore] at hst
  | POLL_GEQ_DWORD d t o => simp [peer_op_wr.isStore] at hst
  | POLL_NOR_DWORD d t o => simp [peer_op_wr.isStore] at hst
  | UNDEFINED t => simp [peer_op_wr.isStore] at hst

theorem gds_post_ops_ok_iff (c : Ctx) (n_ops : Nat) (op : List peer_op_wr) (params : Params)
    (idx pf : Nat) :
    (gds_post_ops c n_ops op params idx pf).ok =
      (gds_post_ops_loop c pf (use_inlcpy_for_dword c.build c.env) n_ops op
        { idx := idx, params := params, prev_was_fence := false, retcode := 0,
          aborted := false }).live := rfl

theorem use_inlcpy_off {b : Build} {e : Env} (hi : gds_enable_inlcpy b e = false)
    (hs : gds_simulate_write64 b e = false) : use_inlcpy_for_dword b e = false := by
  rw [use_inlcpy_for_dword_eq]
  simp [hi, hs]

/-- C25: with memory-barrier, inline-copy and wide-write simulation all
disabled, let a store (StoreNarrow or StoreWide) at position `pre.length` of a
sequence be translated successfully by `gds_post_ops`.  The `WRITE_VALUE_32` it
emits first (at the cursor the prefix `pre` left) requests the pre-barrier
(flags `0`, the no-memory-barrier flag cleared) if and only if the fence is
pending after `pre`, and has the no-memory-barrier flag otherwise; the
high-word write of a StoreWide (the next slot) always has the no-memory-barrier
flag.  This is what the call leaves in those slots whatever follows the store.
The fence is pending after `pre` exactly when `pre` holds a write-direction
fence with no store after it: it is pending after a write-direction fence
followed by ops that are not stores, and not pending after a store followed by
ops that are not write-direction fences, nor when `pre` holds no
write-direction fence. -/
theorem pre_barrier_only_on_first_write_after_fence (c : Ctx) (pre post : List peer_op_wr)
    (op : peer_op_wr) (params : Params) (idx post_flags : Nat)
    (hm : gds_enable_membar c.build c.env = false)
    (hi : gds_enable_inlcpy c.build c.env = false)
    (hs : gds_simulate_write64 c.build c.env = false)
    (hst : op.isStore = true)
    (hok : (gds_post_ops c (pre.length + 1) (pre ++ [op]) params idx post_flags).ok = true) :
    ((gds_post_ops c (pre.length + (post.length + 1)) (pre ++ op :: post) params idx
        post_flags).params
      (gds_post_ops c pre.length pre params idx post_flags).idx).operation = .WRITE_VALUE_32 ∧
    (((gds_post_ops c (pre.length + (post.length + 1)) (pre ++ op :: post) params idx
        post_flags).params
      (gds_post_ops c pre.length pre params idx post_flags).idx).writeValue.flags = 0
      ↔ spec_pendingFence pre = true) ∧
    (((gds_post_ops c (pre.length + (post.length + 1)) (pre ++ op :: post) params idx
        post_flags).params
      (gds_post_ops c pre.length pre params idx post_flags).idx).writeValue.flags
        = CU_STREAM_WRITE_VALUE_NO_MEMORY_BARRIER
      ↔ spec_pendingFence pre = false) ∧
    (op.isStoreQword = true →
      ((gds_post_ops c (pre.length + (post.length + 1)) (pre ++ op :: post) params idx
          post_flags).params
        ((gds_post_ops c pre.length pre params idx post_flags).idx + 1)).operation
        = .WRITE_VALUE_32 ∧
      ((gds_post_ops c (pre.length + (post.length + 1)) (pre ++ op :: post) params idx
          post_flags).params
        ((gds_post_ops c pre.length pre params idx post_flags).idx + 1)).writeValue.flags
        = CU_STREAM_WRITE_VALUE_NO_MEMORY_BARRIER) ∧
    (∀ (a mid : List peer_op_wr) (fe : peer_op_wr), fe.isWriteFence = true →
      (∀ y ∈ mid, y.isStore = false) → spec_pendingFence (a ++ fe :: mid) = true) ∧
    (∀ (a mid : List peer_op_wr) (st : peer_op_wr), st.isStore = true →
      (∀ y ∈ mid, y.isWriteFence = false) → spec_pendingFence (a ++ st :: mid) = false) ∧
    ((∀ y ∈ pre, y.isWriteFence = false) → spec_pendingFence pre = false) := by
  have hu := use_inlcpy_off hi hs
  have hs0 : St.live
      { idx := idx, params := params, prev_was_fence := false, retcode := 0,
        aborted := false } = true := rfl
  rw [gds_post_ops_ok_iff, hu] at hok
  obtain ⟨hprelive, hsnoc⟩ := gds_post_ops_loop_snoc c post_flags false pre op _ hs0 hok
  rw [hsnoc] at hok
  have hpend := loop_pending c post_flags hm hi hs pre _ hprelive
  obtain ⟨hlt, hop1, hfl1, hq⟩ := store_step_slots c post_flags op _ hm hi hs hst hok
  -- the slots below the cursor after the store are not touched by what follows
  have hkeep : ∀ j, j < (gds_post_op c post_flags false op
        (gds_post_ops_loop c post_flags false pre.length pre
          { idx := idx, params := params, prev_was_fence := false, retcode := 0,
            aborted := false })).idx →
      (gds_post_ops c (pre.length + (post.length + 1)) (pre ++ op :: post) params idx
          post_flags).params j
        = (gds_post_op c post_flags false op
            (gds_post_ops_loop c post_flags false pre.length pre
              { idx := idx, params := params, prev_was_fence := false, retcode := 0,
                aborted := false })).params j := by
    intro j hj
    unfold gds_post_ops
    simp only [hu]
    rw [gds_post_ops_loop_append c post_flags false pre (op :: post) (post.length + 1) _ hprelive]
    simp only [gds_post_ops_loop]
    have hnf : ¬ (((gds_post_op c post_flags false op
        (gds_post_ops_loop c post_flags false pre.length pre
          { idx := idx, params := params, prev_was_fence := false, retcode := 0,
            aborted := false })).aborted ||
        (gds_post_op c post_flags false op
        (gds_post_ops_loop c post_flags false pre.length pre
          { idx := idx, params := params, prev_was_fence := false, retcode := 0,
            aborted := false })).retcode != 0) = true) := by
      have := (st_live_iff _).mp hok
      simp [this.1, this.2]
    rw [if_neg hnf]
    rcases gds_post_ops_loop_below c post_flags false _ _ post.length post _ (le_refl _)
      (fun j _ => Or.inl rfl) j hj with h | ⟨h, -, -⟩
    · exact h
    · exact absurd h (by decide)
  have hk : (gds_post_ops c pre.length pre params idx post_flags).idx =
      (gds_post_ops_loop c post_flags false pre.length pre
        { idx := idx, params := params, prev_was_fence := false, retcode := 0,
          aborted := false }).idx := by
    unfold gds_post_ops
    simp only [hu]
  have hspec : (gds_post_ops_loop c post_flags false pre.length pre
        { idx := idx, params := params, prev_was_fence := false, retcode := 0,
          aborted := false }).prev_was_fence = spec_pendingFence pre := hpend
  rw [hk]
  rw [hspec] at hfl1
  refine ⟨?_, ?_, ?_, ?_, spec_pendingFence_after_fence, spec_pendingFence_after_store,
    spec_pendingFence_no_fence pre⟩
  · rw [hkeep _ hlt]; exact hop1
  · rw [hkeep _ hlt, hfl1]
    cases spec_pendingFence pre <;> simp [CU_STREAM_WRITE_VALUE_NO_MEMORY_BARRIER]
  · rw [hkeep _ hlt, hfl1]
    cases spec_pendingFence pre <;> simp [CU_STREAM_WRITE_VALUE_NO_MEMORY_BARRIER]
  · intro hqw
    obtain ⟨hlt2, hop2, hfl2⟩ := hq hqw
    rw [hkeep _ hlt2]
    exact ⟨hop2, hfl2⟩

/-- Witness for C25: in the plain build, a write fence, a poll and then a
StoreWide followed by a StoreNarrow: the low-word write requests the
pre-barrier, the high-word write does not. -/
theorem pre_barrier_only_on_first_write_after_fence_witness :
    ((gds_post_ops Ctx.plain (2 + (1 + 1))
        ([.FENCE 42, .POLL_GEQ_DWORD 1 8192 0] ++ .STORE_QWORD 7 4096 0 ::
          [.STORE_DWORD 1 4104 0]) Params.zero 0 0).params
      (gds_post_ops Ctx.plain 2 [.FENCE 42, .POLL_GEQ_DWORD 1 8192 0] Params.zero 0
        0).idx).writeValue.flags = 0 ∧
    ((gds_post_ops Ctx.plain (2 + (1 + 1))
        ([.FENCE 42, .POLL_GEQ_DWORD 1 8192 0] ++ .STORE_QWORD 7 4096 0 ::
          [.STORE_DWORD 1 4104 0]) Params.zero 0 0).params
      ((gds_post_ops Ctx.plain 2 [.FENCE 42, .POLL_GEQ_DWORD 1 8192 0] Params.zero 0
        0).idx + 1)).writeValue.flags = CU_STREAM_WRITE_VALUE_NO_MEMORY_BARRIER :=
  ⟨(pre_barrier_only_on_first_write_after_fence Ctx.plain [.FENCE 42, .POLL_GEQ_DWORD 1 8192 0]
      [.STORE_DWORD 1 4104 0] (.STORE_QWORD 7 4096 0) Params.zero 0 0
      (by decide) (by decide) (by decide) (by decide) (by decide)).2.1.mpr (by decide),
   ((pre_barrier_only_on_first_write_after_fence Ctx.plain [.FENCE 42, .POLL_GEQ_DWORD 1 8192 0]
      [.STORE_DWORD 1 4104 0] (.STORE_QWORD 7 4096 0) Params.zero 0 0
      (by decide) (by decide) (by decide) (by decide) (by decide)).2.2.2.1 (by decide)).2⟩

theorem fill_inlcpy_null {b : Build} (p : CUstreamBatchMemOpParams) (d : SrcData) (n f : Nat)
    (hb : b.GDS_HAS_INLINE_COPY = true) : gds_fill_inlcpy b p 0 d n f = none := by
  unfold gds_fill_inlcpy
  simp [hb]

/-- C26 (as amended): with wide-write simulation enabled, one iteration of
`gds_post_ops` on a StoreWide sets `retcode` to `EINVAL` and leaves cursor and
array as they were when the memory barrier is not enabled.  When it is enabled
and the target address is non-null, it writes at the cursor exactly one
`INLINE_COPY` of 8 bytes at the target address (source: the local copy of the
64-bit value, no post-barrier), advances the cursor by one and sets `retcode`
to `0`; for the null address `assert(addr)` fails and nothing is written. -/
theorem simulated_wide_store_lowers_to_one_copy (c : Ctx) (post_flags : Nat) (u : Bool)
    (d target_id offset A : Nat) (s : St)
    (hs : gds_simulate_write64 c.build c.env = true)
    (hA : (c.dptr target_id + offset) % 2 ^ 64 = A) :
    (gds_enable_membar c.build c.env = false →
      gds_post_op c post_flags u (.STORE_QWORD d target_id offset) s
        = { s with retcode := EINVAL }) ∧
    (gds_enable_membar c.build c.env = true → A ≠ 0 →
      gds_post_op c post_flags u (.STORE_QWORD d target_id offset) s =
        { s with
          params := setSlot s.params s.idx { s.params s.idx with
            operation := .INLINE_COPY,
            inlineCopy := {
              address := A,
              srcData := .addr_of_local (d % 2 ^ 64),
              byteCount := 8,
              flags := CU_STREAM_INLINE_COPY_NO_MEMORY_BARRIER } },
          retcode := 0,
          idx := s.idx + 1 }) ∧
    (gds_enable_membar c.build c.env = true → A = 0 →
      gds_post_op c post_flags u (.STORE_QWORD d target_id offset) s
        = { s with aborted := true }) := by
  have hb := has_inline_copy_of_simulate_write64 hs
  have e1 : (0 &&& 16 : Nat) = 0 := by decide
  refine ⟨?_, ?_, ?_⟩
  · intro hm
    unfold gds_post_op
    simp [hs, hm, gds_enable_write64]
  · intro hm hA0
    unfold gds_post_op
    simp only [hs, hm, hA, gds_enable_write64, Bool.false_eq_true, if_false, if_true,
      Bool.not_true]
    rw [fill_inlcpy_ok _ _ _ hb hA0 (by decide)]
    simp [St.emit?, St.emit, GDS_IMMCOPY_POST_TAIL_FLUSH, e1]
  · intro hm hA0
    subst hA0
    unfold gds_post_op
    simp only [hs, hm, hA, gds_enable_write64, Bool.false_eq_true, if_false, if_true,
      Bool.not_true]
    rw [fill_inlcpy_null _ _ _ _ hb]
    rfl

/-- Witness for C26 (as amended): simulated wide writes with the memory
barrier enabled, a StoreWide of `7` at `0x1000`. -/
theorem simulated_wide_store_lowers_to_one_copy_witness :
    gds_post_op Ctx.simulate 0 false (.STORE_QWORD 7 4096 0)
        { idx := 0, params := Params.zero, prev_was_fence := false, retcode := 0,
          aborted := false } =
      { idx := 1,
        params := setSlot Params.zero 0 { Params.zero 0 with
          operation := .INLINE_COPY,
          inlineCopy := {
            address := 4096,
            srcData := .addr_of_local (7 % 2 ^ 64),
            byteCount := 8,
            flags := CU_STREAM_INLINE_COPY_NO_MEMORY_BARRIER } },
        prev_was_fence := false, retcode := 0, aborted := false } :=
  (simulated_wide_store_lowers_to_one_copy Ctx.simulate 0 false 7 4096 0 4096
    { idx := 0, params := Params.zero, prev_was_fence := false, retcode := 0, aborted := false }
    (by decide) (by decide)).2.1 (by decide) (by decide)

/-- Counterexample to C26 as stated: with wide-write simulation and the memory
barrier both enabled, a StoreWide whose target address is `0` trips
`assert(addr)` in `gds_fill_inlcpy`: the process aborts and no `INLINE_COPY` is
emitted (the cursor stays at `0`). -/
theorem simulated_wide_store_at_null_aborts :
    gds_simulate_write64 Ctx.simulate.build Ctx.simulate.env = true ∧
    gds_enable_membar Ctx.simulate.build Ctx.simulate.env = true ∧
    (gds_post_ops Ctx.simulate 1 [.STORE_QWORD 7 0 0] Params.zero 0 0).aborted = true ∧
    (gds_post_ops Ctx.simulate 1 [.STORE_QWORD 7 0 0] Params.zero 0 0).idx = 0 ∧
    ((gds_post_ops Ctx.simulate 1 [.STORE_QWORD 7 0 0] Params.zero 0 0).params 0).operation
      ≠ .INLINE_COPY := by
  decide

/-- C27 (as amended): one iteration of `gds_post_ops` on a CopyBlock sets
`retcode` to `EINVAL` and leaves cursor and array as they were when inline-copy
is not enabled.  When it is enabled, the length is in `1..256` and the resolved
target address is non-null, it writes at the cursor exactly one `INLINE_COPY`
carrying the resolved address, the op's source pointer and its length, with no
post-barrier requested (the no-memory-barrier flag set), advances the cursor by
one and sets `retcode` to `0`; for the null address `assert(addr)` fails and
nothing is written. -/
theorem copy_block_lowers_to_one_inline_copy (c : Ctx) (post_flags : Nat) (u : Bool)
    (src len target_id offset A : Nat) (s : St)
    (hA : (c.dptr target_id + offset) % 2 ^ 64 = A) :
    (gds_enable_inlcpy c.build c.env = false →
      gds_post_op c post_flags u (.COPY_BLOCK src len target_id offset) s
        = { s with retcode := EINVAL }) ∧
    (gds_enable_inlcpy c.build c.env = true → 1 ≤ len → len ≤ GDS_GPU_MAX_INLINE_SIZE →
      A ≠ 0 →
      gds_post_op c post_flags u (.COPY_BLOCK src len target_id offset) s =
        { s with
          params := setSlot s.params s.idx { s.params s.idx with
            operation := .INLINE_COPY,
            inlineCopy := {
              address := A,
              srcData := .ptr src,
              byteCount := len,
              flags := CU_STREAM_INLINE_COPY_NO_MEMORY_BARRIER } },
          retcode := 0,
          idx := s.idx + 1 }) ∧
    (gds_enable_inlcpy c.build c.env = true → len ≤ GDS_GPU_MAX_INLINE_SIZE → A = 0 →
      gds_post_op c post_flags u (.COPY_BLOCK src len target_id offset) s
        = { s with aborted := true }) := by
  have e1 : (0 &&& 16 : Nat) = 0 := by decide
  refine ⟨?_, ?_, ?_⟩
  · intro hi
    unfold gds_post_op
    simp [hi]
  · intro hi h1 h256 hA0
    have hb := has_inline_copy_of_enable_inlcpy hi
    unfold gds_post_op
    simp only [hi, hA, Bool.not_true, Bool.false_eq_true, if_false, not_not.mpr h256]
    rw [fill_inlcpy_ok _ _ _ hb hA0 (by omega)]
    simp [St.emit?, St.emit, GDS_IMMCOPY_POST_TAIL_FLUSH, e1]
  · intro hi h256 hA0
    subst hA0
    have hb := has_inline_copy_of_enable_inlcpy hi
    unfold gds_post_op
    simp only [hi, hA, Bool.not_true, Bool.false_eq_true, if_false, not_not.mpr h256]
    rw [fill_inlcpy_null _ _ _ _ hb]
    rfl

/-- Witness for C27 (as amended): in the inline-copy build, a CopyBlock of 256
bytes at `0x2000`. -/
theorem copy_block_lowers_to_one_inline_copy_witness :
    gds_post_op Ctx.inlcpy 0 true (.COPY_BLOCK 77 256 8192 0)
        { idx := 0, params := Params.zero, prev_was_fence := false, retcode := 0,
          aborted := false } =
      { idx := 1,
        params := setSlot Params.zero 0 { Params.zero 0 with
          operation := .INLINE_COPY,
          inlineCopy := {
            address := 8192,
            srcData := .ptr 77,
            byteCount := 256,
            flags := CU_STREAM_INLINE_COPY_NO_MEMORY_BARRIER } },
        prev_was_fence := false, retcode := 0, aborted := false } :=
  (copy_block_lowers_to_one_inline_copy Ctx.inlcpy 0 true 77 256 8192 0 8192
    { idx := 0, params := Params.zero, prev_was_fence := false, retcode := 0, aborted := false }
    (by decide)).2.1 (by decide) (by decide) (by decide) (by decide)

/-- Counterexample to C27 as stated: with inline-copy enabled, a CopyBlock of
8 bytes whose resolved target address is `0` trips `assert(addr)` in
`gds_fill_inlcpy`: the process aborts and no `INLINE_COPY` is emitted. -/
theorem copy_block_at_null_address_aborts :
    gds_enable_inlcpy Ctx.inlcpy.build Ctx.inlcpy.env = true ∧
    (gds_post_ops Ctx.inlcpy 1 [.COPY_BLOCK 77 8 0 0] Params.zero 0 0).aborted = true ∧
    (gds_post_ops Ctx.inlcpy 1 [.COPY_BLOCK 77 8 0 0] Params.zero 0 0).idx = 0 ∧
    ((gds_post_ops Ctx.inlcpy 1 [.COPY_BLOCK 77 8 0 0] Params.zero 0 0).params 0).operation
      ≠ .INLINE_COPY := by
  decide
theorem fill_poll_ok (p : CUstreamBatchMemOpParams) {a : Nat} (v cnd f : Nat)
    (h0 : a ≠ 0) (h4 : a % 4 = 0)
    (hc : cnd = GDS_POLL_COND_GEQ ∨ cnd = GDS_POLL_COND_AND) :
    gds_fill_poll p a v cnd f = some (0, { p with
      operation := .WAIT_VALUE_32,
      waitValue := {
        address := a,
        value := v,
        flags := if f &&& GDS_POLL_POST_FLUSH ≠ 0 then
            (if cnd = GDS_POLL_COND_GEQ then CU_STREAM_WAIT_VALUE_GEQ
              else CU_STREAM_WAIT_VALUE_AND) ||| CU_STREAM_WAIT_VALUE_FLUSH
          else (if cnd = GDS_POLL_COND_GEQ then CU_STREAM_WAIT_VALUE_GEQ
            else CU_STREAM_WAIT_VALUE_AND) } }) := by
  unfold gds_fill_poll
  rcases hc with hc | hc <;> subst hc <;>
    simp [h0, and_three_eq_mod, h4, GDS_POLL_COND_GEQ, GDS_POLL_COND_AND, GDS_POLL_COND_EQ]

theorem fill_poll_bad_address (p : CUstreamBatchMemOpParams) {a : Nat} (v cnd f : Nat)
    (h : a = 0 ∨ a % 4 ≠ 0) : gds_fill_poll p a v cnd f = none := by
  unfold gds_fill_poll
  rcases h with h | h
  · simp [h]
  · by_cases h0 : a = 0
    · simp [h0]
    · simp [h0, and_three_eq_mod, h]

/-- C28 (as amended): one iteration of `gds_post_ops` on a PollNarrow with
condition AND or GEQ whose resolved address is non-null and 4-byte aligned
writes at the cursor exactly one `WAIT_VALUE_32` with that address, the op's
32-bit value and the op's condition (`CU_STREAM_WAIT_VALUE_AND`, respectively
`CU_STREAM_WAIT_VALUE_GEQ`), advances the cursor by one and sets `retcode` to
`0`.  The remote-flush flag `CU_STREAM_WAIT_VALUE_FLUSH` is set in its flags if
and only if `post_flags` does not contain `GDS_POST_OPS_DISCARD_WAIT_FLUSH`.
For a null or misaligned address an assertion of `gds_fill_poll` fails and
nothing is written. -/
theorem poll_lowers_to_one_wait (c : Ctx) (post_flags : Nat) (u : Bool)
    (d target_id offset A : Nat) (s : St)
    (hA : (c.dptr target_id + offset) % 2 ^ 64 = A) :
    (A ≠ 0 → A % 4 = 0 →
      gds_post_op c post_flags u (.POLL_AND_DWORD d target_id offset) s =
        { s with
          params := setSlot s.params s.idx { s.params s.idx with
            operation := .WAIT_VALUE_32,
            waitValue := {
              address := A,
              value := d % 2 ^ 32,
              flags := spec_wait_flags post_flags CU_STREAM_WAIT_VALUE_AND } },
          retcode := 0,
          idx := s.idx + 1 } ∧
      gds_post_op c post_flags u (.POLL_GEQ_DWORD d target_id offset) s =
        { s with
          params := setSlot s.params s.idx { s.params s.idx with
            operation := .WAIT_VALUE_32,
            waitValue := {
              address := A,
              value := d % 2 ^ 32,
              flags := spec_wait_flags post_flags CU_STREAM_WAIT_VALUE_GEQ } },
          retcode := 0,
          idx := s.idx + 1 }) ∧
    (∀ cnd, cnd = CU_STREAM_WAIT_VALUE_AND ∨ cnd = CU_STREAM_WAIT_VALUE_GEQ →
      (spec_wait_flags post_flags cnd &&& CU_STREAM_WAIT_VALUE_FLUSH ≠ 0 ↔
        post_flags &&& GDS_POST_OPS_DISCARD_WAIT_FLUSH = 0) ∧
      spec_wait_flags post_flags cnd &&& 3 = cnd) ∧
    (A = 0 ∨ A % 4 ≠ 0 →
      gds_post_op c post_flags u (.POLL_AND_DWORD d target_id offset) s
        = { s with aborted := true } ∧
      gds_post_op c post_flags u (.POLL_GEQ_DWORD d target_id offset) s
        = { s with aborted := true }) := by
  have e1 : (8 &&& 8 : Nat) = 8 := by decide
  have e2 : (0 &&& 8 : Nat) = 0 := by decide
  refine ⟨?_, ?_, ?_⟩
  · intro h0 h4
    constructor
    · unfold gds_post_op
      simp only [hA]
      rw [fill_poll_ok _ _ _ _ h0 h4 (Or.inr rfl)]
      by_cases hd : post_flags &&& GDS_POST_OPS_DISCARD_WAIT_FLUSH = 0
      · simp [St.emit?, St.emit, spec_wait_flags, hd, GDS_POLL_POST_FLUSH, e1,
          GDS_POLL_COND_AND, GDS_POLL_COND_GEQ]
      · simp [St.emit?, St.emit, spec_wait_flags, hd, GDS_POLL_POST_FLUSH, e2,
          GDS_POLL_COND_AND, GDS_POLL_COND_GEQ]
    · unfold gds_post_op
      simp only [hA]
      rw [fill_poll_ok _ _ _ _ h0 h4 (Or.inl rfl)]
      by_cases hd : post_flags &&& GDS_POST_OPS_DISCARD_WAIT_FLUSH = 0
      · simp [St.emit?, St.emit, spec_wait_flags, hd, GDS_POLL_POST_FLUSH, e1,
          GDS_POLL_COND_AND, GDS_POLL_COND_GEQ]
      · simp [St.emit?, St.emit, spec_wait_flags, hd, GDS_POLL_POST_FLUSH, e2,
          GDS_POLL_COND_AND, GDS_POLL_COND_GEQ]
  · intro cnd hc
    by_cases hd : post_flags &&& GDS_POST_OPS_DISCARD_WAIT_FLUSH = 0
    · rcases hc with hc | hc <;> subst hc <;>
        simp only [spec_wait_flags, hd, if_true] <;> decide
    · rcases hc with hc | hc <;> subst hc <;>
        simp only [spec_wait_flags, hd, if_false] <;> decide
  · intro hbad
    constructor
    · unfold gds_post_op
      simp only [hA]
      rw [fill_poll_bad_address _ _ _ _ hbad]
      rfl
    · unfold gds_post_op
      simp only [hA]
      rw [fill_poll_bad_address _ _ _ _ hbad]
      rfl

/-- Witness for C28 (as amended): in the plain build, a PollNarrow GEQ at
`0x2000` with the wait flush discarded. -/
theorem poll_lowers_to_one_wait_witness :
    gds_post_op Ctx.plain GDS_POST_OPS_DISCARD_WAIT_FLUSH false (.POLL_GEQ_DWORD 1 8192 0)
        { idx := 0, params := Params.zero, prev_was_fence := false, retcode := 0,
          aborted := false } =
      { idx := 1,
        params := setSlot Params.zero 0 { Params.zero 0 with
          operation := .WAIT_VALUE_32,
          waitValue := {
            address := 8192,
            value := 1 % 2 ^ 32,
            flags := spec_wait_flags GDS_POST_OPS_DISCARD_WAIT_FLUSH CU_STREAM_WAIT_VALUE_GEQ } },
        prev_was_fence := false, retcode := 0, aborted := false } :=
  ((poll_lowers_to_one_wait Ctx.plain GDS_POST_OPS_DISCARD_WAIT_FLUSH false 1 8192 0 8192
    { idx := 0, params := Params.zero, prev_was_fence := false, retcode := 0, aborted := false }
    (by decide)).1 (by decide) (by decide)).2

/-- Counterexample to C28 as stated: a PollNarrow GEQ whose resolved address is
`0` trips `assert(ptr)` in `gds_fill_poll`: the process aborts and no
`WAIT_VALUE_32` is emitted. -/
theorem poll_at_null_address_aborts :
    (gds_post_ops Ctx.plain 1 [.POLL_GEQ_DWORD 1 0 0] Params.zero 0 0).aborted = true ∧
    (gds_post_ops Ctx.plain 1 [.POLL_GEQ_DWORD 1 0 0] Params.zero 0 0).idx = 0 ∧
    ((gds_post_ops Ctx.plain 1 [.POLL_GEQ_DWORD 1 0 0] Params.zero 0 0).params 0).operation
      ≠ .WAIT_VALUE_32 := by
  decide

/-- C29 (as amended): for every capability configuration, one iteration of
`gds_post_ops` on a PollNarrow with the NOR condition fails
`assert(gpu_does_support_nor(NULL))`, device NOR support never being true: the
process aborts there, before `retcode` is set, and nothing is emitted (cursor
and array are as they were).  So `gds_post_ops` on such an op alone aborts with
cursor and array unchanged. -/
theorem poll_nor_aborts_without_emitting (c : Ctx) (post_flags : Nat) (u : Bool)
    (d target_id offset : Nat) (s : St) (params : Params) (idx : Nat) :
    gpu_does_support_nor = false ∧
    gds_post_op c post_flags u (.POLL_NOR_DWORD d target_id offset) s
      = { s with aborted := true } ∧
    gds_post_ops c 1 [.POLL_NOR_DWORD d target_id offset] params idx post_flags
      = { aborted := true, retcode := 0, idx := idx, params := params } := by
  have hstep : ∀ (v : Bool) (t : St),
      gds_post_op c post_flags v (.POLL_NOR_DWORD d target_id offset) t
        = { t with aborted := true } := by
    intro v t
    unfold gds_post_op
    simp [gpu_does_support_nor]
  refine ⟨rfl, hstep u s, ?_⟩
  rw [gds_post_ops_single, hstep]

/-- Counterexample to C29 as stated: `gds_post_ops` on a PollNarrow NOR does
not return a non-zero code: it aborts in the assertion. -/
theorem poll_nor_does_not_return :
    ¬ ((gds_post_ops Ctx.plain 1 [.POLL_NOR_DWORD 1 8192 0] Params.zero 0 0).aborted = false ∧
       (gds_post_ops Ctx.plain 1 [.POLL_NOR_DWORD 1 8192 0] Params.zero 0 0).retcode ≠ 0) ∧
    (gds_post_ops Ctx.plain 1 [.POLL_NOR_DWORD 1 8192 0] Params.zero 0 0).aborted = true := by
  decide

/-- C31: in `gds_post_ops`, for every capability configuration, the two
"invalid feature combination" branches of the StoreNarrow case cannot be
taken with `use_inlcpy_for_dword` as the function derives it, and one
iteration on a StoreNarrow whose resolved address is non-null and 4-byte
aligned does not fail: `retcode` is `0`, no assertion fails (the abort state is
as before), the cursor advances by one, exactly the slot at the cursor is
written (an `INLINE_COPY` in emit-narrow-as-copy mode, a `WRITE_VALUE_32`
otherwise) and no other slot changes. -/
theorem store_dword_never_fails (c : Ctx) (post_flags : Nat) (d target_id offset A : Nat)
    (s : St)
    (hA : (c.dptr target_id + offset) % 2 ^ 64 = A) (hA0 : A ≠ 0) (hA4 : A % 4 = 0) :
    ¬ (use_inlcpy_for_dword c.build c.env = true ∧ gds_enable_membar c.build c.env = true) ∧
    ¬ (use_inlcpy_for_dword c.build c.env = false ∧
        (gds_enable_inlcpy c.build c.env && !gds_enable_membar c.build c.env) = true) ∧
    (gds_post_op c post_flags (use_inlcpy_for_dword c.build c.env)
      (.STORE_DWORD d target_id offset) s).retcode = 0 ∧
    (gds_post_op c post_flags (use_inlcpy_for_dword c.build c.env)
      (.STORE_DWORD d target_id offset) s).aborted = s.aborted ∧
    (gds_post_op c post_flags (use_inlcpy_for_dword c.build c.env)
      (.STORE_DWORD d target_id offset) s).idx = s.idx + 1 ∧
    (((gds_post_op c post_flags (use_inlcpy_for_dword c.build c.env)
        (.STORE_DWORD d target_id offset) s).params s.idx).operation =
      (if use_inlcpy_for_dword c.build c.env then .INLINE_COPY else .WRITE_VALUE_32)) ∧
    (∀ j, j ≠ s.idx →
      (gds_post_op c post_flags (use_inlcpy_for_dword c.build c.env)
        (.STORE_DWORD d target_id offset) s).params j = s.params j) := by
  have hu := use_inlcpy_for_dword_eq c.build c.env
  cases hi : gds_enable_inlcpy c.build c.env <;>
    cases hm : gds_enable_membar c.build c.env <;>
    cases hs : gds_simulate_write64 c.build c.env <;>
    simp only [hi, hm, hs] at hu <;> simp at hu
  all_goals
    first
    | -- emit-narrow-as-copy mode
      (have hb : c.build.GDS_HAS_INLINE_COPY = true :=
          has_inline_copy_of_use_inlcpy hu
       rw [hu]
       unfold gds_post_op
       simp only [hm, hi, hA, Bool.false_eq_true, if_false, if_true]
       rw [fill_inlcpy_ok _ _ _ hb hA0 (by decide)]
       refine ⟨by simp, by simp, rfl, rfl, rfl, ?_, ?_⟩
       · simp [St.emit?, St.emit, setSlot_same]
       · intro j hj
         simp only [St.emit?, St.emit]
         exact setSlot_ne _ _ hj)
    | -- plain write
      (rw [hu]
       unfold gds_post_op
       simp only [hm, hi, hA, Bool.false_eq_true, if_false, Bool.false_and, Bool.not_true,
         Bool.and_false, Bool.not_false, Bool.and_true]
       rw [fill_poke_ok _ _ _ hA0 hA4]
       refine ⟨by simp, by simp, rfl, ?_, ?_, ?_, ?_⟩
       · simp only [St.emit?, St.emit]; split_ifs <;> rfl
       · simp only [St.emit?, St.emit]; split_ifs <;> rfl
       · simp only [St.emit?, St.emit]
         split_ifs <;> simp [setSlot_same]
       · intro j hj
         simp only [St.emit?, St.emit]
         split_ifs <;> exact setSlot_ne _ _ hj)

/-- Witness for C31: in the inline-copy build a StoreNarrow at `0x1000`
succeeds with one `INLINE_COPY` written. -/
theorem store_dword_never_fails_witness :
    (gds_post_op Ctx.inlcpy 0 (use_inlcpy_for_dword Ctx.inlcpy.build Ctx.inlcpy.env)
      (.STORE_DWORD 5 4096 0)
      { idx := 0, params := Params.zero, prev_was_fence := false, retcode := 0,
        aborted := false }).retcode = 0 :=
  (store_dword_never_fails Ctx.inlcpy 0 5 4096 0 4096
    { idx := 0, params := Params.zero, prev_was_fence := false, retcode := 0, aborted := false }
    (by decide) (by decide) (by decide)).2.2.1
theorem emit_opt_live_idx {s : St} {r : Option (Int × CUstreamBatchMemOpParams)}
    (h : (s.emit? r).live = true) : (s.emit? r).idx = s.idx + 1 := by
  obtain ⟨q, -, -, he⟩ := emit_opt_live h
  rw [he]

theorem spec_cursor_advance_nil (c : Ctx) : spec_cursor_advance c [] = 0 := by
  simp [spec_cursor_advance]

/-- The cursor advance of one successful iteration of `gds_post_ops`. -/
theorem gds_post_op_advance (c : Ctx) (pf : Nat) (op : peer_op_wr) (s : St)
    (h : (gds_post_op c pf (use_inlcpy_for_dword c.build c.env) op s).live = true) :
    (gds_post_op c pf (use_inlcpy_for_dword c.build c.env) op s).idx
      = s.idx + spec_cursor_advance c [op] := by
  cases op with
  | FENCE f =>
    by_cases hr : f &&& (IBV_EXP_PEER_FENCE_OP_READ ||| IBV_EXP_PEER_FENCE_OP_WRITE)
        = IBV_EXP_PEER_FENCE_OP_READ
    · rw [fence_read c pf _ f s hr]
      simp [spec_cursor_advance, peer_op_wr.isNarrowCopyPoll, peer_op_wr.isStoreQword,
        peer_op_wr.isWriteFence, hr]
    · cases hm : gds_enable_membar c.build c.env with
      | true =>
        rw [fence_membar c pf _ f s hr hm] at h ⊢
        have hadv : spec_cursor_advance c [.FENCE f] = 1 := by
          simp [spec_cursor_advance, peer_op_wr.isNarrowCopyPoll, peer_op_wr.isStoreQword,
            peer_op_wr.isWriteFence, hr, hm]
        rw [hadv]
        split_ifs at h ⊢
        · simp [St.live, EINVAL] at h
        · rfl
        · rfl
        · simp [St.live, EINVAL] at h
      | false =>
        have hadv : spec_cursor_advance c [.FENCE f] = 0 := by
          simp [spec_cursor_advance, peer_op_wr.isNarrowCopyPoll, peer_op_wr.isStoreQword,
            peer_op_wr.isWriteFence, hr, hm]
        rw [hadv]
        cases hu : use_inlcpy_for_dword c.build c.env with
        | true =>
          rw [fence_patch c pf f s hr hm]
          split_ifs
          all_goals first
            | rfl
            | (split <;> rfl)
        | false =>
          rw [fence_record c pf f s hr hm]
          rfl
  | STORE_DWORD d t o =>
    have hadv : spec_cursor_advance c [.STORE_DWORD d t o] = 1 := by
      simp [spec_cursor_advance, peer_op_wr.isNarrowCopyPoll, peer_op_wr.isStoreQword,
        peer_op_wr.isWriteFence]
    rw [hadv]
    unfold gds_post_op at h ⊢
    simp only at h ⊢
    split_ifs at h ⊢
    all_goals first
      | (simp [St.live, EINVAL] at h; done)
      | exact emit_opt_live_idx h
  | STORE_QWORD d t o =>
    have hadv : spec_cursor_advance c [.STORE_QWORD d t o] =
        if gds_simulate_write64 c.build c.env then 1 else 2 := by
      simp [spec_cursor_advance, peer_op_wr.isNarrowCopyPoll, peer_op_wr.isStoreQword,
        peer_op_wr.isWriteFence]
    rw [hadv]
    unfold gds_post_op at h ⊢
    simp only [gds_enable_write64, Bool.false_eq_true, if_false] at h ⊢
    cases hs : gds_simulate_write64 c.build c.env with
    | true =>
      simp only [hs, if_true] at h ⊢
      split_ifs at h ⊢
      · simp [St.live, EINVAL] at h
      · exact emit_opt_live_idx h
    | false =>
      simp only [hs, Bool.false_eq_true, if_false] at h ⊢
      split_ifs at h ⊢ with hp ha ha
      · rw [st_live_iff] at h
        exact absurd (ha.symm.trans h.1) (by decide)
      · rw [emit_opt_live_idx h]
        have hl1 : (({ s with prev_was_fence := false } : St).emit?
            (gds_fill_poke (s.params s.idx) ((c.dptr t + o) % 2 ^ 64)
              (gds_qword_lo (d % 2 ^ 64)) (0 ||| GDS_POKE_POST_PRE_BARRIER))).live = true := by
          obtain ⟨_, _, hab, _⟩ := emit_opt_live h
          rw [st_live_iff]
          refine ⟨hab, ?_⟩
          cases hq : gds_fill_poke (s.params s.idx) ((c.dptr t + o) % 2 ^ 64)
              (gds_qword_lo (d % 2 ^ 64)) (0 ||| GDS_POKE_POST_PRE_BARRIER) with
          | none => rw [hq] at ha; simp [St.emit?] at ha
          | some r =>
            obtain ⟨rc, q⟩ := r
            obtain ⟨hrc, -⟩ := fill_poke_some hq
            simp [St.emit?, St.emit, hrc]
        rw [emit_opt_live_idx hl1]
      · rw [st_live_iff] at h
        exact absurd (ha.symm.trans h.1) (by decide)
      · rw [emit_opt_live_idx h]
        have hl1 : (s.emit?
            (gds_fill_poke (s.params s.idx) ((c.dptr t + o) % 2 ^ 64)
              (gds_qword_lo (d % 2 ^ 64)) 0)).live = true := by
          obtain ⟨_, _, hab, _⟩ := emit_opt_live h
          rw [st_live_iff]
          refine ⟨hab, ?_⟩
          cases hq : gds_fill_poke (s.params s.idx) ((c.dptr t + o) % 2 ^ 64)
              (gds_qword_lo (d % 2 ^ 64)) 0 with
          | none => rw [hq] at ha; simp [St.emit?] at ha
          | some r =>
            obtain ⟨rc, q⟩ := r
            obtain ⟨hrc, -⟩ := fill_poke_some hq
            simp [St.emit?, St.emit, hrc]
        rw [emit_opt_live_idx hl1]
  | COPY_BLOCK src len t o =>
    have hadv : spec_cursor_advance c [.COPY_BLOCK src len t o] = 1 := by
      simp [spec_cursor_advance, peer_op_wr.isNarrowCopyPoll, peer_op_wr.isStoreQword,
        peer_op_wr.isWriteFence]
    rw [hadv]
    unfold gds_post_op at h ⊢
    simp only at h ⊢
    split_ifs at h ⊢
    all_goals first
      | (simp [St.live, EINVAL] at h; done)
      | exact emit_opt_live_idx h
  | POLL_AND_DWORD d t o =>
    have hadv : spec_cursor_advance c [.POLL_AND_DWORD d t o] = 1 := by
      simp [spec_cursor_advance, peer_op_wr.isNarrowCopyPoll, peer_op_wr.isStoreQword,
        peer_op_wr.isWriteFence]
    rw [hadv]
    unfold gds_post_op at h ⊢
    exact emit_opt_live_idx h
  | POLL_GEQ_DWORD d t o =>
    have hadv : spec_cursor_advance c [.POLL_GEQ_DWORD d t o] = 1 := by
      simp [spec_cursor_advance, peer_op_wr.isNarrowCopyPoll, peer_op_wr.isStoreQword,
        peer_op_wr.isWriteFence]
    rw [hadv]
    unfold gds_post_op at h ⊢
    exact emit_opt_live_idx h
  | POLL_NOR_DWORD d t o =>
    unfold gds_post_op at h
    simp [gpu_does_support_nor, St.live] at h
  | UNDEFINED t =>
    unfold gds_post_op at h
    simp [St.live, EINVAL] at h

theorem spec_cursor_advance_cons (c : Ctx) (op : peer_op_wr) (ops : List peer_op_wr) :
    spec_cursor_advance c (op :: ops) = spec_cursor_advance c [op] + spec_cursor_advance c ops := by
  unfold spec_cursor_advance
  simp only [List.countP_cons, List.countP_nil]
  split_ifs <;> omega

theorem gds_post_ops_loop_advance (c : Ctx) (pf : Nat) :
    ∀ (n : Nat) (ops : List peer_op_wr) (s : St),
      (gds_post_ops_loop c pf (use_inlcpy_for_dword c.build c.env) n ops s).live = true →
      (gds_post_ops_loop c pf (use_inlcpy_for_dword c.build c.env) n ops s).idx
        = s.idx + spec_cursor_advance c (ops.take n) := by
  intro n
  induction n with
  | zero =>
    intro ops s _
    simp [gds_post_ops_loop, spec_cursor_advance_nil]
  | succ n ih =>
    intro ops s h
    cases ops with
    | nil => simp [gds_post_ops_loop, St.live] at h
    | cons op rest =>
      simp only [gds_post_ops_loop, List.take_succ_cons] at h ⊢
      by_cases hc : ((gds_post_op c pf (use_inlcpy_for_dword c.build c.env) op s).aborted ||
          (gds_post_op c pf (use_inlcpy_for_dword c.build c.env) op s).retcode != 0) = true
      · rw [if_pos hc] at h
        rw [st_live_iff] at h
        simp [h.1, h.2] at hc
      · simp only [if_neg hc] at h ⊢
        have hl : (gds_post_op c pf (use_inlcpy_for_dword c.build c.env) op s).live = true := by
          rw [st_live_iff]; simpa using hc
        have hcons := spec_cursor_advance_cons c op (rest.take n)
        rw [ih rest _ h, gds_post_op_advance c pf op s hl]
        omega

/-- C32: for every successful `gds_post_ops` call, the cursor advance equals
(number of StoreNarrow, CopyBlock and PollNarrow ops) + (number of StoreWide
ops when simulated, twice that number when not) + (number of write-direction
fences if the memory barrier is enabled, else `0`), counted over the `n_ops`
ops translated; hence it is at most `2 * n_ops`, and at most `n_ops` when these
hold no StoreWide. -/
theorem cursor_advance_is_lowering_count (c : Ctx) (n_ops : Nat) (op : List peer_op_wr)
    (params : Params) (idx post_flags : Nat)
    (hok : (gds_post_ops c n_ops op params idx post_flags).ok = true) :
    (gds_post_ops c n_ops op params idx post_flags).idx
      = idx + spec_cursor_advance c (op.take n_ops) ∧
    (op.take n_ops).length = n_ops ∧
    (gds_post_ops c n_ops op params idx post_flags).idx ≤ idx + 2 * n_ops ∧
    ((∀ o ∈ op.take n_ops, o.isStoreQword = false) →
      (gds_post_ops c n_ops op params idx post_flags).idx ≤ idx + n_ops) := by
  rw [gds_post_ops_ok_iff] at hok
  have hadv := gds_post_ops_loop_advance c post_flags n_ops op _ hok
  have hlen := gds_post_ops_loop_length c post_flags _ n_ops op _ hok
  have hidx : (gds_post_ops c n_ops op params idx post_flags).idx
      = idx + spec_cursor_advance c (op.take n_ops) := hadv
  have htl : (op.take n_ops).length = n_ops := by
    rw [List.length_take]; omega
  have hle : (gds_post_ops c n_ops op params idx post_flags).idx ≤
      idx + (op.take n_ops).length + (op.take n_ops).countP peer_op_wr.isStoreQword :=
    gds_post_ops_loop_idx_le c post_flags (use_inlcpy_for_dword c.build c.env) n_ops op
      { idx := idx, params := params, prev_was_fence := false, retcode := 0,
        aborted := false }
  have hcnt : (op.take n_ops).countP peer_op_wr.isStoreQword ≤ (op.take n_ops).length :=
    List.countP_le_length _
  refine ⟨hidx, htl, ?_, ?_⟩
  · omega
  · intro hno
    have h0 : (op.take n_ops).countP peer_op_wr.isStoreQword = 0 := by
      rw [List.countP_eq_zero]
      intro o ho
      rw [hno o ho]
      decide
    omega

/-- Witness for C32: in the plain build, a write fence, a StoreNarrow, a
StoreWide and a poll advance the cursor by `0 + 1 + 2 + 1`. -/
theorem cursor_advance_is_lowering_count_witness :
    (gds_post_ops Ctx.plain 4
      [.FENCE 42, .STORE_DWORD 1 4096 0, .STORE_QWORD 7 4104 0, .POLL_GEQ_DWORD 1 8192 0]
      Params.zero 0 0).idx = 4 :=
  ((cursor_advance_is_lowering_count Ctx.plain 4
    [.FENCE 42, .STORE_DWORD 1 4096 0, .STORE_QWORD 7 4104 0, .POLL_GEQ_DWORD 1 8192 0]
    Params.zero 0 0 (by decide)).1).trans (by decide)

/-- C33 (the code at a failing input): in the plain build, a single wait
request whose `peek` holds one StoreWide (`entries = 1`).  `n_mem_ops` is `1`,
the translation succeeds and leaves the cursor at `2` (the StoreWide is lowered
to two writes), so `assert(idx <= n_mem_ops)` fails and the process aborts.
With two StoreWide ops (`entries = 2`) the translation writes slots `0..3` of
an array of `n_mem_ops + 1 = 3` slots before the assertion is reached. -/
theorem gds_stream_post_wait_cq_multi_assertion_fails :
    int_of_u32 (wait_n_mem_ops_bits [⟨⟨1, [.STORE_QWORD 7 4096 0]⟩⟩] 0) = 1 ∧
    (post_requests_loop Ctx.plain [⟨1, [.STORE_QWORD 7 4096 0]⟩] (Res.init Params.zero)).ok
      = true ∧
    (post_requests_loop Ctx.plain [⟨1, [.STORE_QWORD 7 4096 0]⟩] (Res.init Params.zero)).idx
      = 2 ∧
    (gds_stream_post_wait_cq_multi Ctx.plain (Ext.returning 0)
      [⟨⟨1, [.STORE_QWORD 7 4096 0]⟩⟩] 0 0 Params.zero).aborted = true ∧
    (gds_stream_post_wait_cq_multi Ctx.plain (Ext.returning 0)
      [⟨⟨1, [.STORE_QWORD 7 4096 0]⟩⟩] 0 0 Params.zero).batches.length = 0 ∧
    int_of_u32 (wait_n_mem_ops_bits
      [⟨⟨2, [.STORE_QWORD 7 4096 0, .STORE_QWORD 7 4104 0]⟩⟩] 0) = 2 ∧
    (post_requests_loop Ctx.plain [⟨2, [.STORE_QWORD 7 4096 0, .STORE_QWORD 7 4104 0]⟩]
      (Res.init Params.zero)).ok = true ∧
    (post_requests_loop Ctx.plain [⟨2, [.STORE_QWORD 7 4096 0, .STORE_QWORD 7 4104 0]⟩]
      (Res.init Params.zero)).idx = 4 ∧
    ((post_requests_loop Ctx.plain [⟨2, [.STORE_QWORD 7 4096 0, .STORE_QWORD 7 4104 0]⟩]
      (Res.init Params.zero)).params 3).operation = .WRITE_VALUE_32 ∧
    (gds_stream_post_wait_cq_multi Ctx.plain (Ext.returning 0)
      [⟨⟨2, [.STORE_QWORD 7 4096 0, .STORE_QWORD 7 4104 0]⟩⟩] 0 0 Params.zero).aborted
      = true := by
  decide

/-- C34 (the code at failing inputs): in the plain build, `gds_post_pokes`
with `count = 0` has `poke_count = 0` and `idx = 0`, so `assert(idx <
poke_count)` fails; and with a single send request whose `commit` holds two
StoreWide ops (`entries = 2`), `poke_count` is `4`, the translation succeeds
and leaves the cursor at `4`, so the assertion fails as well.  In both cases
the process aborts and nothing is submitted. -/
theorem gds_post_pokes_assertion_fails :
    int_of_u32 (poke_count_bits [] 0) = 0 ∧
    (post_requests_loop Ctx.plain [] (Res.init Params.zero)).ok = true ∧
    (post_requests_loop Ctx.plain [] (Res.init Params.zero)).idx = 0 ∧
    (gds_post_pokes Ctx.plain (Ext.returning 0) [] 0 0 Params.zero).aborted = true ∧
    int_of_u32 (poke_count_bits
      [⟨⟨2, [.STORE_QWORD 7 4096 0, .STORE_QWORD 7 4104 0]⟩⟩] 0) = 4 ∧
    (post_requests_loop Ctx.plain [⟨2, [.STORE_QWORD 7 4096 0, .STORE_QWORD 7 4104 0]⟩]
      (Res.init Params.zero)).ok = true ∧
    (post_requests_loop Ctx.plain [⟨2, [.STORE_QWORD 7 4096 0, .STORE_QWORD 7 4104 0]⟩]
      (Res.init Params.zero)).idx = 4 ∧
    (gds_post_pokes Ctx.plain (Ext.returning 0)
      [⟨⟨2, [.STORE_QWORD 7 4096 0, .STORE_QWORD 7 4104 0]⟩⟩] 0 0 Params.zero).aborted = true ∧
    (gds_post_pokes Ctx.plain (Ext.returning 0)
      [⟨⟨2, [.STORE_QWORD 7 4096 0, .STORE_QWORD 7 4104 0]⟩⟩] 0 0
      Params.zero).batches.length = 0 := by
  decide

theorem sameButWaitFlush_at {lo hi : Nat} {p1 p2 : Params} (h : SameButWaitFlush lo hi p1 p2)
    {j : Nat} (hj : hi ≤ j) : p1 j = p2 j := by
  rcases h j with h | ⟨-, h, -⟩
  · exact h
  · omega

theorem sameButWaitFlush_set {lo hi : Nat} {p1 p2 : Params} (h : SameButWaitFlush lo hi p1 p2)
    (hlo : lo ≤ hi) {q1 q2 : CUstreamBatchMemOpParams}
    (hq : q1 = q2 ∨ (q1.operation = .WAIT_VALUE_32 ∧ q2.operation = .WAIT_VALUE_32 ∧
      with_flush q1 = with_flush q2)) :
    SameButWaitFlush lo (hi + 1) (setSlot p1 hi q1) (setSlot p2 hi q2) := by
  intro j
  by_cases hj : j = hi
  · subst hj
    simp only [setSlot_same]
    rcases hq with hq | ⟨h1, h2, h3⟩
    · exact Or.inl hq
    · exact Or.inr ⟨hlo, Nat.lt_succ_self _, h1, h2, h3⟩
  · rw [setSlot_ne _ _ hj, setSlot_ne _ _ hj]
    rcases h j with h | ⟨a, b, c1, c2, d⟩
    · exact Or.inl h
    · exact Or.inr ⟨a, by omega, c1, c2, d⟩

theorem optRel_refl (r : Option (Int × CUstreamBatchMemOpParams)) : OptRel r r := Or.inl rfl

theorem flushRel_abort {lo : Nat} {s1 s2 : St} (h : FlushRel lo s1 s2) :
    FlushRel lo { s1 with aborted := true } { s2 with aborted := true } := by
  obtain ⟨h1, h2, h3, h4, h5, h6⟩ := h
  exact ⟨h1, h2, h3, rfl, h5, h6⟩

theorem flushRel_retcode {lo : Nat} {s1 s2 : St} (h : FlushRel lo s1 s2) (rc : Int) :
    FlushRel lo { s1 with retcode := rc } { s2 with retcode := rc } := by
  obtain ⟨h1, h2, h3, h4, h5, h6⟩ := h
  exact ⟨h1, h2, rfl, h4, h5, h6⟩

theorem flushRel_prev {lo : Nat} {s1 s2 : St} (h : FlushRel lo s1 s2) (f : Bool) :
    FlushRel lo { s1 with prev_was_fence := f } { s2 with prev_was_fence := f } := by
  obtain ⟨h1, h2, h3, h4, h5, h6⟩ := h
  exact ⟨h1, rfl, h3, h4, h5, h6⟩

theorem flushRel_emit_opt {lo : Nat} {s1 s2 : St} (h : FlushRel lo s1 s2)
    {r1 r2 : Option (Int × CUstreamBatchMemOpParams)} (hr : OptRel r1 r2) :
    FlushRel lo (s1.emit? r1) (s2.emit? r2) := by
  obtain ⟨h1, h2, h3, h4, h5, h6⟩ := h
  rcases hr with hr | ⟨rc, q1, q2, e1, e2, o1, o2, hw⟩
  · subst hr
    cases r1 with
    | none => exact ⟨h1, h2, h3, rfl, h5, h6⟩
    | some r =>
      refine ⟨by simp [St.emit?, St.emit, h1], h2, rfl, h4, ?_, ?_⟩
      · simp only [St.emit?, St.emit]; omega
      · simp only [St.emit?, St.emit]
        rw [← h1]
        exact sameButWaitFlush_set h6 h5 (Or.inl rfl)
  · subst e1 e2
    refine ⟨by simp [St.emit?, St.emit, h1], h2, rfl, h4, ?_, ?_⟩
    · simp only [St.emit?, St.emit]; omega
    · simp only [St.emit?, St.emit]
      rw [← h1]
      exact sameButWaitFlush_set h6 h5 (Or.inr ⟨o1, o2, hw⟩)

theorem flushRel_slot {lo : Nat} {s1 s2 : St} (h : FlushRel lo s1 s2) :
    s1.params s1.idx = s2.params s2.idx := by
  obtain ⟨h1, -, -, -, -, h6⟩ := h
  rw [← h1]
  exact sameButWaitFlush_at h6 (le_refl _)

/-- Emitting the result of the same builder, applied to the slot at the
cursor, keeps two related states related. -/
theorem flushRel_emit_fn {lo : Nat} {s1 s2 : St} (h : FlushRel lo s1 s2)
    (F : CUstreamBatchMemOpParams → Option (Int × CUstreamBatchMemOpParams)) :
    FlushRel lo (s1.emit? (F (s1.params s1.idx))) (s2.emit? (F (s2.params s2.idx))) := by
  rw [flushRel_slot h]
  exact flushRel_emit_opt h (optRel_refl _)

theorem with_flush_idem_flags (p : CUstreamBatchMemOpParams) (a v cnd : Nat) :
    with_flush { p with
        operation := .WAIT_VALUE_32,
        waitValue := {
          address := a,
          value := v,
          flags := cnd ||| CU_STREAM_WAIT_VALUE_FLUSH } }
      = with_flush { p with
        operation := .WAIT_VALUE_32,
        waitValue := {
          address := a,
          value := v,
          flags := cnd } } := by
  unfold with_flush
  simp only [Nat.or_assoc, Nat.or_self]

theorem fill_poll_rel (p : CUstreamBatchMemOpParams) (a v cnd f1 f2 : Nat)
    (hc : cnd = GDS_POLL_COND_GEQ ∨ cnd = GDS_POLL_COND_AND) :
    OptRel (gds_fill_poll p a v cnd f1) (gds_fill_poll p a v cnd f2) := by
  by_cases hbad : a = 0 ∨ a % 4 ≠ 0
  · rw [fill_poll_bad_address _ _ _ _ hbad, fill_poll_bad_address _ _ _ _ hbad]
    exact Or.inl rfl
  · have h0 : a ≠ 0 := fun h => hbad (Or.inl h)
    have h4 : a % 4 = 0 := by
      by_contra h; exact hbad (Or.inr h)
    rw [fill_poll_ok _ _ _ _ h0 h4 hc, fill_poll_ok _ _ _ _ h0 h4 hc]
    refine Or.inr ⟨0, _, _, rfl, rfl, rfl, rfl, ?_⟩
    by_cases g1 : f1 &&& GDS_POLL_POST_FLUSH ≠ 0 <;> by_cases g2 : f2 &&& GDS_POLL_POST_FLUSH ≠ 0
    · simp only [if_pos g1, if_pos g2]
    · simp only [if_pos g1, if_neg g2]
      exact with_flush_idem_flags _ _ _ _
    · simp only [if_neg g1, if_pos g2]
      exact (with_flush_idem_flags _ _ _ _).symm
    · simp only [if_neg g1, if_neg g2]
theorem sameButWaitFlush_patch {lo hi : Nat} {p1 p2 : Params}
    (h : SameButWaitFlush lo hi p1 p2) (k : Nat) (q : CUstreamBatchMemOpParams) :
    SameButWaitFlush lo hi (setSlot p1 k q) (setSlot p2 k q) := by
  intro j
  by_cases hj : j = k
  · subst hj
    simp only [setSlot_same]
    exact Or.inl trivial
  · rw [setSlot_ne _ _ hj, setSlot_ne _ _ hj]
    exact h j

theorem setSlot_self (p : Params) (k : Nat) : setSlot p k (p k) = p := by
  funext j
  by_cases hj : j = k
  · subst hj; exact setSlot_same _ _ _
  · exact setSlot_ne _ _ hj

theorem flushRel_emit_two {lo : Nat} {s1 s2 : St} (h : FlushRel lo s1 s2)
    (F G : CUstreamBatchMemOpParams → Option (Int × CUstreamBatchMemOpParams)) :
    FlushRel lo
      (if (s1.emit? (F (s1.params s1.idx))).aborted = true then s1.emit? (F (s1.params s1.idx))
        else (s1.emit? (F (s1.params s1.idx))).emit?
          (G ((s1.emit? (F (s1.params s1.idx))).params (s1.emit? (F (s1.params s1.idx))).idx)))
      (if (s2.emit? (F (s2.params s2.idx))).aborted = true then s2.emit? (F (s2.params s2.idx))
        else (s2.emit? (F (s2.params s2.idx))).emit?
          (G ((s2.emit? (F (s2.params s2.idx))).params
            (s2.emit? (F (s2.params s2.idx))).idx))) := by
  have ht := flushRel_emit_fn h F
  have hab := ht.2.2.2.1
  by_cases ha : (s2.emit? (F (s2.params s2.idx))).aborted = true
  · rw [if_pos ha, if_pos (hab.trans ha)]
    exact ht
  · rw [if_neg ha, if_neg (by rw [hab]; exact ha)]
    exact flushRel_emit_fn ht G

/-- One iteration of `gds_post_ops` keeps two related states related, whatever
the two values of `post_flags` are. -/
theorem flushRel_step (c : Ctx) (pf1 pf2 : Nat) (u : Bool) (op : peer_op_wr) {lo : Nat}
    {s1 s2 : St} (h : FlushRel lo s1 s2) :
    FlushRel lo (gds_post_op c pf1 u op s1) (gds_post_op c pf2 u op s2) := by
  have hidx := h.1
  have hprev := h.2.1
  cases op with
  | FENCE f =>
    by_cases hr : f &&& (IBV_EXP_PEER_FENCE_OP_READ ||| IBV_EXP_PEER_FENCE_OP_WRITE)
        = IBV_EXP_PEER_FENCE_OP_READ
    · rw [fence_read c pf1 u f s1 hr, fence_read c pf2 u f s2 hr]
      exact h
    · cases hm : gds_enable_membar c.build c.env with
      | true =>
        rw [fence_membar c pf1 u f s1 hr hm, fence_membar c pf2 u f s2 hr hm]
        split_ifs
        · exact flushRel_retcode h _
        · exact flushRel_emit_fn h (fun q => some (gds_fill_membar c.build q GDS_MEMBAR_DEFAULT))
        · exact flushRel_emit_fn h (fun q => some (gds_fill_membar c.build q GDS_MEMBAR_SYS))
        · exact flushRel_retcode h _
      | false =>
        cases u with
        | false =>
          rw [fence_record c pf1 f s1 hr hm, fence_record c pf2 f s2 hr hm]
          exact flushRel_prev h true
        | true =>
          rw [fence_patch c pf1 f s1 hr hm, fence_patch c pf2 f s2 hr hm]
          by_cases h1 : s2.idx ≥ 1
          · have h1' : s1.idx ≥ 1 := by rw [hidx]; exact h1
            rw [if_neg (not_not.mpr h1'), if_neg (not_not.mpr h1)]
            obtain ⟨e1, e2, e3, e4, e5, e6⟩ := h
            rcases e6 (s1.idx - 1) with heq | ⟨-, -, o1, o2, -⟩
            · rw [← hidx, heq]
              cases gds_enable_barrier_for_inlcpy c.build (s2.params (s1.idx - 1)) with
              | none => exact ⟨rfl, e2, e3, rfl, e5, e6⟩
              | some q => exact ⟨rfl, e2, e3, e4, e5, sameButWaitFlush_patch e6 _ q⟩
            · rw [← hidx]
              cases hb : c.build.GDS_HAS_INLINE_COPY with
              | true =>
                have n1 : gds_enable_barrier_for_inlcpy c.build (s1.params (s1.idx - 1))
                    = none := enable_barrier_of_other hb (by rw [o1]; decide)
                have n2 : gds_enable_barrier_for_inlcpy c.build (s2.params (s1.idx - 1))
                    = none := enable_barrier_of_other hb (by rw [o2]; decide)
                rw [n1, n2]
                exact ⟨rfl, e2, e3, rfl, e5, e6⟩
              | false =>
                have n1 : ∀ p, gds_enable_barrier_for_inlcpy c.build p = some p := by
                  intro p
                  unfold gds_enable_barrier_for_inlcpy
                  simp [hb]
                rw [n1, n1]
                simp only [setSlot_self]
                exact ⟨rfl, e2, e3, e4, e5, e6⟩
          · have h1' : ¬ s1.idx ≥ 1 := by rw [hidx]; exact h1
            rw [if_pos h1', if_pos h1]
            exact flushRel_abort h
  | STORE_DWORD d t o =>
    unfold gds_post_op
    simp only
    by_cases hp : s2.prev_was_fence = true
    · have hp1 : s1.prev_was_fence = true := hprev.trans hp
      simp only [if_pos hp, if_pos hp1]
      split_ifs
      all_goals first
        | exact flushRel_retcode h _
        | exact flushRel_emit_fn h (fun q => gds_fill_inlcpy c.build q _ _ _ _)
        | exact flushRel_emit_fn (flushRel_prev h false) (fun q => gds_fill_poke q _ _ _)
    · have hp1 : ¬ s1.prev_was_fence = true := by rw [hprev]; exact hp
      simp only [if_neg hp, if_neg hp1]
      split_ifs
      all_goals first
        | exact flushRel_retcode h _
        | exact flushRel_emit_fn h (fun q => gds_fill_inlcpy c.build q _ _ _ _)
        | exact flushRel_emit_fn h (fun q => gds_fill_poke q _ _ _)
  | STORE_QWORD d t o =>
    unfold gds_post_op
    simp only
    by_cases hp : s2.prev_was_fence = true
    · have hp1 : s1.prev_was_fence = true := hprev.trans hp
      simp only [if_pos hp, if_pos hp1]
      by_cases hw : gds_enable_write64 c.build c.env = true
      · simp only [hw, if_true]
        exact flushRel_retcode h _
      · simp only [hw, if_false]
        by_cases hs : gds_simulate_write64 c.build c.env = true
        · simp only [hs, if_true]
          split_ifs
          all_goals first
            | exact flushRel_retcode h _
            | exact flushRel_emit_fn h (fun q => gds_fill_inlcpy c.build q _ _ _ _)
        · simp only [hs, if_false]
          exact flushRel_emit_two (flushRel_prev h false) (fun q => gds_fill_poke q _ _ _)
            (fun q => gds_fill_poke q _ _ _)
    · have hp1 : ¬ s1.prev_was_fence = true := by rw [hprev]; exact hp
      simp only [if_neg hp, if_neg hp1]
      by_cases hw : gds_enable_write64 c.build c.env = true
      · simp only [hw, if_true]
        exact flushRel_retcode h _
      · simp only [hw, if_false]
        by_cases hs : gds_simulate_write64 c.build c.env = true
        · simp only [hs, if_true]
          split_ifs
          all_goals first
            | exact flushRel_retcode h _
            | exact flushRel_emit_fn h (fun q => gds_fill_inlcpy c.build q _ _ _ _)
        · simp only [hs, if_false]
          exact flushRel_emit_two h (fun q => gds_fill_poke q _ _ _)
            (fun q => gds_fill_poke q _ _ _)
  | COPY_BLOCK src len t o =>
    unfold gds_post_op
    simp only
    split_ifs
    all_goals first
      | exact flushRel_retcode h _
      | exact flushRel_abort h
      | exact flushRel_emit_fn h (fun q => gds_fill_inlcpy c.build q _ _ _ _)
  | POLL_AND_DWORD d t o =>
    unfold gds_post_op
    simp only
    rw [flushRel_slot h]
    exact flushRel_emit_opt h (fill_poll_rel _ _ _ _ _ _ (Or.inr rfl))
  | POLL_GEQ_DWORD d t o =>
    unfold gds_post_op
    simp only
    rw [flushRel_slot h]
    exact flushRel_emit_opt h (fill_poll_rel _ _ _ _ _ _ (Or.inl rfl))
  | POLL_NOR_DWORD d t o =>
    unfold gds_post_op
    simp only
    split_ifs
    all_goals first
      | exact flushRel_abort h
      | exact flushRel_retcode h _
  | UNDEFINED t =>
    unfold gds_post_op
    exact flushRel_retcode h _

theorem flushRel_loop (c : Ctx) (pf1 pf2 : Nat) (u : Bool) (lo : Nat) :
    ∀ (n : Nat) (ops : List peer_op_wr) (s1 s2 : St), FlushRel lo s1 s2 →
      FlushRel lo (gds_post_ops_loop c pf1 u n ops s1) (gds_post_ops_loop c pf2 u n ops s2) := by
  intro n
  induction n with
  | zero => intro ops s1 s2 h; simpa [gds_post_ops_loop] using h
  | succ n ih =>
    intro ops s1 s2 h
    cases ops with
    | nil =>
      simp only [gds_post_ops_loop]
      exact flushRel_abort h
    | cons op rest =>
      have hstep := flushRel_step c pf1 pf2 u op h
      simp only [gds_post_ops_loop]
      by_cases hc : ((gds_post_op c pf2 u op s2).aborted ||
          (gds_post_op c pf2 u op s2).retcode != 0) = true
      · have hc1 : ((gds_post_op c pf1 u op s1).aborted ||
            (gds_post_op c pf1 u op s1).retcode != 0) = true := by
          rw [hstep.2.2.2.1, hstep.2.2.1]; exact hc
        rw [if_pos hc, if_pos hc1]
        exact hstep
      · have hc1 : ¬ ((gds_post_op c pf1 u op s1).aborted ||
            (gds_post_op c pf1 u op s1).retcode != 0) = true := by
          rw [hstep.2.2.2.1, hstep.2.2.1]; exact hc
        rw [if_neg hc, if_neg hc1]
        exact ih rest _ _ hstep

/-- C36: for every configuration, input sequence, buffer and entry cursor,
two runs of `gds_post_ops` that differ only in `post_flags` (in particular with
and without `GDS_POST_OPS_DISCARD_WAIT_FLUSH`) end in the same abort state with
the same return code and the same final cursor, and leave the same buffer
except that a slot written by the call (at an index from the entry cursor up to
the final one) that is a `WAIT_VALUE_32` in both may differ in the remote-flush
bit of `waitValue.flags`: with that bit set in both, the two slots are equal. -/
theorem post_flags_change_only_flush_bit (c : Ctx) (n_ops : Nat) (op : List peer_op_wr)
    (params : Params) (idx pf1 pf2 : Nat) :
    (gds_post_ops c n_ops op params idx pf1).aborted
      = (gds_post_ops c n_ops op params idx pf2).aborted ∧
    (gds_post_ops c n_ops op params idx pf1).retcode
      = (gds_post_ops c n_ops op params idx pf2).retcode ∧
    (gds_post_ops c n_ops op params idx pf1).idx
      = (gds_post_ops c n_ops op params idx pf2).idx ∧
    (∀ j, (gds_post_ops c n_ops op params idx pf1).params j
        = (gds_post_ops c n_ops op params idx pf2).params j ∨
      (idx ≤ j ∧ j < (gds_post_ops c n_ops op params idx pf1).idx ∧
        ((gds_post_ops c n_ops op params idx pf1).params j).operation = .WAIT_VALUE_32 ∧
        ((gds_post_ops c n_ops op params idx pf2).params j).operation = .WAIT_VALUE_32 ∧
        with_flush ((gds_post_ops c n_ops op params idx pf1).params j)
          = with_flush ((gds_post_ops c n_ops op params idx pf2).params j))) := by
  have h0 : FlushRel idx
      { idx := idx, params := params, prev_was_fence := false, retcode := 0, aborted := false }
      { idx := idx, params := params, prev_was_fence := false, retcode := 0, aborted := false } :=
    ⟨rfl, rfl, rfl, rfl, le_refl _, fun _ => Or.inl rfl⟩
  obtain ⟨h1, -, h3, h4, -, h6⟩ := flushRel_loop c pf1 pf2 (use_inlcpy_for_dword c.build c.env)
    idx n_ops op _ _ h0
  exact ⟨h4, h3, h1, h6⟩

theorem or_and_ne_zero_left {a m : Nat} (b : Nat) (h : a &&& m ≠ 0) : (a ||| b) &&& m ≠ 0 := by
  intro h0
  apply h
  apply Nat.eq_of_testBit_eq
  intro i
  have h1 := congrArg (fun n => n.testBit i) h0
  simp only [Nat.testBit_and, Nat.testBit_or, Nat.zero_testBit] at h1 ⊢
  revert h1
  cases a.testBit i <;> cases b.testBit i <;> cases m.testBit i <;> simp

theorem or_and_ne_zero_right {b m : Nat} (a : Nat) (h : b &&& m ≠ 0) : (a ||| b) &&& m ≠ 0 := by
  rw [Nat.or_comm]
  exact or_and_ne_zero_left a h

theorem or_and_eq_zero {a b m : Nat} (ha : a &&& m = 0) (hb : b &&& m = 0) :
    (a ||| b) &&& m = 0 := by
  apply Nat.eq_of_testBit_eq
  intro i
  have h1 := congrArg (fun n => n.testBit i) ha
  have h2 := congrArg (fun n => n.testBit i) hb
  simp only [Nat.testBit_and, Nat.testBit_or, Nat.zero_testBit] at h1 h2 ⊢
  revert h1 h2
  cases a.testBit i <;> cases b.testBit i <;> cases m.testBit i <;> simp

theorem and_self_ne_zero {m : Nat} (h : m ≠ 0) : m &&& m ≠ 0 := by
  rw [Nat.and_self]; exact h

/-- C37: for every capability configuration, the mask `attr->caps` built by
`gds_init_peer_attr` contains `COPY_BLOCK` exactly when inline-copy is enabled,
which is exactly when `gds_post_ops` does not reject a CopyBlock with `EINVAL`;
it never contains `POLL_NOR` (a PollNarrow NOR is always refused by
`gds_post_ops`, in the assertion on device NOR support); and it always contains
`STORE_DWORD`, `STORE_QWORD`, `FENCE`, `POLL_AND` and `POLL_GEQ`.  The
capability bits are those of the verbs header: non-zero, with the bits of
`POLL_NOR` and `COPY_BLOCK` in none of the others. -/
theorem peer_caps_match_translator (k : PeerOpCaps) (c : Ctx) (post_flags : Nat) (u : Bool)
    (src len target_id offset d : Nat) (s : St) (hk : k.distinct) :
    (has_cap (gds_init_peer_attr k c.build c.env) k.COPY_BLOCK_CAP = true ↔
      gds_enable_inlcpy c.build c.env = true) ∧
    (gds_enable_inlcpy c.build c.env = false →
      gds_post_op c post_flags u (.COPY_BLOCK src len target_id offset) s
        = { s with retcode := EINVAL }) ∧
    (gds_enable_inlcpy c.build c.env = true →
      ((gds_post_op c post_flags u (.COPY_BLOCK src len target_id offset) s).aborted = true ∧
        (gds_post_op c post_flags u (.COPY_BLOCK src len target_id offset) s).retcode
          = s.retcode) ∨
      ((gds_post_op c post_flags u (.COPY_BLOCK src len target_id offset) s).retcode = 0 ∧
        (gds_post_op c post_flags u (.COPY_BLOCK src len target_id offset) s).idx
          = s.idx + 1)) ∧
    has_cap (gds_init_peer_attr k c.build c.env) k.POLL_NOR_DWORD_CAP = false ∧
    gds_post_op c post_flags u (.POLL_NOR_DWORD d target_id offset) s
      = { s with aborted := true } ∧
    has_cap (gds_init_peer_attr k c.build c.env) k.STORE_DWORD_CAP = true ∧
    has_cap (gds_init_peer_attr k c.build c.env) k.STORE_QWORD_CAP = true ∧
    has_cap (gds_init_peer_attr k c.build c.env) k.FENCE_CAP = true ∧
    has_cap (gds_init_peer_attr k c.build c.env) k.POLL_AND_DWORD_CAP = true ∧
    has_cap (gds_init_peer_attr k c.build c.env) k.POLL_GEQ_DWORD_CAP = true := by
  obtain ⟨z1, z2, z3, z4, z5, z6, z7, n1, n2, n3, n4, n5, n6, c1, c2, c3, c4, c5⟩ := hk
  have hbase : gds_init_peer_attr k c.build c.env =
      if gds_enable_inlcpy c.build c.env = true then
        k.STORE_DWORD_CAP ||| k.STORE_QWORD_CAP ||| k.FENCE_CAP ||| k.POLL_AND_DWORD_CAP
          ||| k.POLL_GEQ_DWORD_CAP ||| k.COPY_BLOCK_CAP
      else if (gds_enable_write64 c.build c.env || gds_simulate_write64 c.build c.env) = true then
        k.STORE_DWORD_CAP ||| k.STORE_QWORD_CAP ||| k.FENCE_CAP ||| k.POLL_AND_DWORD_CAP
          ||| k.POLL_GEQ_DWORD_CAP ||| k.STORE_QWORD_CAP
      else
        k.STORE_DWORD_CAP ||| k.STORE_QWORD_CAP ||| k.FENCE_CAP ||| k.POLL_AND_DWORD_CAP
          ||| k.POLL_GEQ_DWORD_CAP := by
    unfold gds_init_peer_attr
    simp [gpu_does_support_nor]
  have hbit : ∀ m, (k.STORE_DWORD_CAP &&& m ≠ 0 ∨ k.STORE_QWORD_CAP &&& m ≠ 0 ∨
      k.FENCE_CAP &&& m ≠ 0 ∨ k.POLL_AND_DWORD_CAP &&& m ≠ 0 ∨ k.POLL_GEQ_DWORD_CAP &&& m ≠ 0) →
      has_cap (gds_init_peer_attr k c.build c.env) m = true := by
    intro m hm
    have h5 : (k.STORE_DWORD_CAP ||| k.STORE_QWORD_CAP ||| k.FENCE_CAP ||| k.POLL_AND_DWORD_CAP
        ||| k.POLL_GEQ_DWORD_CAP) &&& m ≠ 0 := by
      rcases hm with h | h | h | h | h
      · exact or_and_ne_zero_left _ (or_and_ne_zero_left _ (or_and_ne_zero_left _
          (or_and_ne_zero_left _ h)))
      · exact or_and_ne_zero_left _ (or_and_ne_zero_left _ (or_and_ne_zero_left _
          (or_and_ne_zero_right _ h)))
      · exact or_and_ne_zero_left _ (or_and_ne_zero_left _ (or_and_ne_zero_right _ h))
      · exact or_and_ne_zero_left _ (or_and_ne_zero_right _ h)
      · exact or_and_ne_zero_right _ h
    unfold has_cap
    rw [hbase]
    split_ifs
    · simpa using or_and_ne_zero_left _ h5
    · simpa using or_and_ne_zero_left _ h5
    · simpa using h5
  have hzero : ∀ m, k.STORE_DWORD_CAP &&& m = 0 → k.STORE_QWORD_CAP &&& m = 0 →
      k.FENCE_CAP &&& m = 0 → k.POLL_AND_DWORD_CAP &&& m = 0 → k.POLL_GEQ_DWORD_CAP &&& m = 0 →
      (k.STORE_DWORD_CAP ||| k.STORE_QWORD_CAP ||| k.FENCE_CAP ||| k.POLL_AND_DWORD_CAP
        ||| k.POLL_GEQ_DWORD_CAP) &&& m = 0 := by
    intro m a1 a2 a3 a4 a5
    exact or_and_eq_zero (or_and_eq_zero (or_and_eq_zero (or_and_eq_zero a1 a2) a3) a4) a5
  have hcb : has_cap (gds_init_peer_attr k c.build c.env) k.COPY_BLOCK_CAP
      = gds_enable_inlcpy c.build c.env := by
    unfold has_cap
    rw [hbase]
    cases hi : gds_enable_inlcpy c.build c.env with
    | true =>
      simp only [if_true]
      simpa using or_and_ne_zero_right _ (and_self_ne_zero z7)
    | false =>
      simp only [Bool.false_eq_true, if_false]
      split_ifs
      · rw [or_and_eq_zero (hzero _ c1 c2 c3 c4 c5) c2]; rfl
      · rw [hzero _ c1 c2 c3 c4 c5]; rfl
  refine ⟨?_, ?_, ?_, ?_, ?_, ?_, ?_, ?_, ?_, ?_⟩
  · rw [hcb]
  · intro hi
    unfold gds_post_op
    simp [hi]
  · intro hi
    have hb := has_inline_copy_of_enable_inlcpy hi
    unfold gds_post_op
    simp only [hi, Bool.not_true, Bool.false_eq_true, if_false]
    split_ifs
    all_goals first
      | (left; exact ⟨rfl, rfl⟩)
      | (unfold gds_fill_inlcpy
         simp only [hb, if_true]
         split_ifs
         all_goals first
           | (left; exact ⟨rfl, rfl⟩)
           | (right; exact ⟨rfl, rfl⟩))
  · unfold has_cap
    rw [hbase]
    split_ifs
    · rw [or_and_eq_zero (hzero _ n1 n2 n3 n4 n5) n6]; rfl
    · rw [or_and_eq_zero (hzero _ n1 n2 n3 n4 n5) n2]; rfl
    · rw [hzero _ n1 n2 n3 n4 n5]; rfl
  · unfold gds_post_op
    simp [gpu_does_support_nor]
  · exact hbit _ (Or.inl (and_self_ne_zero z1))
  · exact hbit _ (Or.inr (Or.inl (and_self_ne_zero z2)))
  · exact hbit _ (Or.inr (Or.inr (Or.inl (and_self_ne_zero z3))))
  · exact hbit _ (Or.inr (Or.inr (Or.inr (Or.inl (and_self_ne_zero z4)))))
  · exact hbit _ (Or.inr (Or.inr (Or.inr (Or.inr (and_self_ne_zero z6)))))

/-- Witness for C37: with the capability bits at positions 4, 2, 0, 12, 13, 14
and 3, the plain build does not advertise `POLL_NOR` and the inline-copy build
advertises `COPY_BLOCK`. -/
theorem peer_caps_match_translator_witness :
    has_cap (gds_init_peer_attr ⟨16, 4, 1, 4096, 8192, 16384, 8⟩ Ctx.plain.build Ctx.plain.env)
      8192 = false ∧
    has_cap (gds_init_peer_attr ⟨16, 4, 1, 4096, 8192, 16384, 8⟩ Ctx.inlcpy.build
      Ctx.inlcpy.env) 8 = true :=
  ⟨(peer_caps_match_translator ⟨16, 4, 1, 4096, 8192, 16384, 8⟩ Ctx.plain 0 false 0 0 0 0 0
      { idx := 0, params := Params.zero, prev_was_fence := false, retcode := 0,
        aborted := false } (by unfold PeerOpCaps.distinct; decide)).2.2.2.1,
   ((peer_caps_match_translator ⟨16, 4, 1, 4096, 8192, 16384, 8⟩ Ctx.inlcpy 0 false 0 0 0 0 0
      { idx := 0, params := Params.zero, prev_was_fence := false, retcode := 0,
        aborted := false } (by unfold PeerOpCaps.distinct; decide)).1).mpr (by decide)⟩


/-! ## The mlx5 send extraction -/

theorem last_such_sat (p : peer_op_wr → Bool) (ops : List peer_op_wr) (o : peer_op_wr)
    (h : last_such p ops = some o) : p o = true := by
  induction ops with
  | nil => simp [last_such] at h
  | cons op ops ih =>
    unfold last_such at h
    cases hl : last_such p ops with
    | some o2 =>
      rw [hl] at h
      simp only [Option.some.injEq] at h
      subst h
      exact ih hl
    | none =>
      rw [hl] at h
      by_cases hp : p op = true
      · simp only [hp, if_true, Option.some.injEq] at h
        subst h
        exact hp
      · simp [hp] at h

theorem send_op_accepts (c : Ctx) (mem64 : Nat → Nat) (n : Nat) (op : peer_op_wr)
    (i : gds_mlx5_send_info_t) (h : (gds_mlx5_send_op c mem64 n op i).1 = 0) :
    spec_send_accepts n op = true := by
  cases op <;> simp only [gds_mlx5_send_op, spec_send_accepts] at h ⊢
  all_goals first
    | (simp [EINVAL] at h; done)
    | (split_ifs at h <;> simp_all [EINVAL])

theorem send_loop_accepts (c : Ctx) (mem64 : Nat → Nat) (ops : List peer_op_wr) :
    ∀ (fuel n : Nat) (i : gds_mlx5_send_info_t),
      (gds_mlx5_get_send_descs_loop c mem64 fuel n ops i).1 = 0 →
      ∀ (k : Nat) (op : peer_op_wr), (ops.take fuel)[k]? = some op →
        spec_send_accepts (n + k) op = true := by
  induction ops with
  | nil => intro fuel n i _ k op hk; simp at hk
  | cons o ops ih =>
    intro fuel n i h k op hk
    cases fuel with
    | zero => simp at hk
    | succ f =>
      simp only [gds_mlx5_get_send_descs_loop] at h
      by_cases hr : (gds_mlx5_send_op c mem64 n o i).1 = 0
      · rw [if_neg (not_not.mpr hr)] at h
        cases k with
        | zero =>
          simp only [List.take_succ_cons, List.getElem?_cons_zero, Option.some.injEq] at hk
          subst hk
          exact send_op_accepts c mem64 n o i hr
        | succ j =>
          simp only [List.take_succ_cons, List.getElem?_cons_succ] at hk
          have := ih f (n + 1) _ h j op hk
          rw [show n + (j + 1) = n + 1 + j by omega]
          exact this
      · rw [if_pos hr] at h
        exact absurd h hr

theorem send_op_dbrec_later (c : Ctx) (mem64 : Nat → Nat) (n : Nat) (op : peer_op_wr)
    (i : gds_mlx5_send_info_t) (hn : 1 ≤ n) :
    (gds_mlx5_send_op c mem64 n op i).2.dbrec_ptr = i.dbrec_ptr ∧
    (gds_mlx5_send_op c mem64 n op i).2.dbrec_value = i.dbrec_value := by
  cases op <;> simp only [gds_mlx5_send_op]
  all_goals first
    | exact ⟨rfl, rfl⟩
    | exact ⟨trivial, trivial⟩
    | (split_ifs <;> first | exact ⟨rfl, rfl⟩ | omega)

theorem send_loop_dbrec_later (c : Ctx) (mem64 : Nat → Nat) (ops : List peer_op_wr) :
    ∀ (fuel n : Nat) (i : gds_mlx5_send_info_t), 1 ≤ n →
      (gds_mlx5_get_send_descs_loop c mem64 fuel n ops i).2.dbrec_ptr = i.dbrec_ptr ∧
      (gds_mlx5_get_send_descs_loop c mem64 fuel n ops i).2.dbrec_value = i.dbrec_value := by
  induction ops with
  | nil => intro fuel n i _; cases fuel <;> exact ⟨rfl, rfl⟩
  | cons o ops ih =>
    intro fuel n i hn
    cases fuel with
    | zero => exact ⟨rfl, rfl⟩
    | succ f =>
      simp only [gds_mlx5_get_send_descs_loop]
      have hs := send_op_dbrec_later c mem64 n o i hn
      split_ifs
      · exact hs
      · have := ih f (n + 1) (gds_mlx5_send_op c mem64 n o i).2 (by omega)
        exact ⟨this.1.trans hs.1, this.2.trans hs.2⟩

theorem send_op_dbrec_first (c : Ctx) (mem64 : Nat → Nat) (op : peer_op_wr)
    (ops : List peer_op_wr) (i : gds_mlx5_send_info_t)
    (h : (gds_mlx5_send_op c mem64 0 op i).1 = 0)
    (hi : i.dbrec_ptr = 0 ∧ i.dbrec_value = 0) :
    ((gds_mlx5_send_op c mem64 0 op i).2.dbrec_ptr,
      (gds_mlx5_send_op c mem64 0 op i).2.dbrec_value) = spec_send_dbrec c (op :: ops) := by
  cases op <;> simp only [gds_mlx5_send_op, spec_send_dbrec] at h ⊢
  all_goals first
    | (simp [hi.1, hi.2]; done)
    | (split_ifs <;> simp [hi.1, hi.2])

/-- The doorbell a send extraction leaves, given the one it started from. -/
theorem send_loop_db (c : Ctx) (mem64 : Nat → Nat) (ops : List peer_op_wr) :
    ∀ (fuel n : Nat) (i : gds_mlx5_send_info_t),
      (gds_mlx5_get_send_descs_loop c mem64 fuel n ops i).1 = 0 →
      ((gds_mlx5_get_send_descs_loop c mem64 fuel n ops i).2.db_ptr,
        (gds_mlx5_get_send_descs_loop c mem64 fuel n ops i).2.db_value) =
      (match last_such peer_op_wr.isWideOrCopy (ops.take fuel) with
        | some (.STORE_QWORD data target_id offset) =>
          ((c.dptr target_id + offset) % 2 ^ 64, data % 2 ^ 64)
        | some (.COPY_BLOCK src _ target_id offset) =>
          ((c.dptr target_id + offset) % 2 ^ 64, mem64 src)
        | _ => (i.db_ptr, i.db_value)) := by
  induction ops with
  | nil => intro fuel n i _; cases fuel <;> simp [gds_mlx5_get_send_descs_loop, last_such]
  | cons o ops ih =>
    intro fuel n i h
    cases fuel with
    | zero => simp [gds_mlx5_get_send_descs_loop, last_such]
    | succ f =>
      simp only [gds_mlx5_get_send_descs_loop] at h ⊢
      by_cases hr : (gds_mlx5_send_op c mem64 n o i).1 = 0
      · rw [if_neg (not_not.mpr hr)] at h ⊢
        rw [ih f (n + 1) _ h]
        simp only [List.take_succ_cons, last_such]
        cases hl : last_such peer_op_wr.isWideOrCopy (List.take f ops) with
        | some o2 =>
          have hs := last_such_sat _ _ _ hl
          cases o2 <;> simp only [peer_op_wr.isWideOrCopy] at hs <;> first | rfl | exact absurd hs (by decide)
        | none =>
          cases o with
          | COPY_BLOCK src len target_id offset =>
            by_cases hlen : len < 8 ∨ len > 64
            · simp [gds_mlx5_send_op, hlen, EINVAL] at hr
            · simp [gds_mlx5_send_op, hlen, peer_op_wr.isWideOrCopy]
          | STORE_QWORD data target_id offset =>
            by_cases hn : n = 2
            · simp [gds_mlx5_send_op, hn, peer_op_wr.isWideOrCopy]
            · simp [gds_mlx5_send_op, hn, EINVAL] at hr
          | STORE_DWORD data target_id offset =>
            simp only [gds_mlx5_send_op, peer_op_wr.isWideOrCopy]
            split_ifs <;> simp
          | FENCE fence_flags =>
            simp only [gds_mlx5_send_op, peer_op_wr.isWideOrCopy]
            split_ifs <;> simp
          | POLL_AND_DWORD _ _ _ => simp [gds_mlx5_send_op, peer_op_wr.isWideOrCopy]
          | POLL_GEQ_DWORD _ _ _ => simp [gds_mlx5_send_op, peer_op_wr.isWideOrCopy]
          | POLL_NOR_DWORD _ _ _ => simp [gds_mlx5_send_op, peer_op_wr.isWideOrCopy]
          | UNDEFINED _ => simp [gds_mlx5_send_op, peer_op_wr.isWideOrCopy]
      · rw [if_pos hr] at h
        exact absurd h hr

/-- C38: when `gds_mlx5_get_send_descs` returns `0`, then among the first
`commit.entries` ops every StoreNarrow is at position 0, every StoreWide is at
position 2, every CopyBlock has `8 <= len <= 64`, no op is a poll, and every
write-direction fence is from the HCA with domain exactly peer-memory or
system-memory; and `dbrec_ptr`/`dbrec_value` are the address and data of the
StoreNarrow, `db_ptr`/`db_value` those of the last StoreWide or CopyBlock (for a
CopyBlock the 8 bytes at its source), each pair zero when there is no such op. -/
theorem gds_mlx5_get_send_descs_zero_only_if (c : Ctx) (mem64 : Nat → Nat)
    (request : gds_send_request_t)
    (h : (gds_mlx5_get_send_descs c mem64 request).1 = 0) :
    (∀ (k data target_id offset : Nat),
      (request.commit.storage.take (u32 request.commit.entries))[k]?
        = some (.STORE_DWORD data target_id offset) → k = 0) ∧
    (∀ (k data target_id offset : Nat),
      (request.commit.storage.take (u32 request.commit.entries))[k]?
        = some (.STORE_QWORD data target_id offset) → k = 2) ∧
    (∀ (k src len target_id offset : Nat),
      (request.commit.storage.take (u32 request.commit.entries))[k]?
        = some (.COPY_BLOCK src len target_id offset) → 8 ≤ len ∧ len ≤ 64) ∧
    (∀ (k : Nat) (op : peer_op_wr),
      (request.commit.storage.take (u32 request.commit.entries))[k]? = some op →
        op.isPoll = false) ∧
    (∀ (k f : Nat),
      (request.commit.storage.take (u32 request.commit.entries))[k]? = some (.FENCE f) →
      f &&& (IBV_EXP_PEER_FENCE_OP_READ ||| IBV_EXP_PEER_FENCE_OP_WRITE)
        ≠ IBV_EXP_PEER_FENCE_OP_READ →
      f &&& (IBV_EXP_PEER_FENCE_FROM_CPU ||| IBV_EXP_PEER_FENCE_FROM_HCA)
          = IBV_EXP_PEER_FENCE_FROM_HCA ∧
        (f &&& (IBV_EXP_PEER_FENCE_MEM_SYS ||| IBV_EXP_PEER_FENCE_MEM_PEER)
            = IBV_EXP_PEER_FENCE_MEM_PEER ∨
          f &&& (IBV_EXP_PEER_FENCE_MEM_SYS ||| IBV_EXP_PEER_FENCE_MEM_PEER)
            = IBV_EXP_PEER_FENCE_MEM_SYS)) ∧
    ((gds_mlx5_get_send_descs c mem64 request).2.dbrec_ptr,
        (gds_mlx5_get_send_descs c mem64 request).2.dbrec_value)
      = spec_send_dbrec c (request.commit.storage.take (u32 request.commit.entries)) ∧
    ((gds_mlx5_get_send_descs c mem64 request).2.db_ptr,
        (gds_mlx5_get_send_descs c mem64 request).2.db_value)
      = spec_send_db c mem64 (request.commit.storage.take (u32 request.commit.entries)) := by
  unfold gds_mlx5_get_send_descs at h ⊢
  have hacc := send_loop_accepts c mem64 request.commit.storage (u32 request.commit.entries) 0
    gds_mlx5_send_info_t.zero h
  refine ⟨?_, ?_, ?_, ?_, ?_, ?_, ?_⟩
  · intro k data target_id offset hk
    have := hacc k _ hk
    simpa [spec_send_accepts] using this
  · intro k data target_id offset hk
    have := hacc k _ hk
    simpa [spec_send_accepts] using this
  · intro k src len target_id offset hk
    have := hacc k _ hk
    simpa [spec_send_accepts] using this
  · intro k op hk
    have := hacc k _ hk
    cases op <;> simp_all [spec_send_accepts, peer_op_wr.isPoll]
  · intro k f hk hw
    have := hacc k _ hk
    simp only [spec_send_accepts, Bool.or_eq_true, Bool.and_eq_true, decide_eq_true_eq] at this
    rcases this with hr | ⟨h1, h2⟩
    · exact absurd hr hw
    · exact ⟨h1, h2⟩
  · generalize hf : u32 request.commit.entries = fuel at h ⊢
    generalize hops : request.commit.storage = ops at h ⊢
    cases fuel with
    | zero => simp [gds_mlx5_get_send_descs_loop, spec_send_dbrec, gds_mlx5_send_info_t.zero]
    | succ f =>
      cases ops with
      | nil => simp [gds_mlx5_get_send_descs_loop, spec_send_dbrec, gds_mlx5_send_info_t.zero]
      | cons o rest =>
        simp only [gds_mlx5_get_send_descs_loop] at h ⊢
        by_cases hr : (gds_mlx5_send_op c mem64 0 o gds_mlx5_send_info_t.zero).1 = 0
        · rw [if_neg (not_not.mpr hr)] at h ⊢
          have hl := send_loop_dbrec_later c mem64 rest f (0 + 1)
            (gds_mlx5_send_op c mem64 0 o gds_mlx5_send_info_t.zero).2 (by omega)
          rw [hl.1, hl.2, List.take_succ_cons]
          exact send_op_dbrec_first c mem64 o _ _ hr ⟨rfl, rfl⟩
        · rw [if_pos hr] at h
          exact absurd h hr
  · rw [send_loop_db c mem64 _ _ _ _ h]
    unfold spec_send_db
    rfl

theorem gds_mlx5_get_send_descs_zero_only_if_witness :
    (gds_mlx5_get_send_descs Ctx.plain (fun _ => 0)
      { commit := { entries := 3,
                    storage := [.STORE_DWORD 5 4096 4, .FENCE 26, .STORE_QWORD 7 8192 8] } }).1 = 0 ∧
    ((gds_mlx5_get_send_descs Ctx.plain (fun _ => 0)
        { commit := { entries := 3,
                      storage := [.STORE_DWORD 5 4096 4, .FENCE 26, .STORE_QWORD 7 8192 8] } }).2.db_ptr,
      (gds_mlx5_get_send_descs Ctx.plain (fun _ => 0)
        { commit := { entries := 3,
                      storage := [.STORE_DWORD 5 4096 4, .FENCE 26, .STORE_QWORD 7 8192 8] } }).2.db_value)
      = spec_send_db Ctx.plain (fun _ => 0)
          (List.take (u32 3) [.STORE_DWORD 5 4096 4, .FENCE 26, .STORE_QWORD 7 8192 8]) :=
  ⟨by decide,
   (gds_mlx5_get_send_descs_zero_only_if Ctx.plain (fun _ => 0)
      { commit := { entries := 3,
                    storage := [.STORE_DWORD 5 4096 4, .FENCE 26, .STORE_QWORD 7 8192 8] } }
      (by decide)).2.2.2.2.2.2⟩

/-- A run of the send extraction: doorbell record from the StoreNarrow, heavy
barrier from the system-memory fence, doorbell from the StoreWide. -/
theorem gds_mlx5_get_send_descs_example :
    gds_mlx5_get_send_descs Ctx.plain (fun _ => 0)
      { commit := { entries := 3,
                    storage := [.STORE_DWORD 5 4096 4, .FENCE 26, .STORE_QWORD 7 8192 8] } }
      = (0, { membar := 0, membar_full := 1, dbrec_ptr := 4100, dbrec_value := 5,
              db_ptr := 8200, db_value := 7 }) := by
  decide


/-! ## The mlx5 wait extraction -/

theorem any_at_iff (rej : Nat → peer_op_wr → Bool) (ops : List peer_op_wr) :
    ∀ (n : Nat), any_at rej n ops = true ↔
      ∃ (k : Nat) (op : peer_op_wr), ops[k]? = some op ∧ rej (n + k) op = true := by
  induction ops with
  | nil => intro n; simp [any_at]
  | cons o ops ih =>
    intro n
    simp only [any_at, Bool.or_eq_true, ih]
    constructor
    · rintro (h | ⟨k, op, hk, hr⟩)
      · exact ⟨0, o, by simp, by simpa using h⟩
      · exact ⟨k + 1, op, by simpa using hk, by rw [show n + (k + 1) = n + 1 + k by omega]; exact hr⟩
    · rintro ⟨k, op, hk, hr⟩
      cases k with
      | zero =>
        simp only [List.getElem?_cons_zero, Option.some.injEq] at hk
        subst hk
        exact Or.inl (by simpa using hr)
      | succ j =>
        simp only [List.getElem?_cons_succ] at hk
        exact Or.inr ⟨j, op, hk, by rw [show n + 1 + j = n + (j + 1) by omega]; exact hr⟩

theorem wait_op_ret (c : Ctx) (n : Nat) (op : peer_op_wr) (i : gds_mlx5_wait_info_t) :
    (gds_mlx5_wait_op c n op i).1 =
      if (spec_wait_rejects n op || op.isUndefined) = true then EINVAL else 0 := by
  cases op <;> simp only [gds_mlx5_wait_op, spec_wait_rejects, peer_op_wr.isUndefined]
  all_goals first
    | (simp; done)
    | (split_ifs <;> simp_all)

theorem wait_loop_ret (c : Ctx) (ops : List peer_op_wr) :
    ∀ (fuel n : Nat) (i : gds_mlx5_wait_info_t),
      (gds_mlx5_get_wait_descs_loop c fuel n ops i).1 =
        if any_at (fun k op => spec_wait_rejects k op || op.isUndefined) n (ops.take fuel) = true
        then EINVAL else 0 := by
  induction ops with
  | nil => intro fuel n i; cases fuel <;> simp [gds_mlx5_get_wait_descs_loop, any_at]
  | cons o ops ih =>
    intro fuel n i
    cases fuel with
    | zero => simp [gds_mlx5_get_wait_descs_loop, any_at]
    | succ f =>
      simp only [gds_mlx5_get_wait_descs_loop, List.take_succ_cons, any_at]
      have hs := wait_op_ret c n o i
      by_cases hr : (spec_wait_rejects n o || o.isUndefined) = true
      · rw [if_pos hr] at hs
        rw [if_pos (by rw [hs]; decide), hs]
        simp only [hr, Bool.true_or, if_true]
      · rw [if_neg hr] at hs
        rw [if_neg (not_not.mpr hs), ih]
        simp only [Bool.not_eq_true] at hr
        simp only [hr, Bool.false_or]

theorem wait_op_flag_other (c : Ctx) (n : Nat) (op : peer_op_wr) (i : gds_mlx5_wait_info_t)
    (hn : n ≠ 1) :
    ((gds_mlx5_wait_op c n op i).2.flag_ptr, (gds_mlx5_wait_op c n op i).2.flag_value)
      = (i.flag_ptr, i.flag_value) := by
  cases op <;> simp only [gds_mlx5_wait_op]
  all_goals first
    | rfl
    | (split_ifs <;> rfl)

theorem wait_loop_flag_later (c : Ctx) (ops : List peer_op_wr) :
    ∀ (fuel n : Nat) (i : gds_mlx5_wait_info_t), 2 ≤ n →
      ((gds_mlx5_get_wait_descs_loop c fuel n ops i).2.flag_ptr,
        (gds_mlx5_get_wait_descs_loop c fuel n ops i).2.flag_value)
        = (i.flag_ptr, i.flag_value) := by
  induction ops with
  | nil => intro fuel n i _; cases fuel <;> rfl
  | cons o ops ih =>
    intro fuel n i hn
    cases fuel with
    | zero => rfl
    | succ f =>
      simp only [gds_mlx5_get_wait_descs_loop]
      have hs := wait_op_flag_other c n o i (by omega)
      split_ifs
      · exact hs
      · exact (ih f (n + 1) _ (by omega)).trans hs

theorem wait_loop_flag_second (c : Ctx) (ops : List peer_op_wr) (fuel : Nat)
    (i : gds_mlx5_wait_info_t)
    (h : (gds_mlx5_get_wait_descs_loop c fuel 1 ops i).1 = 0) :
    ((gds_mlx5_get_wait_descs_loop c fuel 1 ops i).2.flag_ptr,
      (gds_mlx5_get_wait_descs_loop c fuel 1 ops i).2.flag_value)
      = (match ops.take fuel with
          | .STORE_DWORD data target_id offset :: _ =>
            ((c.dptr target_id + offset) % 2 ^ 64, data % 2 ^ 32)
          | _ => (i.flag_ptr, i.flag_value)) := by
  cases fuel with
  | zero => simp [gds_mlx5_get_wait_descs_loop]
  | succ f =>
    cases ops with
    | nil => simp [gds_mlx5_get_wait_descs_loop]
    | cons o rest =>
      simp only [gds_mlx5_get_wait_descs_loop] at h ⊢
      by_cases hr : (gds_mlx5_wait_op c 1 o i).1 = 0
      · rw [if_neg (not_not.mpr hr)] at h ⊢
        rw [wait_loop_flag_later c rest f (1 + 1) _ (by omega), List.take_succ_cons]
        cases o <;> simp only [gds_mlx5_wait_op] at hr ⊢
        all_goals first
          | rfl
          | (split_ifs <;> rfl)
      · rw [if_pos hr] at h
        exact absurd h hr

theorem wait_loop_flag_first (c : Ctx) (ops : List peer_op_wr) (fuel : Nat)
    (h : (gds_mlx5_get_wait_descs_loop c fuel 0 ops gds_mlx5_wait_info_t.zero).1 = 0) :
    ((gds_mlx5_get_wait_descs_loop c fuel 0 ops gds_mlx5_wait_info_t.zero).2.flag_ptr,
      (gds_mlx5_get_wait_descs_loop c fuel 0 ops gds_mlx5_wait_info_t.zero).2.flag_value)
      = spec_wait_flag c (ops.take fuel) := by
  cases fuel with
  | zero => simp [gds_mlx5_get_wait_descs_loop, spec_wait_flag, gds_mlx5_wait_info_t.zero]
  | succ f =>
    cases ops with
    | nil => simp [gds_mlx5_get_wait_descs_loop, spec_wait_flag, gds_mlx5_wait_info_t.zero]
    | cons o rest =>
      simp only [gds_mlx5_get_wait_descs_loop] at h ⊢
      by_cases hr : (gds_mlx5_wait_op c 0 o gds_mlx5_wait_info_t.zero).1 = 0
      · rw [if_neg (not_not.mpr hr)] at h ⊢
        rw [wait_loop_flag_second c rest f _ h, List.take_succ_cons]
        have h0 := wait_op_flag_other c 0 o gds_mlx5_wait_info_t.zero (by decide)
        rw [h0]
        unfold spec_wait_flag
        cases hl : List.take f rest with
        | nil => rfl
        | cons b bs => cases b <;> rfl
      · rw [if_pos hr] at h
        exact absurd h hr

/-- The completion entry a wait extraction leaves, given the one it started
from. -/
theorem wait_loop_cqe (c : Ctx) (ops : List peer_op_wr) :
    ∀ (fuel n : Nat) (i : gds_mlx5_wait_info_t),
      (gds_mlx5_get_wait_descs_loop c fuel n ops i).1 = 0 →
      ((gds_mlx5_get_wait_descs_loop c fuel n ops i).2.cqe_ptr,
        (gds_mlx5_get_wait_descs_loop c fuel n ops i).2.cqe_value,
        (gds_mlx5_get_wait_descs_loop c fuel n ops i).2.cond) =
      (match last_such peer_op_wr.isPoll (ops.take fuel) with
        | some (.POLL_AND_DWORD data target_id offset) =>
          ((c.dptr target_id + offset) % 2 ^ 64, data % 2 ^ 32, GDS_WAIT_COND_AND)
        | some (.POLL_GEQ_DWORD data target_id offset) =>
          ((c.dptr target_id + offset) % 2 ^ 64, data % 2 ^ 32, GDS_WAIT_COND_GEQ)
        | some (.POLL_NOR_DWORD data target_id offset) =>
          ((c.dptr target_id + offset) % 2 ^ 64, data % 2 ^ 32, GDS_WAIT_COND_NOR)
        | _ => (i.cqe_ptr, i.cqe_value, i.cond)) := by
  induction ops with
  | nil => intro fuel n i _; cases fuel <;> simp [gds_mlx5_get_wait_descs_loop, last_such]
  | cons o ops ih =>
    intro fuel n i h
    cases fuel with
    | zero => simp [gds_mlx5_get_wait_descs_loop, last_such]
    | succ f =>
      simp only [gds_mlx5_get_wait_descs_loop] at h ⊢
      by_cases hr : (gds_mlx5_wait_op c n o i).1 = 0
      · rw [if_neg (not_not.mpr hr)] at h ⊢
        rw [ih f (n + 1) _ h]
        simp only [List.take_succ_cons, last_such]
        cases hl : last_such peer_op_wr.isPoll (List.take f ops) with
        | some o2 =>
          have hs := last_such_sat _ _ _ hl
          cases o2 <;> simp only [peer_op_wr.isPoll] at hs <;>
            first | rfl | exact absurd hs (by decide)
        | none =>
          cases o with
          | STORE_DWORD data target_id offset =>
            simp only [gds_mlx5_wait_op, peer_op_wr.isPoll]
            split_ifs <;> simp
          | FENCE fence_flags =>
            simp only [gds_mlx5_wait_op, peer_op_wr.isPoll]
            split_ifs <;> simp
          | STORE_QWORD _ _ _ => simp [gds_mlx5_wait_op, peer_op_wr.isPoll]
          | COPY_BLOCK _ _ _ _ => simp [gds_mlx5_wait_op, peer_op_wr.isPoll]
          | POLL_AND_DWORD _ _ _ => simp [gds_mlx5_wait_op, peer_op_wr.isPoll]
          | POLL_GEQ_DWORD _ _ _ => simp [gds_mlx5_wait_op, peer_op_wr.isPoll]
          | POLL_NOR_DWORD _ _ _ => simp [gds_mlx5_wait_op, peer_op_wr.isPoll]
          | UNDEFINED _ => simp [gds_mlx5_wait_op, peer_op_wr.isPoll]
      · rw [if_pos hr] at h
        exact absurd h hr

/-- C39 as stated fails: a request whose only op has a type the switch does not
know contains no write-direction fence, no StoreWide, no CopyBlock and no
StoreNarrow, yet `gds_mlx5_get_wait_descs` returns `EINVAL` for it, not `0`. -/
theorem gds_mlx5_get_wait_descs_unknown_op_is_einval :
    List.take (u32 1) [peer_op_wr.UNDEFINED 99] = [peer_op_wr.UNDEFINED 99] ∧
    spec_wait_rejects 0 (peer_op_wr.UNDEFINED 99) = false ∧
    (gds_mlx5_get_wait_descs Ctx.plain
      { peek := { entries := 1, storage := [.UNDEFINED 99] } }).1 = EINVAL ∧
    (gds_mlx5_get_wait_descs Ctx.plain
      { peek := { entries := 1, storage := [.UNDEFINED 99] } }).1 ≠ 0 := by
  decide

/-- C39 (amended): `gds_mlx5_get_wait_descs` returns `EINVAL` for every request
whose first `peek.entries` ops contain a write-direction fence, a StoreWide, a
CopyBlock, a StoreNarrow at a position other than 1, or an op of unknown type;
for every other request it returns `0` with `flag_ptr`/`flag_value` taken from
the StoreNarrow (zero when there is none) and `cqe_ptr`/`cqe_value`/`cond` taken
from the last poll op (zero when there is none), the condition being
`GDS_WAIT_COND_AND` for AND, `GDS_WAIT_COND_GEQ` for GEQ and `GDS_WAIT_COND_NOR`
for NOR. -/
theorem gds_mlx5_get_wait_descs_result (c : Ctx) (request : gds_wait_request_t) :
    ((∃ (k : Nat) (op : peer_op_wr),
        (request.peek.storage.take (u32 request.peek.entries))[k]? = some op ∧
        (spec_wait_rejects k op = true ∨ op.isUndefined = true)) →
      (gds_mlx5_get_wait_descs c request).1 = EINVAL) ∧
    ((∀ (k : Nat) (op : peer_op_wr),
        (request.peek.storage.take (u32 request.peek.entries))[k]? = some op →
        spec_wait_rejects k op = false ∧ op.isUndefined = false) →
      (gds_mlx5_get_wait_descs c request).1 = 0 ∧
      ((gds_mlx5_get_wait_descs c request).2.flag_ptr,
          (gds_mlx5_get_wait_descs c request).2.flag_value)
        = spec_wait_flag c (request.peek.storage.take (u32 request.peek.entries)) ∧
      ((gds_mlx5_get_wait_descs c request).2.cqe_ptr,
          (gds_mlx5_get_wait_descs c request).2.cqe_value,
          (gds_mlx5_get_wait_descs c request).2.cond)
        = spec_wait_cqe c (request.peek.storage.take (u32 request.peek.entries))) := by
  unfold gds_mlx5_get_wait_descs
  have hret := wait_loop_ret c request.peek.storage (u32 request.peek.entries) 0
    gds_mlx5_wait_info_t.zero
  have hiff := any_at_iff (fun k op => spec_wait_rejects k op || op.isUndefined)
    (request.peek.storage.take (u32 request.peek.entries)) 0
  constructor
  · rintro ⟨k, op, hk, hr⟩
    have hany : any_at (fun k op => spec_wait_rejects k op || op.isUndefined) 0
        (request.peek.storage.take (u32 request.peek.entries)) = true :=
      hiff.mpr ⟨k, op, hk, by
        simp only [Nat.zero_add, Bool.or_eq_true]
        exact hr⟩
    rw [hret, if_pos hany]
  · intro hall
    have hany : ¬ any_at (fun k op => spec_wait_rejects k op || op.isUndefined) 0
        (request.peek.storage.take (u32 request.peek.entries)) = true := by
      intro hc
      obtain ⟨k, op, hk, hr⟩ := hiff.mp hc
      have := hall k op hk
      simp only [Nat.zero_add, Bool.or_eq_true] at hr
      rcases hr with hr | hr
      · rw [this.1] at hr
        exact absurd hr (by decide)
      · rw [this.2] at hr
        exact absurd hr (by decide)
    have h0 : (gds_mlx5_get_wait_descs_loop c (u32 request.peek.entries) 0 request.peek.storage
        gds_mlx5_wait_info_t.zero).1 = 0 := by
      rw [hret, if_neg hany]
    refine ⟨h0, wait_loop_flag_first c _ _ h0, ?_⟩
    rw [wait_loop_cqe c _ _ _ _ h0]
    unfold spec_wait_cqe
    rfl

theorem gds_mlx5_get_wait_descs_result_witness :
    (gds_mlx5_get_wait_descs Ctx.plain
      { peek := { entries := 1, storage := [.STORE_QWORD 7 4096 0] } }).1 = EINVAL ∧
    (gds_mlx5_get_wait_descs Ctx.plain
      { peek := { entries := 2,
                  storage := [.POLL_GEQ_DWORD 3 4096 0, .STORE_DWORD 9 8192 4] } }).1 = 0 :=
  ⟨(gds_mlx5_get_wait_descs_result Ctx.plain
      { peek := { entries := 1, storage := [.STORE_QWORD 7 4096 0] } }).1
      ⟨0, .STORE_QWORD 7 4096 0, by decide, Or.inl (by decide)⟩,
   ((gds_mlx5_get_wait_descs_result Ctx.plain
      { peek := { entries := 2,
                  storage := [.POLL_GEQ_DWORD 3 4096 0, .STORE_DWORD 9 8192 4] } }).2
      (by
        intro k op hk
        have ht : List.take (u32 2) [peer_op_wr.POLL_GEQ_DWORD 3 4096 0,
            peer_op_wr.STORE_DWORD 9 8192 4]
            = [.POLL_GEQ_DWORD 3 4096 0, .STORE_DWORD 9 8192 4] := by decide
        rw [ht] at hk
        rcases k with _ | _ | k
        · simp only [List.getElem?_cons_zero, Option.some.injEq] at hk
          subst hk
          decide
        · simp only [List.getElem?_cons_succ, List.getElem?_cons_zero, Option.some.injEq] at hk
          subst hk
          decide
        · simp at hk)).1⟩

/-- A run of the wait extraction: completion entry from the poll, flag from the
StoreNarrow at position 1. -/
theorem gds_mlx5_get_wait_descs_example :
    gds_mlx5_get_wait_descs Ctx.plain
      { peek := { entries := 2,
                  storage := [.POLL_GEQ_DWORD 3 4096 0, .STORE_DWORD 9 8192 4] } }
      = (0, { cond := GDS_WAIT_COND_GEQ, cqe_ptr := 4096, cqe_value := 3,
              flag_ptr := 8196, flag_value := 9 }) := by
  decide

end GDSync
